import Mathlib

/-!
Entity resolution, upsert coordination and workload simulation.

A shallow embedding of the Go packages `update`, `query`, `testdata` and of
`runSimulation` from `spannerlab.go`.

The Cloud Spanner client, the logging sink and `math/rand` are external
collaborators.  They are represented by an explicit `World`:

* `store`    : the two tables, `Singers` and `Albums`;
* `randSrc`  : the sequence of raw draws of the process-wide random source,
               read at position `randPos`;
* `faults`   : the outcome of the n-th store operation (a query execution, a
               DML statement or a commit): `none` means it succeeds,
               `some msg` means the store reports a failure with that message;
* `trace`    : the store operations and spans issued so far, in order;
* `logs`, `stdout` : what was sent to `applog` and to standard output.

Go's `int64` values are integers; a `*int64` result is an `Option Int`
(`none` is the nil pointer); an `error` result is an `Option GoError`.
-/

namespace SpannerLab

/-! ## Values, rows and row iterators -/

/-- A column value of a result row. -/
inductive Value where
  | int64 (v : Int)
  | string (s : String)
  | null
  deriving DecidableEq, Repr

/-- A result row: its column values in SELECT order. -/
abbrev Row := List Value

/-- A Go `error` value: either built by `errors.New` or reported by the store client. -/
inductive GoError where
  | errorsNew (msg : String)
  | store (msg : String)
  deriving DecidableEq, Repr

/-- The method `Error()` of an error value. -/
def GoError.Error : GoError → String
  | .errorsNew msg => msg
  | .store msg => msg

/-- One element of a row stream: a row, or a failure reported by `Next`. -/
inductive StreamItem where
  | row (r : Row)
  | failure (err : GoError)
  deriving DecidableEq, Repr

/-- The state of a `spanner.RowIterator`: the items it has yet to yield.
The end of the list is `iterator.Done`. -/
structure RowIterator where
  pending : List StreamItem
  deriving DecidableEq, Repr

/-- What one call of `iter.Next()` reports. -/
inductive NextResult where
  | row (r : Row)
  | done
  | failure (err : GoError)
  deriving DecidableEq, Repr

/-- The call `iter.Next()`: the outcome and the iterator afterwards.  A failed
iterator keeps reporting its failure. -/
def RowIterator.Next (it : RowIterator) : NextResult × RowIterator :=
  match it.pending with
  | [] => (.done, it)
  | .row r :: rest => (.row r, ⟨rest⟩)
  | .failure e :: _ => (.failure e, it)

/-- The call `row.Columns(&dst)` with a single `*int64` destination holding
`dst`: the number of destinations must equal the number of columns and the
column must hold an INT64, otherwise an error is returned and the destination
is left as it was. -/
def Row.ColumnsInt64 (r : Row) (dst : Int) : Int × Option GoError :=
  match r with
  | [Value.int64 v] => (v, none)
  | [_] => (dst, some (.store "type mismatch decoding column 0"))
  | _ => (dst, some (.store "number of columns does not match number of destinations"))

/-- The call `row.Columns(&a, &b, &c)` with destinations `*int64, *int64, *string`. -/
def Row.ColumnsInt64Int64String (r : Row) : Except GoError (Int × Int × String) :=
  match r with
  | [Value.int64 a, Value.int64 b, Value.string c] => .ok (a, b, c)
  | [_, _, _] => .error (.store "type mismatch decoding row")
  | _ => .error (.store "number of columns does not match number of destinations")

/-- The call `row.Columns(&a, &b, &c)` with destinations `*int64, *string, *string`. -/
def Row.ColumnsInt64StringString (r : Row) : Except GoError (Int × String × String) :=
  match r with
  | [Value.int64 a, Value.string b, Value.string c] => .ok (a, b, c)
  | [_, _, _] => .error (.store "type mismatch decoding row")
  | _ => .error (.store "number of columns does not match number of destinations")

/-! ## The store -/

/-- A row of table `Singers`. -/
structure Singer where
  SingerId : Int
  FirstName : String
  LastName : String
  deriving DecidableEq, Repr

/-- A row of table `Albums`. -/
structure Album where
  SingerId : Int
  AlbumId : Int
  AlbumTitle : String
  deriving DecidableEq, Repr

/-- The contents of the database. -/
structure Store where
  singers : List Singer
  albums : List Album
  deriving DecidableEq, Repr

/-- The statements the program sends to the store.  The first four are the
parameterised statements of package `update`; `sql` is a statement without
parameters, given by its text. -/
inductive Statement where
  | insertAlbums (SingerId AlbumId : Int) (AlbumTitle : String)
  | insertSingers (SingerId : Int) (FirstName LastName : String)
  | selectAlbumId (SingerId : Int) (AlbumTitle : String)
  | selectSingerId (FirstName LastName : String)
  | sql (q : String)
  deriving DecidableEq, Repr

/-- Text of the query of `QueryAlbums`. -/
def sqlQueryAlbums : String := "SELECT SingerId, AlbumId, AlbumTitle FROM Albums"

/-- Text of the query of `QueryAlbumsLimit`. -/
def sqlQueryAlbumsLimit : String := "SELECT SingerId, AlbumId, AlbumTitle FROM Albums LIMIT 10"

/-- Text of the query of `QuerySingersFirstName`. -/
def sqlQuerySingersFirstName : String :=
  "SELECT SingerId, FirstName, LastName FROM Singers\n\t\t\t\tWHERE FirstName = 'Captain'"

/-- Text of the query of `QuerySingersLastName`. -/
def sqlQuerySingersLastName : String :=
  "SELECT SingerId, FirstName, LastName\n\t\t\t\tFROM Singers@\x7bFORCE_INDEX=SingersByLastName\x7d\n\t\t\t\tWHERE LastName = 'Zero'"

/-- Text of the query of `JoinSingerAlbum`. -/
def sqlJoinSingerAlbum : String :=
  "SELECT s.SingerId, s.FirstName, a.AlbumTitle\n\t\t\t\tFROM Singers AS s\n\t\t\t\tJOIN Albums AS a ON s.SingerId = a.SingerId;"

/-- Text of the query of `CountRows`: `fmt.Sprintf("SELECT COUNT(%s) FROM %s", ...)`. -/
def sqlCount (fieldName tableName : String) : String :=
  "SELECT COUNT(" ++ fieldName ++ ") FROM " ++ tableName

/-- Result row of the album queries. -/
def Album.toRow (a : Album) : Row := [.int64 a.SingerId, .int64 a.AlbumId, .string a.AlbumTitle]

/-- Result row of the singer queries. -/
def Singer.toRow (s : Singer) : Row := [.int64 s.SingerId, .string s.FirstName, .string s.LastName]

/-- The WHERE clause of the singer lookup:
`FirstName = @FirstName AND LastName = @LastName`. -/
def singerKey (firstName lastName : String) (s : Singer) : Bool :=
  decide (s.FirstName = firstName ∧ s.LastName = lastName)

/-- The WHERE clause of the album lookup:
`SingerId = @SingerId AND AlbumTitle = @AlbumTitle`. -/
def albumKey (singerId : Int) (albumTitle : String) (a : Album) : Bool :=
  decide (a.SingerId = singerId ∧ a.AlbumTitle = albumTitle)

/-- The rows a query statement selects, in table order; `none` when the store
cannot execute the statement as a query. -/
def execQuery (st : Store) : Statement → Option (List Row)
  | .selectSingerId firstName lastName =>
    some ((st.singers.filter (singerKey firstName lastName)).map (fun s => [.int64 s.SingerId]))
  | .selectAlbumId singerId albumTitle =>
    some ((st.albums.filter (albumKey singerId albumTitle)).map
      (fun a => [.int64 a.SingerId, .int64 a.AlbumId]))
  | .sql q =>
    if q = sqlQueryAlbums then some (st.albums.map Album.toRow)
    else if q = sqlQueryAlbumsLimit then some ((st.albums.take 10).map Album.toRow)
    else if q = sqlQuerySingersFirstName then
      some ((st.singers.filter (fun s => decide (s.FirstName = "Captain"))).map Singer.toRow)
    else if q = sqlQuerySingersLastName then
      some ((st.singers.filter (fun s => decide (s.LastName = "Zero"))).map Singer.toRow)
    else if q = sqlJoinSingerAlbum then
      some (st.singers.flatMap (fun s =>
        (st.albums.filter (fun a => decide (s.SingerId = a.SingerId))).map
          (fun a => [.int64 s.SingerId, .string s.FirstName, .string a.AlbumTitle])))
    else if q = sqlCount "SingerId" "Singers" then some [[.int64 st.singers.length]]
    else if q = sqlCount "AlbumId" "Albums" then some [[.int64 st.albums.length]]
    else none
  | .insertAlbums _ _ _ => none
  | .insertSingers _ _ _ => none

/-- The effect of a DML statement: the new contents and the row count; `none`
when the statement is not DML.  An INSERT appends its row.  The store's own
reasons to reject a row (such as a key that is already present) are failures
of the operation and come from `World.faults`. -/
def execUpdate (st : Store) : Statement → Option (Store × Int)
  | .insertSingers singerId firstName lastName =>
    some ({ st with singers := st.singers ++ [⟨singerId, firstName, lastName⟩] }, 1)
  | .insertAlbums singerId albumId albumTitle =>
    some ({ st with albums := st.albums ++ [⟨singerId, albumId, albumTitle⟩] }, 1)
  | _ => none

/-! ## The world: store gateway, random source, logging -/

/-- The transaction a query runs in: `client.Single()`, a
`ReadOnlyTransaction`, or the enclosing `ReadWriteTransaction`. -/
inductive TxnKind where
  | single
  | readOnly
  | readWrite
  deriving DecidableEq, Repr

/-- What the program asks of its collaborators, as recorded in `World.trace`. -/
inductive Event where
  | query (stmt : Statement) (kind : TxnKind)
  | update (stmt : Statement)
  | beginRW
  | commit
  | rollback
  | startSpan (name : String)
  | endSpan
  deriving DecidableEq, Repr

/-- Severity of a log entry of package `applog`. -/
inductive Severity where
  | info
  | error
  | critical
  deriving DecidableEq, Repr

/-- The state of everything outside the program. -/
structure World where
  store : Store
  randSrc : Nat → Nat
  randPos : Nat
  faults : Nat → Option String
  opCount : Nat
  trace : List Event
  logs : List (Severity × String)
  stdout : List String

/-- Record an event. -/
def World.emit (w : World) (e : Event) : World :=
  { w with trace := w.trace ++ [e] }

/-- The outcome of the next store operation. -/
def World.nextFault (w : World) : Option String × World :=
  (w.faults w.opCount, { w with opCount := w.opCount + 1 })

/-- The function `applog.Printf`: an entry of severity info. -/
def World.Printf (w : World) (msg : String) : World :=
  { w with logs := w.logs ++ [(Severity.info, msg)] }

/-- The function `applog.Errorf`: an entry of severity error. -/
def World.Errorf (w : World) (msg : String) : World :=
  { w with logs := w.logs ++ [(Severity.error, msg)] }

/-- The function `fmt.Printf` to standard output. -/
def World.print (w : World) (msg : String) : World :=
  { w with stdout := w.stdout ++ [msg] }

/-- The function `rand.Int63`: a non-negative 63-bit integer. -/
def Int63 (w : World) : Int × World :=
  (((w.randSrc w.randPos % 2 ^ 63 : Nat) : Int), { w with randPos := w.randPos + 1 })

/-- The function `rand.Int63n(n)` for `n > 0`: a draw reduced to `[0, n)`. -/
def Int63n (n : Nat) (w : World) : Nat × World :=
  (w.randSrc w.randPos % n, { w with randPos := w.randPos + 1 })

/-- The function `rand.Intn(n)` for `n > 0`: a draw reduced to `[0, n)`. -/
def Intn (n : Nat) (w : World) : Nat × World :=
  (w.randSrc w.randPos % n, { w with randPos := w.randPos + 1 })

/-- The world once a query has been sent to the store. -/
def World.afterQuery (w : World) (stmt : Statement) (kind : TxnKind) : World :=
  { w with trace := w.trace ++ [.query stmt kind], opCount := w.opCount + 1 }

/-- The value the k-th coming call of `rand.Int63` returns. -/
def World.draw (w : World) (k : Nat) : Int := ((w.randSrc (w.randPos + k) % 2 ^ 63 : Nat) : Int)

/-- Executing a query (`Query(ctx, stmt)` on a transaction of the given kind):
the row iterator it returns.  A failed execution shows as a failure of the
first `Next`. -/
def Query (stmt : Statement) (kind : TxnKind) (w : World) : RowIterator × World :=
  match (w.emit (.query stmt kind)).nextFault with
  | (some msg, w1) => (⟨[.failure (.store msg)]⟩, w1)
  | (none, w1) =>
    match execQuery w1.store stmt with
    | some rows => (⟨rows.map .row⟩, w1)
    | none => (⟨[.failure (.store "invalid query")]⟩, w1)

/-- The call `txn.Update(ctx, stmt)` inside a read-write transaction: the row
count and the error.  The write is visible to later reads of the transaction. -/
def Update (stmt : Statement) (w : World) : (Int × Option GoError) × World :=
  match (w.emit (.update stmt)).nextFault with
  | (some msg, w1) => ((0, some (.store msg)), w1)
  | (none, w1) =>
    match execUpdate w1.store stmt with
    | some (st, n) => ((n, none), { w1 with store := st })
    | none => ((0, some (.store "invalid DML")), w1)

/-- One attempt of `client.ReadWriteTransaction(ctx, body)`.  The body runs on
the store and its writes are kept when the commit succeeds; when the body
returns an error, or the commit fails, the store is put back as it was and the
error is returned.  The first component of the body's result is the value of
the Go variables it captures, which no rollback restores. -/
def ReadWriteTransaction {α : Type} (body : World → (α × Option GoError) × World)
    (w : World) : (α × Option GoError) × World :=
  match body (w.emit .beginRW) with
  | ((a, some err), w1) => ((a, some err), { w1.emit .rollback with store := w.store })
  | ((a, none), w1) =>
    match w1.nextFault with
    | (some msg, w2) => ((a, some (.store msg)), { w2.emit .rollback with store := w.store })
    | (none, w2) => ((a, none), w2.emit .commit)

/-! ## Package `update`: entity resolver and upsert coordinator -/

/-- Code of an `AppError` for a natural key that is absent. -/
def NOT_FOUND : Int := -1

/-- Code of an `AppError` for a lookup the store could not carry out. -/
def SPANNER_ERROR : Int := -2

/-- The error type of the entity resolver. -/
structure AppError where
  Message : String
  Code : Int
  deriving DecidableEq, Repr

/-- The method `Error()` of `AppError`. -/
def AppError.Error (e : AppError) : String := e.Message

/-- The not-found error of `getAlbumId`:
`fmt.Sprintf("Singer-Album %d %s not found", albumId, albumTitle)`. -/
def albumNotFound (albumId : Int) (albumTitle : String) : AppError :=
  ⟨"Singer-Album " ++ toString albumId ++ " " ++ albumTitle ++ " not found", NOT_FOUND⟩

/-- Package-level `addAlbum`: inserts an album under a random id in a
transaction of its own; returns the address of the id, and the error. -/
def addAlbum (singerId : Int) (albumTitle : String) (w : World) :
    (Option Int × Option GoError) × World :=
  match Int63 w with
  | (albumId, w1) =>
    match ReadWriteTransaction (fun wt =>
        match Update (.insertAlbums singerId albumId albumTitle) wt with
        | ((_, some err), wt1) => (((), some err), wt1)
        | ((rowCount, none), wt1) =>
          (((), none), wt1.Printf (toString rowCount ++ " record(s) inserted.\n"))) w1 with
    | ((_, err), w2) => ((some albumId, err), w2)

/-- Package-level `addSinger`: inserts a singer under a random id in a
transaction of its own; returns the id, and the error. -/
def addSinger (firstName lastName : String) (w : World) : (Int × Option GoError) × World :=
  match Int63 w with
  | (singerId, w1) =>
    match ReadWriteTransaction (fun wt =>
        match Update (.insertSingers singerId firstName lastName) wt with
        | ((_, some err), wt1) => (((), some err), wt1)
        | ((rowCount, none), wt1) =>
          (((), none), wt1.Printf (toString rowCount ++ " record(s) inserted.\n"))) w1 with
    | ((_, err), w2) => ((singerId, err), w2)

/-- The `for` loop of `getAlbumId` on the iterator of its query.  Every path
of the loop body returns, so the body runs once.  The two `row.Columns` calls
each pass a single destination. -/
def getAlbumId.loop (singerId : Int) (albumTitle : String) (iter : RowIterator) (w : World) :
    ((Option Int × Option AppError) × RowIterator) × World :=
  match iter.Next with
  | (.done, iter1) => (((none, some (albumNotFound singerId albumTitle)), iter1), w)
  | (.failure err, iter1) => (((none, some ⟨err.Error, SPANNER_ERROR⟩), iter1), w)
  | (.row row, iter1) =>
    match row.ColumnsInt64 0 with
    | (_, e1) =>
      match row.ColumnsInt64 0 with
      | (albumId, e2) =>
        (((some albumId, none), iter1),
          (if e2 ≠ none then
            (if e1 ≠ none then w.Printf "Failed to parse row" else w).Printf "Failed to parse row"
           else (if e1 ≠ none then w.Printf "Failed to parse row" else w)))

/-- The function `getAlbumId`: the query runs in the transaction when one is
supplied (`txn = true`), else as a single-use read. -/
def getAlbumId (txn : Bool) (singerId : Int) (albumTitle : String) (w : World) :
    (Option Int × Option AppError) × World :=
  match Query (.selectAlbumId singerId albumTitle) (if txn then .readWrite else .single) w with
  | (iter, w1) =>
    match getAlbumId.loop singerId albumTitle iter w1 with
    | ((res, _), w2) => (res, w2)

/-- The `for` loop of `getSingerId` on the iterator of its query.  The format
string of the not-found message has no verbs, so `Sprintf` appends its two
arguments as EXTRA. -/
def getSingerId.loop (firstName lastName : String) (iter : RowIterator) (w : World) :
    ((Int × Option AppError) × RowIterator) × World :=
  match iter.Next with
  | (.done, iter1) =>
    (((-1, some ⟨"Singer not found%!(EXTRA string=" ++ firstName ++ ", string=" ++ lastName ++ ")",
        NOT_FOUND⟩), iter1), w)
  | (.failure err, iter1) => (((-1, some ⟨err.Error, SPANNER_ERROR⟩), iter1), w)
  | (.row row, iter1) =>
    match row.ColumnsInt64 0 with
    | (singerID, e1) =>
      (((singerID, none), iter1), (if e1 ≠ none then w.Printf "Failed to parse row" else w))

/-- The function `getSingerId`. -/
def getSingerId (txn : Bool) (firstName lastName : String) (w : World) :
    (Int × Option AppError) × World :=
  match Query (.selectSingerId firstName lastName) (if txn then .readWrite else .single) w with
  | (iter, w1) =>
    match getSingerId.loop firstName lastName iter w1 with
    | ((res, _), w2) => (res, w2)

/-- Lines 93 to 107 of `AddAllNoTxn`: resolve the album, create it when absent. -/
def AddAllNoTxn.resolveAlbum (singerId : Int) (albumTitle : String) (w : World) :
    (Option Int × Option GoError) × World :=
  match getAlbumId false singerId albumTitle w with
  | ((albumId, none), w1) => ((albumId, none), w1)
  | ((_, some e), w1) =>
    if e.Code ≠ NOT_FOUND then
      ((none, some (.errorsNew e.Message)), w1.Printf "Error looking up album")
    else
      match addAlbum singerId albumTitle w1 with
      | ((_, some err), w2) => ((none, some err), w2.Printf "Could not add album")
      | ((albumId, none), w2) => ((albumId, none), w2)

/-- The function `AddAllNoTxn`: every lookup and every insert is a store
operation of its own. -/
def AddAllNoTxn (firstName lastName albumTitle : String) (w : World) :
    (Option Int × Option GoError) × World :=
  match getSingerId false firstName lastName w with
  | ((singerId, none), w1) => AddAllNoTxn.resolveAlbum singerId albumTitle w1
  | ((_, some e), w1) =>
    if e.Code ≠ NOT_FOUND then
      ((none, some (.errorsNew e.Message)), w1.Printf "Error looking up singer")
    else
      match addSinger firstName lastName w1 with
      | ((_, some err), w2) => ((none, some err), w2.Printf "Could not add singer")
      | ((singerId, none), w2) => AddAllNoTxn.resolveAlbum singerId albumTitle w2

/-- The closure `addAlbum` of `AddAllTxn`: the insert runs in the enclosing transaction. -/
def AddAllTxn.addAlbum (singerId : Int) (albumTitle : String) (w : World) :
    (Option Int × Option GoError) × World :=
  match Int63 w with
  | (albumId, w1) =>
    match Update (.insertAlbums singerId albumId albumTitle) w1 with
    | ((_, err), w2) => ((some albumId, err), w2)

/-- The closure `addSinger` of `AddAllTxn`. -/
def AddAllTxn.addSinger (firstName lastName : String) (w : World) :
    (Int × Option GoError) × World :=
  match Int63 w with
  | (singerId, w1) =>
    match Update (.insertSingers singerId firstName lastName) w1 with
    | ((_, err), w2) => ((singerId, err), w2)

/-- Lines 163 to 177 of the transaction body of `AddAllTxn`: resolve the album
inside the transaction, create it when absent.  The first component of the
result is the value assigned to the captured variable `albumId`. -/
def AddAllTxn.resolveAlbum (singerId : Int) (albumTitle : String) (w : World) :
    (Option Int × Option GoError) × World :=
  match getAlbumId true singerId albumTitle w with
  | ((albumId, none), w1) => ((albumId, none), w1)
  | ((albumId, some e), w1) =>
    if e.Code ≠ NOT_FOUND then
      ((albumId, some (.errorsNew e.Message)), w1.Printf "Error looking up album")
    else
      match AddAllTxn.addAlbum singerId albumTitle w1 with
      | ((albumId1, some err), w2) => ((albumId1, some err), w2.Printf "Could not add album")
      | ((albumId1, none), w2) => ((albumId1, none), w2)

/-- The transaction body of `AddAllTxn`.  `albumId` is the value, on entry, of
the variable `albumId` of `AddAllTxn` that the body captures and assigns; the
first component of the result is its value on exit. -/
def AddAllTxn.body (firstName lastName albumTitle : String) (albumId : Option Int) (w : World) :
    (Option Int × Option GoError) × World :=
  match getSingerId true firstName lastName w with
  | ((_, none), w1) => ((albumId, none), w1)
  | ((_, some e), w1) =>
    if e.Code ≠ NOT_FOUND then ((albumId, some (.errorsNew e.Message)), w1)
    else
      match AddAllTxn.addSinger firstName lastName w1 with
      | ((_, some err), w2) => ((albumId, some err), w2)
      | ((singerId, none), w2) =>
        AddAllTxn.resolveAlbum singerId albumTitle
          (w2.Printf ("Added singer " ++ firstName ++ " " ++ lastName ++ " in transaction"))

/-- The function `AddAllTxn`: the body runs in one read-write transaction; the
result is the variable `albumId`, nil before the body runs, and the error of
the transaction. -/
def AddAllTxn (firstName lastName albumTitle : String) (w : World) :
    (Option Int × Option GoError) × World :=
  ReadWriteTransaction (AddAllTxn.body firstName lastName albumTitle none) w

/-- The function `CountRows`: the count of the first row of the COUNT query. -/
def CountRows (fieldName tableName : String) (w : World) : (Int × Option GoError) × World :=
  match Query (.sql (sqlCount fieldName tableName)) .single w with
  | (iter, w1) =>
    match iter.Next with
    | (.done, _) => ((-1, some (.errorsNew "No results")), w1)
    | (.failure err, _) => ((-1, some err), w1)
    | (.row row, _) =>
      match row.ColumnsInt64 0 with
      | (_, some err) => ((-1, some err), w1)
      | (count, none) => ((count, none), w1)

/-! ## Package `testdata`: the workload simulator's generators -/

/-- The type `Action`, an `int`. -/
structure Action where
  val : Int
  deriving DecidableEq, Repr

/-- Action constant 1 (`iota + 1`). -/
def ACTION_QUERY_ALBUMS : Action := ⟨1⟩
/-- Action constant 2. -/
def ACTION_QUERY_LIMIT : Action := ⟨2⟩
/-- Action constant 3. -/
def ACTION_QUERY_SINGERS_FIRST : Action := ⟨3⟩
/-- Action constant 4. -/
def ACTION_QUERY_SINGERS_LAST : Action := ⟨4⟩
/-- Action constant 5. -/
def ACTION_JOIN_SINGER_ALBUM : Action := ⟨5⟩
/-- Action constant 6. -/
def ACTION_ADD_ALL_TXN : Action := ⟨6⟩
/-- Action constant 7. -/
def ACTION_ADD_SINGLE_TXNS : Action := ⟨7⟩

/-- The array `ACTIONS`. -/
def ACTIONS : List Action :=
  [ACTION_QUERY_ALBUMS,
   ACTION_QUERY_LIMIT,
   ACTION_QUERY_SINGERS_FIRST,
   ACTION_QUERY_SINGERS_LAST,
   ACTION_JOIN_SINGER_ALBUM,
   ACTION_ADD_ALL_TXN,
   ACTION_ADD_SINGLE_TXNS]

/-- The struct `SingerAlbum`. -/
structure SingerAlbum where
  FirstName : String
  LastName : String
  AlbumTitle : String
  deriving DecidableEq, Repr

/-- The method `String()` of `Action`: the name in the map, else "unknown". -/
def Action.String (a : Action) : String :=
  if a = ACTION_QUERY_ALBUMS then "QueryAlbums"
  else if a = ACTION_QUERY_LIMIT then "QueryLimit"
  else if a = ACTION_QUERY_SINGERS_FIRST then "QuerySingersFirstName"
  else if a = ACTION_QUERY_SINGERS_LAST then "QuerySingersLastName"
  else if a = ACTION_JOIN_SINGER_ALBUM then "JoinSingerAlbum"
  else if a = ACTION_ADD_ALL_TXN then "AddAllInBigTransaction"
  else if a = ACTION_ADD_SINGLE_TXNS then "AddEachInSingleTransactions"
  else "unknown"

/-- The function `NextUserAction`: `ACTIONS[rand.Intn(len(ACTIONS))]`; `none`
stands for the panic of an index out of range. -/
def NextUserAction (w : World) : Option Action × World :=
  match Intn ACTIONS.length w with
  | (r, w1) => (ACTIONS[r]?, w1)

/-- Vocabulary `rank` of `RandomData`. -/
def RandomData.rank : List String :=
  ["Private", "Brigadier", "Sergeant", "Captain", "Commander",
   "Chief", "Lieutenant", "Officer", "First Officer", "Major",
   "General", "Five Star General", "Admiral", "Rear Admiral",
   "Vice General"]

/-- Vocabulary `initial` of `RandomData`. -/
def RandomData.initial : List String :=
  ["A", "B", "C", "D", "E", "F", "G", "H", "I", "J", "K",
   "L", "M", "N", "O", "P", "Q", "R", "S", "T", "U", "V", "W", "X",
   "Y", "Z"]

/-- Vocabulary `surname` of `RandomData`. -/
def RandomData.surname : List String :=
  ["Ryan", "General", "Major", "Zero", "Supreme",
   "Petty officer", "Governor", "In Charge", "Blunder", "Chaos"]

/-- Vocabulary `generation` of `RandomData`. -/
def RandomData.generation : List String :=
  ["Junior", "II", "III", "IV", "V", "VI", "VII",
   "VIII", "IX", "X", "XI", "XII", "XIII", "XIV", "XV", "XVI",
   "XVII", "XVIII", "XIX", "XX"]

/-- Vocabulary `part1` of `RandomData` (the descriptor of an album title). -/
def RandomData.part1 : List String :=
  ["Smoke", "Mist", "Rain", "Fog", "Thunder", "Lightening",
   "Frost", "Dew", "Snow", "Shadows", "Water", "Grass", "Trees",
   "Dust", "Wind", "Breeze", "Trash", "Graffiti", "Writing"]

/-- Vocabulary `part2` of `RandomData` (the location of an album title). -/
def RandomData.part2 : List String :=
  ["Water", "River", "Plains", "Road", "Mountain", "Hills",
   "Sea", "Bay", "Forest", "Highway", "Wall", "Blackboard"]

/-- The three `Sprintf` calls of `RandomData` on the six indices drawn;
`none` stands for the panic of an index out of range. -/
def RandomData.compose (m n p q r s : Nat) : Option SingerAlbum :=
  match RandomData.rank[m]?, RandomData.initial[n]?, RandomData.surname[p]?,
      RandomData.generation[q]?, RandomData.part1[r]?, RandomData.part2[s]? with
  | some rk, some ini, some sur, some gen, some p1, some p2 =>
    some ⟨rk ++ " " ++ ini, sur ++ " " ++ gen, p1 ++ " on the " ++ p2⟩
  | _, _, _, _, _, _ => none

/-- The six draws of `RandomData`, each `rand.Int63n(len(vocabulary))`, in source order. -/
def RandomData.draws (w : World) : (Nat × Nat × Nat × Nat × Nat × Nat) × World :=
  match Int63n RandomData.rank.length w with
  | (m, w1) =>
    match Int63n RandomData.initial.length w1 with
    | (n, w2) =>
      match Int63n RandomData.surname.length w2 with
      | (p, w3) =>
        match Int63n RandomData.generation.length w3 with
        | (q, w4) =>
          match Int63n RandomData.part1.length w4 with
          | (r, w5) =>
            match Int63n RandomData.part2.length w5 with
            | (s, w6) => ((m, n, p, q, r, s), w6)

/-- The function `RandomData`. -/
def RandomData (w : World) : Option SingerAlbum × World :=
  match RandomData.draws w with
  | ((m, n, p, q, r, s), w1) => (RandomData.compose m n p q r s, w1)

/-! ## Package `query`: the read-only query operations -/

/-- The `for` loop of `queryAlbums` over the items the iterator has yet to
yield (each step is one `iter.Next()`): the error, the records written to the
writer and the counter. -/
def queryAlbums.loop (out : List String) (counter : Nat) :
    List StreamItem → Option GoError × List String × Nat
  | [] => (none, out, counter)
  | .failure err :: _ => (some err, out, counter)
  | .row row :: rest =>
    match row.ColumnsInt64Int64String with
    | .error err => (some err, out, counter)
    | .ok (singerID, albumID, albumTitle) =>
      queryAlbums.loop
        (out ++ [toString singerID ++ " " ++ toString albumID ++ " " ++ albumTitle])
        (counter + 1) rest

/-- The function `queryAlbums`: the error and what was written to the writer. -/
def queryAlbums (q : String) (w : World) : (Option GoError × List String) × World :=
  match Query (.sql q) .readOnly w with
  | (iter, w1) =>
    match queryAlbums.loop [] 0 iter.pending with
    | (some err, out, _) => ((some err, out), w1)
    | (none, out, counter) =>
      ((none, out),
        w1.Printf ("queryAlbums: " ++ toString counter ++ " results for query: " ++ q))

/-- The `for` loop of `querySingers`. -/
def querySingers.loop (out : List String) (counter : Nat) :
    List StreamItem → Option GoError × List String × Nat
  | [] => (none, out, counter)
  | .failure err :: _ => (some err, out, counter)
  | .row row :: rest =>
    match row.ColumnsInt64StringString with
    | .error err => (some err, out, counter)
    | .ok (singerID, firstName, lastName) =>
      querySingers.loop
        (out ++ [toString singerID ++ " " ++ firstName ++ " " ++ lastName])
        (counter + 1) rest

/-- The function `querySingers`. -/
def querySingers (q : String) (w : World) : (Option GoError × List String) × World :=
  match Query (.sql q) .readOnly w with
  | (iter, w1) =>
    match querySingers.loop [] 0 iter.pending with
    | (some err, out, _) => ((some err, out), w1)
    | (none, out, counter) =>
      ((none, out),
        w1.Printf ("querySingers # results: " ++ toString counter ++ " for query: " ++ q))

/-- The function `JoinSingerAlbum`. -/
def JoinSingerAlbum (w : World) : List String × World :=
  match querySingers sqlJoinSingerAlbum (w.emit (.startSpan "join-singer-album")) with
  | ((some err, out), w1) => (out, (w1.Errorf ("JoinSingerAlbum Error " ++ err.Error)).emit .endSpan)
  | ((none, out), w1) => (out, w1.emit .endSpan)

/-- The function `QueryAlbums`. -/
def QueryAlbums (w : World) : List String × World :=
  match queryAlbums sqlQueryAlbums (w.emit (.startSpan "query-albums")) with
  | ((some err, out), w1) =>
    (out, (w1.Errorf ("Error querying albums " ++ err.Error ++ " for query " ++ sqlQueryAlbums)).emit
      .endSpan)
  | ((none, out), w1) => (out, w1.emit .endSpan)

/-- The function `QueryAlbumsLimit`. -/
def QueryAlbumsLimit (w : World) : List String × World :=
  match queryAlbums sqlQueryAlbumsLimit (w.emit (.startSpan "query-limit")) with
  | ((some err, out), w1) => (out, (w1.Printf ("QueryLimit Error " ++ err.Error)).emit .endSpan)
  | ((none, out), w1) => (out, w1.emit .endSpan)

/-- The function `QuerySingersFirstName`. -/
def QuerySingersFirstName (w : World) : List String × World :=
  match querySingers sqlQuerySingersFirstName (w.emit (.startSpan "query-singers-first")) with
  | ((some err, out), w1) =>
    (out, (w1.Printf ("QuerySingersFirstName Error " ++ err.Error)).emit .endSpan)
  | ((none, out), w1) => (out, w1.emit .endSpan)

/-- The function `QuerySingersLastName`. -/
def QuerySingersLastName (w : World) : List String × World :=
  match querySingers sqlQuerySingersLastName (w.emit (.startSpan "query-singers-last")) with
  | ((some err, out), w1) =>
    (out, (w1.Printf ("QuerySingersLastName Error " ++ err.Error)).emit .endSpan)
  | ((none, out), w1) => (out, w1.emit .endSpan)

/-! ## `runSimulation` of `spannerlab.go` -/

/-- The `switch action` of `runSimulation`; `none` stands for a panic. -/
def runSimulation.dispatch (action : Action) (w : World) : Option World :=
  if action = ACTION_QUERY_ALBUMS then some (QueryAlbums w).2
  else if action = ACTION_QUERY_LIMIT then some (QueryAlbumsLimit w).2
  else if action = ACTION_QUERY_SINGERS_FIRST then some (QuerySingersFirstName w).2
  else if action = ACTION_QUERY_SINGERS_LAST then some (QuerySingersLastName w).2
  else if action = ACTION_JOIN_SINGER_ALBUM then some (JoinSingerAlbum w).2
  else if action = ACTION_ADD_ALL_TXN then
    match RandomData w with
    | (none, _) => none
    | (some data, w1) =>
      match AddAllNoTxn data.FirstName data.LastName data.AlbumTitle
          (w1.emit (.startSpan "add-album-single-txns")) with
      | ((_, some err), w2) => some ((w2.Printf ("Error adding singer " ++ err.Error)).emit .endSpan)
      | ((_, none), w2) => some (w2.emit .endSpan)
  else if action = ACTION_ADD_SINGLE_TXNS then
    match RandomData w with
    | (none, _) => none
    | (some data, w1) =>
      match AddAllTxn data.FirstName data.LastName data.AlbumTitle
          (w1.emit (.startSpan "add-album-all-one-txn")) with
      | ((_, some err), w2) =>
        some ((w2.Printf ("Error adding singer in transaction " ++ err.Error)).emit .endSpan)
      | ((_, none), w2) => some (w2.emit .endSpan)
  else some w

/-- The body of the `for` loop of `runSimulation` at iteration `i`. -/
def runSimulation.iteration (i : Nat) (w : World) : Option World :=
  match NextUserAction (if i % 10 = 0 then w.print ("Iteration " ++ toString i ++ "\n") else w) with
  | (none, _) => none
  | (some action, w1) =>
    runSimulation.dispatch action
      (w1.Printf ("Next user action is " ++ toString action.val ++ ".\n"))

/-- The `for` loop of `runSimulation` from `i` on, with `k` iterations left. -/
def runSimulation.loop : Nat → Nat → World → Option World
  | 0, _, w => some w
  | k + 1, i, w =>
    match runSimulation.iteration i w with
    | none => none
    | some w1 => runSimulation.loop k (i + 1) w1

/-- The function `runSimulation` for `iterations >= 0`. -/
def runSimulation (iterations : Nat) (w : World) : Option World :=
  runSimulation.loop iterations 0
    (w.print ("Running simulation with " ++ toString iterations ++ " iterations\n"))

/-! ## Measures and scenarios the claims are stated with -/

/-- The stream item of a decodable row of an album query. -/
def albumItem (r : Int × Int × String) : StreamItem :=
  .row [.int64 r.1, .int64 r.2.1, .string r.2.2]

/-- The record `queryAlbums` writes for a row: `"%d %d %s"`. -/
def albumLine (r : Int × Int × String) : String :=
  toString r.1 ++ " " ++ toString r.2.1 ++ " " ++ r.2.2

/-- The stream item of a decodable row of a singer query. -/
def singerItem (r : Int × String × String) : StreamItem :=
  .row [.int64 r.1, .string r.2.1, .string r.2.2]

/-- The record `querySingers` writes for a row: `"%d %s %s"`. -/
def singerLine (r : Int × String × String) : String :=
  toString r.1 ++ " " ++ r.2.1 ++ " " ++ r.2.2

/-- One attempt of the transaction of `AddAllTxn` that the gateway aborts: the
body runs with the captured variable `albumId` still nil, its writes are
discarded, and by the time the gateway re-invokes the body the other clients
of the store have brought it to `store2`.  The result is the value the attempt
leaves in `albumId` and the world in which the body is re-invoked. -/
def AddAllTxn.abortedAttempt (firstName lastName albumTitle : String) (w : World)
    (store2 : Store) : Option Int × World :=
  match AddAllTxn.body firstName lastName albumTitle none (w.emit .beginRW) with
  | ((albumId, _), w1) => (albumId, { w1.emit .rollback with store := store2 })

/-- The function `AddAllTxn` when the gateway aborts the first attempt and
re-invokes the body once: the second attempt finds in `albumId` what the first
one left there. -/
def AddAllTxn.retried (firstName lastName albumTitle : String) (w : World) (store2 : Store) :
    (Option Int × Option GoError) × World :=
  match AddAllTxn.abortedAttempt firstName lastName albumTitle w store2 with
  | (albumId, w2) => ReadWriteTransaction (AddAllTxn.body firstName lastName albumTitle albumId) w2

/-- Calling `AddAllTxn` once for each `(firstName, lastName, albumTitle)` of a
list, in order, whatever each call returns. -/
def AddAllTxn.each : List (String × String × String) → World → World
  | [], w => w
  | (firstName, lastName, albumTitle) :: rest, w =>
    AddAllTxn.each rest (AddAllTxn firstName lastName albumTitle w).2

/-- Whether an event starts a span; every operation `runSimulation` dispatches
to starts exactly one. -/
def Event.isStartSpan : Event → Bool
  | .startSpan _ => true
  | _ => false

/-- Whether an event ends a span. -/
def Event.isEndSpan : Event → Bool
  | .endSpan => true
  | _ => false

/-- Whether the characters `s` begin with the characters `p`. -/
def beginsWith : List Char → List Char → Bool
  | [], _ => true
  | _ :: _, [] => false
  | c :: cs, d :: ds => c == d && beginsWith cs ds

/-- Whether a log entry is the line `runSimulation` logs for the action it
obtained: `"Next user action is %d.\n"`. -/
def isActionLog (e : Severity × String) : Bool :=
  beginsWith "Next user action is ".data e.2.data

/-- The counters of a world: spans started, spans ended, actions logged. -/
def World.counts (w : World) : Nat × Nat × Nat :=
  (w.trace.countP Event.isStartSpan, w.trace.countP Event.isEndSpan, w.logs.countP isActionLog)

/-- The error `err` is the one the store reports for the first of its
operations, counted from operation `start`, that fails: the store's own error
(an insert or a commit) or `errors.New` of its message (a lookup). -/
def World.firstFailure (w : World) (start : Nat) (err : GoError) : Prop :=
  ∃ k msg, start ≤ k ∧ w.faults k = some msg ∧ (∀ j, start ≤ j → j < k → w.faults j = none) ∧
    (err = .store msg ∨ err = .errorsNew msg)

/-- The world in which the `switch` of iteration `i` of `runSimulation` runs,
`action` being the action obtained: after the print of every tenth index, the
draw of the action and the log line of the action. -/
def runSimulation.beforeSwitch (i : Nat) (w : World) (action : Action) : World :=
  (NextUserAction (if i % 10 = 0 then w.print ("Iteration " ++ toString i ++ "\n") else w)).2.Printf
    ("Next user action is " ++ toString action.val ++ ".\n")

/-! ## Worlds used as concrete inputs -/

/-- A world with an empty database, the draws 0, 1, 2, ... and no failure. -/
def emptyWorld : World :=
  { store := ⟨[], []⟩, randSrc := fun n => n, randPos := 0, faults := fun _ => none,
    opCount := 0, trace := [], logs := [], stdout := [] }

/-- A world with one singer and one album of hers, the draws 100, 101, ... and no failure. -/
def sampleWorld : World :=
  { store := ⟨[⟨10, "Major B", "Zero X"⟩], [⟨10, 11, "Rain on the Road"⟩]⟩,
    randSrc := fun n => 100 + n, randPos := 0, faults := fun _ => none,
    opCount := 0, trace := [], logs := [], stdout := [] }

/-- The world `sampleWorld` with a store that fails its n-th operation (counted from 0). -/
def failingWorld (n : Nat) (msg : String) : World :=
  { sampleWorld with faults := fun k => if k = n then some msg else none }

/-- A world whose store fails every operation with "unavailable"; the draws
are 0, 1, 2, ... except the thirteenth, which is 6, so that seven iterations
of `runSimulation` obtain the seven actions in order. -/
def unavailableWorld : World :=
  { store := ⟨[⟨10, "Major B", "Zero X"⟩], [⟨10, 11, "Rain on the Road"⟩]⟩,
    randSrc := fun n => if n = 12 then 6 else n, randPos := 0,
    faults := fun _ => some "unavailable",
    opCount := 0, trace := [], logs := [], stdout := [] }

/-- A world whose store answers every operation; the draws are 0, 1, 2, ...
except the fifteenth, which is 6, so that seven iterations of `runSimulation`
obtain the seven actions in order. -/
def availableWorld : World :=
  { store := ⟨[⟨10, "Major B", "Zero X"⟩], [⟨10, 11, "Rain on the Road"⟩]⟩,
    randSrc := fun n => if n = 14 then 6 else n, randPos := 0,
    faults := fun _ => none,
    opCount := 0, trace := [], logs := [], stdout := [] }

/-! ## How the resolver and the blind inserts act on the world -/

theorem getSingerId_eq (txn : Bool) (firstName lastName : String) (w : World) :
    getSingerId txn firstName lastName w =
      (match w.faults w.opCount with
        | some msg => (-1, some ⟨msg, SPANNER_ERROR⟩)
        | none =>
          match w.store.singers.filter (singerKey firstName lastName) with
          | [] => (-1, some ⟨"Singer not found%!(EXTRA string=" ++ firstName ++ ", string=" ++
                    lastName ++ ")", NOT_FOUND⟩)
          | s :: _ => (s.SingerId, none),
       w.afterQuery (.selectSingerId firstName lastName) (if txn then .readWrite else .single)) := by
  unfold getSingerId Query
  simp only [World.nextFault, World.emit, World.afterQuery]
  cases hf : w.faults w.opCount with
  | some msg => simp [getSingerId.loop, RowIterator.Next, GoError.Error]
  | none =>
    simp only [execQuery]
    cases hr : w.store.singers.filter (singerKey firstName lastName) with
    | nil => simp [getSingerId.loop, RowIterator.Next]
    | cons s rest => simp [getSingerId.loop, RowIterator.Next, Row.ColumnsInt64]

theorem getAlbumId_eq (txn : Bool) (singerId : Int) (albumTitle : String) (w : World) :
    getAlbumId txn singerId albumTitle w =
      (match w.faults w.opCount with
        | some msg =>
          ((none, some ⟨msg, SPANNER_ERROR⟩),
            w.afterQuery (.selectAlbumId singerId albumTitle) (if txn then .readWrite else .single))
        | none =>
          match w.store.albums.filter (albumKey singerId albumTitle) with
          | [] =>
            ((none, some (albumNotFound singerId albumTitle)),
              w.afterQuery (.selectAlbumId singerId albumTitle) (if txn then .readWrite else .single))
          | _ :: _ =>
            ((some 0, none),
              ((w.afterQuery (.selectAlbumId singerId albumTitle)
                (if txn then .readWrite else .single)).Printf "Failed to parse row").Printf
                  "Failed to parse row")) := by
  unfold getAlbumId Query
  simp only [World.nextFault, World.emit, World.afterQuery]
  cases hf : w.faults w.opCount with
  | some msg => simp [getAlbumId.loop, RowIterator.Next, GoError.Error]
  | none =>
    simp only [execQuery]
    cases hr : w.store.albums.filter (albumKey singerId albumTitle) with
    | nil => simp [getAlbumId.loop, RowIterator.Next]
    | cons s rest => simp [getAlbumId.loop, RowIterator.Next, Row.ColumnsInt64]

theorem addSinger_eq (firstName lastName : String) (w : World) :
    addSinger firstName lastName w =
      (match w.faults w.opCount with
        | some msg =>
          ((w.draw 0, some (.store msg)),
            { w with randPos := w.randPos + 1, opCount := w.opCount + 1,
                     trace := w.trace ++ [.beginRW,
                       .update (.insertSingers (w.draw 0) firstName lastName), .rollback] })
        | none =>
          match w.faults (w.opCount + 1) with
          | some msg =>
            ((w.draw 0, some (.store msg)),
              { w with randPos := w.randPos + 1, opCount := w.opCount + 2,
                       trace := w.trace ++ [.beginRW,
                         .update (.insertSingers (w.draw 0) firstName lastName), .rollback],
                       logs := w.logs ++
                         [(Severity.info, toString (1 : Int) ++ " record(s) inserted.\n")] })
          | none =>
            ((w.draw 0, none),
              { w with store := { w.store with
                         singers := w.store.singers ++ [⟨w.draw 0, firstName, lastName⟩] },
                       randPos := w.randPos + 1, opCount := w.opCount + 2,
                       trace := w.trace ++ [.beginRW,
                         .update (.insertSingers (w.draw 0) firstName lastName), .commit],
                       logs := w.logs ++
                         [(Severity.info, toString (1 : Int) ++ " record(s) inserted.\n")] })) := by
  unfold addSinger ReadWriteTransaction Update Int63
  simp only [World.nextFault, World.emit, World.draw, Nat.add_zero]
  cases hf : w.faults w.opCount with
  | some msg => simp
  | none =>
    simp only [execUpdate, World.Printf]
    cases hf2 : w.faults (w.opCount + 1) with
    | some msg => simp
    | none => simp

theorem addAlbum_eq (singerId : Int) (albumTitle : String) (w : World) :
    addAlbum singerId albumTitle w =
      (match w.faults w.opCount with
        | some msg =>
          ((some (w.draw 0), some (.store msg)),
            { w with randPos := w.randPos + 1, opCount := w.opCount + 1,
                     trace := w.trace ++ [.beginRW,
                       .update (.insertAlbums singerId (w.draw 0) albumTitle), .rollback] })
        | none =>
          match w.faults (w.opCount + 1) with
          | some msg =>
            ((some (w.draw 0), some (.store msg)),
              { w with randPos := w.randPos + 1, opCount := w.opCount + 2,
                       trace := w.trace ++ [.beginRW,
                         .update (.insertAlbums singerId (w.draw 0) albumTitle), .rollback],
                       logs := w.logs ++
                         [(Severity.info, toString (1 : Int) ++ " record(s) inserted.\n")] })
          | none =>
            ((some (w.draw 0), none),
              { w with store := { w.store with
                         albums := w.store.albums ++ [⟨singerId, w.draw 0, albumTitle⟩] },
                       randPos := w.randPos + 1, opCount := w.opCount + 2,
                       trace := w.trace ++ [.beginRW,
                         .update (.insertAlbums singerId (w.draw 0) albumTitle), .commit],
                       logs := w.logs ++
                         [(Severity.info, toString (1 : Int) ++ " record(s) inserted.\n")] })) := by
  unfold addAlbum ReadWriteTransaction Update Int63
  simp only [World.nextFault, World.emit, World.draw, Nat.add_zero]
  cases hf : w.faults w.opCount with
  | some msg => simp
  | none =>
    simp only [execUpdate, World.Printf]
    cases hf2 : w.faults (w.opCount + 1) with
    | some msg => simp
    | none => simp

theorem txnAddSinger_eq (firstName lastName : String) (w : World) :
    AddAllTxn.addSinger firstName lastName w =
      (match w.faults w.opCount with
        | some msg =>
          ((w.draw 0, some (.store msg)),
            { w with randPos := w.randPos + 1, opCount := w.opCount + 1,
                     trace := w.trace ++ [.update (.insertSingers (w.draw 0) firstName lastName)] })
        | none =>
          ((w.draw 0, none),
            { w with store := { w.store with
                       singers := w.store.singers ++ [⟨w.draw 0, firstName, lastName⟩] },
                     randPos := w.randPos + 1, opCount := w.opCount + 1,
                     trace := w.trace ++
                       [.update (.insertSingers (w.draw 0) firstName lastName)] })) := by
  unfold AddAllTxn.addSinger Update Int63
  simp only [World.nextFault, World.emit, World.draw, Nat.add_zero]
  cases hf : w.faults w.opCount with
  | some msg => simp
  | none => simp [execUpdate]

theorem txnAddAlbum_eq (singerId : Int) (albumTitle : String) (w : World) :
    AddAllTxn.addAlbum singerId albumTitle w =
      (match w.faults w.opCount with
        | some msg =>
          ((some (w.draw 0), some (.store msg)),
            { w with randPos := w.randPos + 1, opCount := w.opCount + 1,
                     trace := w.trace ++ [.update (.insertAlbums singerId (w.draw 0) albumTitle)] })
        | none =>
          ((some (w.draw 0), none),
            { w with store := { w.store with
                       albums := w.store.albums ++ [⟨singerId, w.draw 0, albumTitle⟩] },
                     randPos := w.randPos + 1, opCount := w.opCount + 1,
                     trace := w.trace ++
                       [.update (.insertAlbums singerId (w.draw 0) albumTitle)] })) := by
  unfold AddAllTxn.addAlbum Update Int63
  simp only [World.nextFault, World.emit, World.draw, Nat.add_zero]
  cases hf : w.faults w.opCount with
  | some msg => simp
  | none => simp [execUpdate]

@[simp] theorem World.afterQuery_store (w : World) (s : Statement) (k : TxnKind) :
    (w.afterQuery s k).store = w.store := rfl
@[simp] theorem World.afterQuery_faults (w : World) (s : Statement) (k : TxnKind) :
    (w.afterQuery s k).faults = w.faults := rfl
@[simp] theorem World.afterQuery_opCount (w : World) (s : Statement) (k : TxnKind) :
    (w.afterQuery s k).opCount = w.opCount + 1 := rfl
@[simp] theorem World.afterQuery_randSrc (w : World) (s : Statement) (k : TxnKind) :
    (w.afterQuery s k).randSrc = w.randSrc := rfl
@[simp] theorem World.afterQuery_randPos (w : World) (s : Statement) (k : TxnKind) :
    (w.afterQuery s k).randPos = w.randPos := rfl
@[simp] theorem World.afterQuery_trace (w : World) (s : Statement) (k : TxnKind) :
    (w.afterQuery s k).trace = w.trace ++ [.query s k] := rfl
@[simp] theorem World.afterQuery_logs (w : World) (s : Statement) (k : TxnKind) :
    (w.afterQuery s k).logs = w.logs := rfl
@[simp] theorem World.afterQuery_draw (w : World) (s : Statement) (k : TxnKind) (j : Nat) :
    (w.afterQuery s k).draw j = w.draw j := rfl
@[simp] theorem World.emit_store (w : World) (e : Event) : (w.emit e).store = w.store := rfl
@[simp] theorem World.emit_faults (w : World) (e : Event) : (w.emit e).faults = w.faults := rfl
@[simp] theorem World.emit_opCount (w : World) (e : Event) : (w.emit e).opCount = w.opCount := rfl
@[simp] theorem World.emit_randSrc (w : World) (e : Event) : (w.emit e).randSrc = w.randSrc := rfl
@[simp] theorem World.emit_randPos (w : World) (e : Event) : (w.emit e).randPos = w.randPos := rfl
@[simp] theorem World.emit_trace (w : World) (e : Event) : (w.emit e).trace = w.trace ++ [e] := rfl
@[simp] theorem World.emit_logs (w : World) (e : Event) : (w.emit e).logs = w.logs := rfl
@[simp] theorem World.emit_draw (w : World) (e : Event) (j : Nat) : (w.emit e).draw j = w.draw j := rfl
@[simp] theorem World.Printf_store (w : World) (m : String) : (w.Printf m).store = w.store := rfl
@[simp] theorem World.Printf_faults (w : World) (m : String) : (w.Printf m).faults = w.faults := rfl
@[simp] theorem World.Printf_opCount (w : World) (m : String) : (w.Printf m).opCount = w.opCount := rfl
@[simp] theorem World.Printf_randSrc (w : World) (m : String) : (w.Printf m).randSrc = w.randSrc := rfl
@[simp] theorem World.Printf_randPos (w : World) (m : String) : (w.Printf m).randPos = w.randPos := rfl
@[simp] theorem World.Printf_trace (w : World) (m : String) : (w.Printf m).trace = w.trace := rfl
@[simp] theorem World.Printf_draw (w : World) (m : String) (j : Nat) : (w.Printf m).draw j = w.draw j := rfl
theorem World.draw_mk (st : Store) (src : Nat → Nat) (pos : Nat) (f : Nat → Option String)
    (oc : Nat) (tr : List Event) (lg : List (Severity × String)) (so : List String) (k : Nat) :
    World.draw ⟨st, src, pos, f, oc, tr, lg, so⟩ k = ((src (pos + k) % 2 ^ 63 : Nat) : Int) := rfl

theorem filter_singerKey_nil (firstName lastName : String) (l : List Singer)
    (hkey : ∀ s ∈ l, ¬ (s.FirstName = firstName ∧ s.LastName = lastName)) :
    l.filter (singerKey firstName lastName) = [] := by
  rw [List.filter_eq_nil_iff]
  intro s hs
  simpa [singerKey] using hkey s hs

theorem filter_albumKey_nil (singerId : Int) (albumTitle : String) (l : List Album)
    (hfresh : ∀ a ∈ l, a.SingerId ≠ singerId) :
    l.filter (albumKey singerId albumTitle) = [] := by
  rw [List.filter_eq_nil_iff]
  intro a ha
  simp [albumKey, hfresh a ha]


theorem getSingerId_found_iff (txn : Bool) (firstName lastName : String) (w : World) (s : Int) :
    (getSingerId txn firstName lastName w).1 = (s, none) ↔
      w.faults w.opCount = none ∧
        ∃ r rest, w.store.singers.filter (singerKey firstName lastName) = r :: rest ∧
          r.SingerId = s := by
  rw [getSingerId_eq]
  cases hf : w.faults w.opCount with
  | some msg => simp
  | none =>
    cases hr : w.store.singers.filter (singerKey firstName lastName) with
    | nil => simp
    | cons r rest => simp

theorem AddAllTxn_of_present (w : World) (firstName lastName albumTitle : String)
    (hp : w.store.singers.filter (singerKey firstName lastName) ≠ []) :
    (AddAllTxn firstName lastName albumTitle w).2.store = w.store ∧
    (AddAllTxn firstName lastName albumTitle w).1.1 = none ∧
      ((AddAllTxn firstName lastName albumTitle w).2.trace = w.trace ++
          [.beginRW, .query (.selectSingerId firstName lastName) .readWrite, .commit] ∨
       (AddAllTxn firstName lastName albumTitle w).2.trace = w.trace ++
          [.beginRW, .query (.selectSingerId firstName lastName) .readWrite, .rollback]) := by
  cases hr : w.store.singers.filter (singerKey firstName lastName) with
  | nil => exact absurd hr hp
  | cons r rest =>
    cases hf : w.faults w.opCount with
    | some msg =>
      simp [AddAllTxn, ReadWriteTransaction, AddAllTxn.body, getSingerId_eq, hf, hr, SPANNER_ERROR,
        NOT_FOUND]
    | none =>
      cases hf1 : w.faults (w.opCount + 1) with
      | some msg =>
        simp [AddAllTxn, ReadWriteTransaction, AddAllTxn.body, getSingerId_eq, hf, hr,
          World.nextFault, hf1]
      | none =>
        simp [AddAllTxn, ReadWriteTransaction, AddAllTxn.body, getSingerId_eq, hf, hr,
          World.nextFault, hf1]

theorem AddAllTxn_success_present (w : World) (firstName lastName albumTitle : String)
    (h : (AddAllTxn firstName lastName albumTitle w).1.2 = none) :
    (AddAllTxn firstName lastName albumTitle w).2.store.singers.filter
      (singerKey firstName lastName) ≠ [] := by
  have hk : singerKey firstName lastName ⟨w.draw 0, firstName, lastName⟩ = true := by
    simp [singerKey]
  cases hr : w.store.singers.filter (singerKey firstName lastName) with
  | cons r rest =>
    rw [(AddAllTxn_of_present w firstName lastName albumTitle (by simp [hr])).1, hr]
    simp
  | nil =>
    revert h
    cases hf : w.faults w.opCount with
    | some msg =>
      simp [AddAllTxn, ReadWriteTransaction, AddAllTxn.body, getSingerId_eq, hf, hr, SPANNER_ERROR,
        NOT_FOUND]
    | none =>
      cases hf1 : w.faults (w.opCount + 1) with
      | some msg =>
        simp [AddAllTxn, ReadWriteTransaction, AddAllTxn.body, getSingerId_eq, hf, hr,
          NOT_FOUND, txnAddSinger_eq, hf1]
      | none =>
        cases hf2 : w.faults (w.opCount + 1 + 1) with
        | some msg =>
          simp [AddAllTxn, ReadWriteTransaction, AddAllTxn.body, getSingerId_eq, hf, hr,
            NOT_FOUND, txnAddSinger_eq, hf1, AddAllTxn.resolveAlbum, getAlbumId_eq, hf2,
            SPANNER_ERROR]
        | none =>
          cases hf3 : w.faults (w.opCount + 1 + 1 + 1) with
          | some msg =>
            cases ha : w.store.albums.filter (albumKey (w.draw 0) albumTitle) with
            | nil =>
              simp [AddAllTxn, ReadWriteTransaction, AddAllTxn.body, getSingerId_eq, hf, hr,
                NOT_FOUND, txnAddSinger_eq, hf1, AddAllTxn.resolveAlbum, getAlbumId_eq, hf2,
                ha, albumNotFound, txnAddAlbum_eq, hf3]
            | cons a rest =>
              simp [AddAllTxn, ReadWriteTransaction, AddAllTxn.body, getSingerId_eq, hf, hr,
                NOT_FOUND, txnAddSinger_eq, hf1, AddAllTxn.resolveAlbum, getAlbumId_eq, hf2,
                ha, World.nextFault, hf3]
          | none =>
            cases ha : w.store.albums.filter (albumKey (w.draw 0) albumTitle) with
            | nil =>
              cases hf4 : w.faults (w.opCount + 1 + 1 + 1 + 1) with
              | some msg =>
                simp [AddAllTxn, ReadWriteTransaction, AddAllTxn.body, getSingerId_eq, hf, hr,
                  NOT_FOUND, txnAddSinger_eq, hf1, AddAllTxn.resolveAlbum, getAlbumId_eq,
                  hf2, ha, albumNotFound, txnAddAlbum_eq, hf3, World.nextFault, hf4]
              | none =>
                simp [AddAllTxn, ReadWriteTransaction, AddAllTxn.body, getSingerId_eq, hf, hr,
                  NOT_FOUND, txnAddSinger_eq, hf1, AddAllTxn.resolveAlbum, getAlbumId_eq,
                  hf2, ha, albumNotFound, txnAddAlbum_eq, hf3, World.nextFault, hf4,
                  List.filter_append, hk]
            | cons a rest =>
              simp [AddAllTxn, ReadWriteTransaction, AddAllTxn.body, getSingerId_eq, hf, hr,
                NOT_FOUND, txnAddSinger_eq, hf1, AddAllTxn.resolveAlbum, getAlbumId_eq, hf2,
                ha, World.nextFault, hf3, List.filter_append, hk]

/-! ## The claims -/

/-- C1: on a natural key that matches no Singer row, when every store operation
succeeds and no Album row refers to the singer id drawn, `AddAllNoTxn` and
`AddAllTxn` each add exactly one Singer row, the one carrying the key under the
id drawn first, add one Album row whose SingerId is that id, and return a nil
error with the id of that Album, the id drawn second. -/
theorem add_all_fresh_key (w : World) (firstName lastName albumTitle : String)
    (hkey : ∀ s ∈ w.store.singers, ¬ (s.FirstName = firstName ∧ s.LastName = lastName))
    (hok : ∀ n, w.faults n = none)
    (hfresh : ∀ a ∈ w.store.albums, a.SingerId ≠ w.draw 0) :
    ((AddAllNoTxn firstName lastName albumTitle w).1 = (some (w.draw 1), none) ∧
      (AddAllNoTxn firstName lastName albumTitle w).2.store.singers =
        w.store.singers ++ [⟨w.draw 0, firstName, lastName⟩] ∧
      (AddAllNoTxn firstName lastName albumTitle w).2.store.albums =
        w.store.albums ++ [⟨w.draw 0, w.draw 1, albumTitle⟩] ∧
      (AddAllNoTxn firstName lastName albumTitle w).2.store.singers.filter
        (singerKey firstName lastName) = [⟨w.draw 0, firstName, lastName⟩]) ∧
    ((AddAllTxn firstName lastName albumTitle w).1 = (some (w.draw 1), none) ∧
      (AddAllTxn firstName lastName albumTitle w).2.store.singers =
        w.store.singers ++ [⟨w.draw 0, firstName, lastName⟩] ∧
      (AddAllTxn firstName lastName albumTitle w).2.store.albums =
        w.store.albums ++ [⟨w.draw 0, w.draw 1, albumTitle⟩] ∧
      (AddAllTxn firstName lastName albumTitle w).2.store.singers.filter
        (singerKey firstName lastName) = [⟨w.draw 0, firstName, lastName⟩]) := by
  have h1 := filter_singerKey_nil firstName lastName _ hkey
  have h2 := filter_albumKey_nil (w.draw 0) albumTitle _ hfresh
  have hne : ¬ (NOT_FOUND ≠ NOT_FOUND) := by simp
  have hd : w.draw 1 = ((w.randSrc (w.randPos + 1 + 0) % 2 ^ 63 : Nat) : Int) := rfl
  have hk : singerKey firstName lastName ⟨w.draw 0, firstName, lastName⟩ = true := by
    simp [singerKey]
  constructor
  · simp only [AddAllNoTxn, getSingerId_eq, hok, h1, hne, if_false, addSinger_eq,
      AddAllNoTxn.resolveAlbum, getAlbumId_eq, h2, albumNotFound, addAlbum_eq,
      World.afterQuery_store, World.afterQuery_faults, World.afterQuery_draw, World.draw_mk,
      World.afterQuery_randSrc, World.afterQuery_randPos,
      hd, List.filter_append, List.filter_cons, hk, List.filter_nil, if_true, List.nil_append,
      and_self]
  · simp only [AddAllTxn, ReadWriteTransaction, AddAllTxn.body, getSingerId_eq, hok, h1, hne,
      if_false, txnAddSinger_eq, AddAllTxn.resolveAlbum, getAlbumId_eq, h2, albumNotFound,
      txnAddAlbum_eq, World.nextFault,
      World.afterQuery_store, World.afterQuery_faults, World.afterQuery_draw, World.draw_mk,
      World.afterQuery_randSrc, World.afterQuery_randPos, World.emit_randSrc, World.emit_randPos,
      World.emit_store, World.emit_faults, World.emit_draw, World.Printf_store,
      World.Printf_faults, World.Printf_draw,
      hd, List.filter_append, List.filter_cons, hk, List.filter_nil, if_true, List.nil_append,
      and_self]

/-- Witness of C1: the key ("Captain A", "Ryan II") is absent from `sampleWorld`. -/
theorem add_all_fresh_key_witness :
    ((∀ s ∈ sampleWorld.store.singers, ¬ (s.FirstName = "Captain A" ∧ s.LastName = "Ryan II")) ∧
      (∀ n, sampleWorld.faults n = none) ∧
      (∀ a ∈ sampleWorld.store.albums, a.SingerId ≠ sampleWorld.draw 0)) ∧
    (AddAllNoTxn "Captain A" "Ryan II" "Smoke on the Water" sampleWorld).1 = (some 101, none) ∧
    (AddAllNoTxn "Captain A" "Ryan II" "Smoke on the Water" sampleWorld).2.store =
      ⟨[⟨10, "Major B", "Zero X"⟩, ⟨100, "Captain A", "Ryan II"⟩],
       [⟨10, 11, "Rain on the Road"⟩, ⟨100, 101, "Smoke on the Water"⟩]⟩ ∧
    (AddAllTxn "Captain A" "Ryan II" "Smoke on the Water" sampleWorld).1 = (some 101, none) ∧
    (AddAllTxn "Captain A" "Ryan II" "Smoke on the Water" sampleWorld).2.store =
      ⟨[⟨10, "Major B", "Zero X"⟩, ⟨100, "Captain A", "Ryan II"⟩],
       [⟨10, 11, "Rain on the Road"⟩, ⟨100, 101, "Smoke on the Water"⟩]⟩ := by
  have hyp1 : ∀ s ∈ sampleWorld.store.singers,
      ¬ (s.FirstName = "Captain A" ∧ s.LastName = "Ryan II") := by decide
  have hyp2 : ∀ n, sampleWorld.faults n = none := fun _ => rfl
  have hyp3 : ∀ a ∈ sampleWorld.store.albums, a.SingerId ≠ sampleWorld.draw 0 := by decide
  have h := add_all_fresh_key sampleWorld "Captain A" "Ryan II" "Smoke on the Water" hyp1 hyp2 hyp3
  refine ⟨⟨hyp1, hyp2, hyp3⟩, h.1.1, ?_, h.2.1, ?_⟩
  · decide
  · decide

/-- C2, at the input that breaks it: the singer ("Major B", "Zero X") and her
album "Rain on the Road" (id 11) are in the store, no operation fails, and
`AddAllTxn` returns a nil album id together with a nil error.  So does the
second of two calls in a row on an empty database. -/
theorem AddAllTxn_existing_singer_nil_nil :
    (AddAllTxn "Major B" "Zero X" "Rain on the Road" sampleWorld).1 = (none, none) ∧
    (AddAllTxn "Captain A" "Ryan II" "Smoke on the Water" emptyWorld).1 = (some 1, none) ∧
    (AddAllTxn "Captain A" "Ryan II" "Smoke on the Water"
      (AddAllTxn "Captain A" "Ryan II" "Smoke on the Water" emptyWorld).2).1 = (none, none) := by
  decide

/-- C3: when the Singer lookup of `AddAllTxn` succeeds, the call sends the
store nothing but that lookup (no Singer insert, no Album lookup, no Album
insert) and leaves both tables as they were; and a second call with the same
inputs right after a call that returned a nil error does the same, so creates
no second Singer. -/
theorem AddAllTxn_short_circuit (w : World) (firstName lastName albumTitle : String) :
    (∀ s, (getSingerId true firstName lastName w).1 = (s, none) →
      (AddAllTxn firstName lastName albumTitle w).2.store = w.store ∧
      ((AddAllTxn firstName lastName albumTitle w).2.trace = w.trace ++
          [.beginRW, .query (.selectSingerId firstName lastName) .readWrite, .commit] ∨
       (AddAllTxn firstName lastName albumTitle w).2.trace = w.trace ++
          [.beginRW, .query (.selectSingerId firstName lastName) .readWrite, .rollback])) ∧
    ((AddAllTxn firstName lastName albumTitle w).1.2 = none →
      (AddAllTxn firstName lastName albumTitle
          (AddAllTxn firstName lastName albumTitle w).2).2.store =
        (AddAllTxn firstName lastName albumTitle w).2.store ∧
      ((AddAllTxn firstName lastName albumTitle
            (AddAllTxn firstName lastName albumTitle w).2).2.trace =
          (AddAllTxn firstName lastName albumTitle w).2.trace ++
            [.beginRW, .query (.selectSingerId firstName lastName) .readWrite, .commit] ∨
       (AddAllTxn firstName lastName albumTitle
            (AddAllTxn firstName lastName albumTitle w).2).2.trace =
          (AddAllTxn firstName lastName albumTitle w).2.trace ++
            [.beginRW, .query (.selectSingerId firstName lastName) .readWrite, .rollback])) := by
  constructor
  · intro s hs
    obtain ⟨_, r, rest, hr, _⟩ := (getSingerId_found_iff true firstName lastName w s).1 hs
    have h := AddAllTxn_of_present w firstName lastName albumTitle (by simp [hr])
    exact ⟨h.1, h.2.2⟩
  · intro hsucc
    have hp := AddAllTxn_success_present w firstName lastName albumTitle hsucc
    have h := AddAllTxn_of_present (AddAllTxn firstName lastName albumTitle w).2 firstName
      lastName albumTitle hp
    exact ⟨h.1, h.2.2⟩

/-- Witness of C3: the lookup of ("Major B", "Zero X") succeeds on
`sampleWorld`, and the call for ("Captain A", "Ryan II") returns a nil error. -/
theorem AddAllTxn_short_circuit_witness :
    ((getSingerId true "Major B" "Zero X" sampleWorld).1 = (10, none) ∧
      (AddAllTxn "Major B" "Zero X" "Rain on the Road" sampleWorld).2.store = sampleWorld.store) ∧
    ((AddAllTxn "Captain A" "Ryan II" "Smoke on the Water" sampleWorld).1.2 = none ∧
      (AddAllTxn "Captain A" "Ryan II" "Smoke on the Water"
          (AddAllTxn "Captain A" "Ryan II" "Smoke on the Water" sampleWorld).2).2.store =
        (AddAllTxn "Captain A" "Ryan II" "Smoke on the Water" sampleWorld).2.store) := by
  have h1 : (getSingerId true "Major B" "Zero X" sampleWorld).1 = (10, none) := by decide
  have h2 : (AddAllTxn "Captain A" "Ryan II" "Smoke on the Water" sampleWorld).1.2 = none := by
    decide
  exact ⟨⟨h1, ((AddAllTxn_short_circuit sampleWorld "Major B" "Zero X" "Rain on the Road").1
      10 h1).1⟩,
    h2, ((AddAllTxn_short_circuit sampleWorld "Captain A" "Ryan II" "Smoke on the Water").2 h2).1⟩

theorem getAlbumId_notFound_iff (txn : Bool) (singerId : Int) (albumTitle : String) (w : World)
    (e : AppError) :
    ((getAlbumId txn singerId albumTitle w).1.2 = some e ∧ e.Code = NOT_FOUND) ↔
      w.faults w.opCount = none ∧ w.store.albums.filter (albumKey singerId albumTitle) = [] ∧
        e = albumNotFound singerId albumTitle := by
  rw [getAlbumId_eq]
  cases hf : w.faults w.opCount with
  | some msg =>
    simp only [false_and, iff_false, not_and, Option.some.injEq, reduceCtorEq]
    intro h
    rw [← h]
    simp [SPANNER_ERROR, NOT_FOUND]
  | none =>
    cases hr : w.store.albums.filter (albumKey singerId albumTitle) with
    | nil =>
      simp only [Option.some.injEq, true_and]
      constructor
      · intro h
        exact h.1.symm
      · intro h
        rw [h]
        simp [albumNotFound]
    | cons a rest => simp

theorem getAlbumId_found_iff (txn : Bool) (singerId : Int) (albumTitle : String) (w : World)
    (a : Option Int) :
    (getAlbumId txn singerId albumTitle w).1 = (a, none) ↔
      w.faults w.opCount = none ∧ w.store.albums.filter (albumKey singerId albumTitle) ≠ [] ∧
        a = some 0 := by
  rw [getAlbumId_eq]
  cases hf : w.faults w.opCount with
  | some msg => simp
  | none =>
    cases hr : w.store.albums.filter (albumKey singerId albumTitle) with
    | nil => simp
    | cons a rest =>
      simp only [Prod.mk.injEq, and_true, ne_eq, reduceCtorEq, not_false_eq_true, true_and]
      exact eq_comm

theorem getAlbumId_storeError_iff (txn : Bool) (singerId : Int) (albumTitle : String) (w : World)
    (e : AppError) :
    ((getAlbumId txn singerId albumTitle w).1.2 = some e ∧ e.Code = SPANNER_ERROR) ↔
      w.faults w.opCount = some e.Message ∧ e.Code = SPANNER_ERROR := by
  rw [getAlbumId_eq]
  cases hf : w.faults w.opCount with
  | some msg =>
    simp only [Option.some.injEq]
    constructor
    · rintro ⟨h, hc⟩
      rw [← h]
      exact ⟨rfl, rfl⟩
    · rintro ⟨h, hc⟩
      refine ⟨?_, hc⟩
      cases e
      simp_all
  | none =>
    cases hr : w.store.albums.filter (albumKey singerId albumTitle) with
    | nil =>
      simp only [Option.some.injEq, reduceCtorEq, false_and, iff_false, not_and]
      intro h
      rw [← h]
      simp [albumNotFound, SPANNER_ERROR, NOT_FOUND]
    | cons a rest => simp

theorem getSingerId_storeError_iff (txn : Bool) (firstName lastName : String) (w : World)
    (e : AppError) :
    ((getSingerId txn firstName lastName w).1.2 = some e ∧ e.Code = SPANNER_ERROR) ↔
      w.faults w.opCount = some e.Message ∧ e.Code = SPANNER_ERROR := by
  rw [getSingerId_eq]
  cases hf : w.faults w.opCount with
  | some msg =>
    simp only [Option.some.injEq]
    constructor
    · rintro ⟨h, hc⟩
      rw [← h]
      exact ⟨rfl, rfl⟩
    · rintro ⟨h, hc⟩
      refine ⟨?_, hc⟩
      cases e
      simp_all
  | none =>
    cases hr : w.store.singers.filter (singerKey firstName lastName) with
    | nil =>
      simp only [Option.some.injEq, reduceCtorEq, false_and, iff_false, not_and]
      intro h
      rw [← h]
      simp [SPANNER_ERROR, NOT_FOUND]
    | cons a rest => simp

theorem getSingerId_notFound_iff (txn : Bool) (firstName lastName : String) (w : World)
    (e : AppError) :
    ((getSingerId txn firstName lastName w).1.2 = some e ∧ e.Code = NOT_FOUND) ↔
      w.faults w.opCount = none ∧ w.store.singers.filter (singerKey firstName lastName) = [] ∧
        e = ⟨"Singer not found%!(EXTRA string=" ++ firstName ++ ", string=" ++ lastName ++ ")",
          NOT_FOUND⟩ := by
  rw [getSingerId_eq]
  cases hf : w.faults w.opCount with
  | some msg =>
    simp only [false_and, iff_false, not_and, Option.some.injEq, reduceCtorEq]
    intro h
    rw [← h]
    simp [SPANNER_ERROR, NOT_FOUND]
  | none =>
    cases hr : w.store.singers.filter (singerKey firstName lastName) with
    | nil =>
      simp only [Option.some.injEq, true_and]
      constructor
      · intro h
        exact h.1.symm
      · intro h
        rw [h]
        exact ⟨rfl, rfl⟩
    | cons a rest => simp

/-- When the Singer lookup of `AddAllNoTxn` succeeds with id `s`, the call
inserts no Singer and its next store operation is the Album lookup by
`(s, albumTitle)`.  If that lookup reports not-found, the call sends exactly
one Album insert, of the row `(s, id drawn, albumTitle)`; when the store
accepts the insert and its commit, that row is added and its id returned with
a nil error, and otherwise the error is returned and nothing is added.  If the
lookup returns a nil error, the call inserts nothing and returns what
`getAlbumId` returned, which need not be the id stored. -/
theorem AddAllNoTxn_existing_singer (w : World) (firstName lastName albumTitle : String) (s : Int)
    (hfound : (getSingerId false firstName lastName w).1 = (s, none)) :
    ((AddAllNoTxn firstName lastName albumTitle w).2.store.singers = w.store.singers ∧
      ∃ rest, (AddAllNoTxn firstName lastName albumTitle w).2.trace =
          w.trace ++ [.query (.selectSingerId firstName lastName) .single,
            .query (.selectAlbumId s albumTitle) .single] ++ rest ∧
        ∀ i f l, Event.update (.insertSingers i f l) ∉ rest) ∧
    (∀ e, (getAlbumId false s albumTitle (getSingerId false firstName lastName w).2).1.2 = some e →
      e.Code = NOT_FOUND →
      (∃ fin, (AddAllNoTxn firstName lastName albumTitle w).2.trace =
          w.trace ++ [.query (.selectSingerId firstName lastName) .single,
            .query (.selectAlbumId s albumTitle) .single,
            .beginRW, .update (.insertAlbums s (w.draw 0) albumTitle), fin]) ∧
      (w.faults (w.opCount + 2) = none → w.faults (w.opCount + 3) = none →
        (AddAllNoTxn firstName lastName albumTitle w).1 = (some (w.draw 0), none) ∧
        (AddAllNoTxn firstName lastName albumTitle w).2.store.albums =
          w.store.albums ++ [⟨s, w.draw 0, albumTitle⟩]) ∧
      (∀ err, (AddAllNoTxn firstName lastName albumTitle w).1.2 = some err →
        (AddAllNoTxn firstName lastName albumTitle w).1.1 = none ∧
        (AddAllNoTxn firstName lastName albumTitle w).2.store = w.store)) ∧
    (∀ a, (getAlbumId false s albumTitle (getSingerId false firstName lastName w).2).1 = (a, none) →
      (AddAllNoTxn firstName lastName albumTitle w).1 = (a, none) ∧
      (AddAllNoTxn firstName lastName albumTitle w).2.store = w.store ∧
      (AddAllNoTxn firstName lastName albumTitle w).2.trace =
        w.trace ++ [.query (.selectSingerId firstName lastName) .single,
          .query (.selectAlbumId s albumTitle) .single]) := by
  obtain ⟨hf, r, rest, hr, hrs⟩ := (getSingerId_found_iff false firstName lastName w s).1 hfound
  subst hrs
  cases hf1 : w.faults (w.opCount + 1) with
  | some msg =>
    simp [AddAllNoTxn, getSingerId_eq, hf, hr, AddAllNoTxn.resolveAlbum, getAlbumId_eq, hf1,
      SPANNER_ERROR, NOT_FOUND]
  | none =>
    cases ha : w.store.albums.filter (albumKey r.SingerId albumTitle) with
    | cons a arest =>
      simp [AddAllNoTxn, getSingerId_eq, hf, hr, AddAllNoTxn.resolveAlbum, getAlbumId_eq, hf1, ha]
    | nil =>
      cases hf2 : w.faults (w.opCount + 2) with
      | some msg =>
        simp [AddAllNoTxn, getSingerId_eq, hf, hr, AddAllNoTxn.resolveAlbum, getAlbumId_eq, hf1,
          ha, albumNotFound, NOT_FOUND, addAlbum_eq, hf2]
      | none =>
        cases hf3 : w.faults (w.opCount + 3) with
        | some msg =>
          simp [AddAllNoTxn, getSingerId_eq, hf, hr, AddAllNoTxn.resolveAlbum, getAlbumId_eq,
            hf1, ha, albumNotFound, NOT_FOUND, addAlbum_eq, hf2, hf3]
        | none =>
          simp [AddAllNoTxn, getSingerId_eq, hf, hr, AddAllNoTxn.resolveAlbum, getAlbumId_eq,
            hf1, ha, albumNotFound, NOT_FOUND, addAlbum_eq, hf2, hf3]

/-- On `sampleWorld` the singer ("Major B", "Zero X") has id 10; the album
"Smoke on the Water" of that singer is absent and gets inserted under the id
drawn, the album "Rain on the Road" is present, nothing is inserted and the id
returned is 0. -/
theorem AddAllNoTxn_existing_singer_witness :
    (getSingerId false "Major B" "Zero X" sampleWorld).1 = (10, none) ∧
    ((AddAllNoTxn "Major B" "Zero X" "Smoke on the Water" sampleWorld).1 = (some 100, none) ∧
      (AddAllNoTxn "Major B" "Zero X" "Smoke on the Water" sampleWorld).2.store.albums =
        sampleWorld.store.albums ++ [⟨10, 100, "Smoke on the Water"⟩]) ∧
    ((AddAllNoTxn "Major B" "Zero X" "Rain on the Road" sampleWorld).1 = (some 0, none) ∧
      (AddAllNoTxn "Major B" "Zero X" "Rain on the Road" sampleWorld).2.store =
        sampleWorld.store) := by
  have h : (getSingerId false "Major B" "Zero X" sampleWorld).1 = (10, none) := by decide
  have h1 := ((AddAllNoTxn_existing_singer sampleWorld "Major B" "Zero X" "Smoke on the Water"
    10 h).2.1 (albumNotFound 10 "Smoke on the Water") (by decide) (by decide)).2.1 rfl rfl
  have h2 := (AddAllNoTxn_existing_singer sampleWorld "Major B" "Zero X" "Rain on the Road"
    10 h).2.2 (some 0) (by decide)
  exact ⟨h, h1, h2.1, h2.2.1⟩

theorem noTxnResolveAlbum_result (singerId : Int) (albumTitle : String) (w : World) :
    (∃ e, (AddAllNoTxn.resolveAlbum singerId albumTitle w).1 = (none, some e)) ∨
    (AddAllNoTxn.resolveAlbum singerId albumTitle w).1 = (some 0, none) ∨
    (AddAllNoTxn.resolveAlbum singerId albumTitle w).1 = (some (w.draw 0), none) := by
  simp only [AddAllNoTxn.resolveAlbum, getAlbumId_eq, addAlbum_eq]
  cases hf : w.faults w.opCount with
  | some msg => simp [SPANNER_ERROR, NOT_FOUND]
  | none =>
    cases ha : w.store.albums.filter (albumKey singerId albumTitle) with
    | cons a arest => simp
    | nil =>
      cases hf1 : w.faults (w.opCount + 1) with
      | some msg => simp [albumNotFound, NOT_FOUND, hf1]
      | none =>
        cases hf2 : w.faults (w.opCount + 1 + 1) with
        | some msg => simp [albumNotFound, NOT_FOUND, hf1, hf2]
        | none => simp [albumNotFound, NOT_FOUND, hf1, hf2]

theorem AddAllNoTxn_result (firstName lastName albumTitle : String) (w : World) :
    (∃ e, (AddAllNoTxn firstName lastName albumTitle w).1 = (none, some e)) ∨
    (AddAllNoTxn firstName lastName albumTitle w).1 = (some 0, none) ∨
    (AddAllNoTxn firstName lastName albumTitle w).1 = (some (w.draw 0), none) ∨
    (AddAllNoTxn firstName lastName albumTitle w).1 = (some (w.draw 1), none) := by
  simp only [AddAllNoTxn, getSingerId_eq, addSinger_eq]
  cases hf : w.faults w.opCount with
  | some msg => simp [SPANNER_ERROR, NOT_FOUND]
  | none =>
    cases hr : w.store.singers.filter (singerKey firstName lastName) with
    | cons r rest =>
      simp only []
      rcases noTxnResolveAlbum_result r.SingerId albumTitle
        (w.afterQuery (.selectSingerId firstName lastName)
          (if false = true then .readWrite else .single)) with h | h | h
      · exact Or.inl h
      · exact Or.inr (Or.inl h)
      · exact Or.inr (Or.inr (Or.inl h))
    | nil =>
      simp only [ne_eq, not_true_eq_false, if_false, World.afterQuery_faults,
        World.afterQuery_opCount]
      cases hf1 : w.faults (w.opCount + 1) with
      | some msg => simp
      | none =>
        cases hf2 : w.faults (w.opCount + 1 + 1) with
        | some msg => simp
        | none =>
          simp only []
          rcases noTxnResolveAlbum_result (w.draw 0) albumTitle _ with h | h | h
          · exact Or.inl h
          · exact Or.inr (Or.inl h)
          · exact Or.inr (Or.inr (Or.inr h))

/-- C4, at the input that breaks it: on `sampleWorld` the Singer lookup of
("Major B", "Zero X") succeeds with id 10 and the album "Rain on the Road" of
singer 10 is stored with id 11.  `AddAllNoTxn` sends the Singer lookup and the
Album lookup and inserts nothing, and it returns a nil error with the id 0, not
the id 11 of the album.  In every world the id it returns with a nil error is
0 or an id it has just drawn for an insert, never an id read from the store. -/
theorem AddAllNoTxn_existing_album_returns_zero (firstName lastName albumTitle : String)
    (w : World) :
    (getSingerId false "Major B" "Zero X" sampleWorld).1 = (10, none) ∧
    sampleWorld.store.albums = [⟨10, 11, "Rain on the Road"⟩] ∧
    (AddAllNoTxn "Major B" "Zero X" "Rain on the Road" sampleWorld).1 = (some 0, none) ∧
    (AddAllNoTxn "Major B" "Zero X" "Rain on the Road" sampleWorld).1 ≠ (some 11, none) ∧
    (AddAllNoTxn "Major B" "Zero X" "Rain on the Road" sampleWorld).2.store =
      sampleWorld.store ∧
    (AddAllNoTxn "Major B" "Zero X" "Rain on the Road" sampleWorld).2.trace =
      [.query (.selectSingerId "Major B" "Zero X") .single,
        .query (.selectAlbumId 10 "Rain on the Road") .single] ∧
    ((∃ e, (AddAllNoTxn firstName lastName albumTitle w).1 = (none, some e)) ∨
      (AddAllNoTxn firstName lastName albumTitle w).1 = (some 0, none) ∨
      (AddAllNoTxn firstName lastName albumTitle w).1 = (some (w.draw 0), none) ∨
      (AddAllNoTxn firstName lastName albumTitle w).1 = (some (w.draw 1), none)) := by
  refine ⟨by decide, rfl, by decide, by decide, by decide, by decide,
    AddAllNoTxn_result firstName lastName albumTitle w⟩

theorem noTxnResolveAlbum_trace (singerId : Int) (albumTitle : String) (w : World) :
    ∃ rest, (AddAllNoTxn.resolveAlbum singerId albumTitle w).2.trace = w.trace ++ rest := by
  simp only [AddAllNoTxn.resolveAlbum, getAlbumId_eq, addAlbum_eq]
  cases hf : w.faults w.opCount with
  | some msg => simp [SPANNER_ERROR, NOT_FOUND, World.Printf]
  | none =>
    cases ha : w.store.albums.filter (albumKey singerId albumTitle) with
    | cons a arest => simp
    | nil =>
      cases hf1 : w.faults (w.opCount + 1) with
      | some msg => simp [albumNotFound, hf1, World.Printf]
      | none =>
        cases hf2 : w.faults (w.opCount + 1 + 1) with
        | some msg => simp [albumNotFound, hf1, hf2, World.Printf]
        | none => simp [albumNotFound, hf1, hf2]

theorem txnResolveAlbum_trace (singerId : Int) (albumTitle : String) (w : World) :
    ∃ rest, (AddAllTxn.resolveAlbum singerId albumTitle w).2.trace = w.trace ++ rest := by
  simp only [AddAllTxn.resolveAlbum, getAlbumId_eq, txnAddAlbum_eq]
  cases hf : w.faults w.opCount with
  | some msg => simp [SPANNER_ERROR, NOT_FOUND, World.Printf]
  | none =>
    cases ha : w.store.albums.filter (albumKey singerId albumTitle) with
    | cons a arest => simp
    | nil =>
      cases hf1 : w.faults (w.opCount + 1) with
      | some msg => simp [albumNotFound, hf1, World.Printf]
      | none => simp [albumNotFound, hf1]

theorem ReadWriteTransaction_trace {α : Type} (body : World → (α × Option GoError) × World)
    (w : World) :
    (ReadWriteTransaction body w).2.trace = (body (w.emit .beginRW)).2.trace ++ [.commit] ∨
    (ReadWriteTransaction body w).2.trace = (body (w.emit .beginRW)).2.trace ++ [.rollback] := by
  unfold ReadWriteTransaction
  rcases hb : body (w.emit .beginRW) with ⟨⟨a, err⟩, w1⟩
  cases err with
  | some e => simp
  | none =>
    cases hf : w1.faults w1.opCount with
    | some msg => simp [World.nextFault, hf]
    | none => simp [World.nextFault, hf]

theorem ReadWriteTransaction_error {α : Type} (body : World → (α × Option GoError) × World)
    (w : World) (a : α) (err : GoError) (h : (body (w.emit .beginRW)).1 = (a, some err)) :
    (ReadWriteTransaction body w).1 = (a, some err) := by
  unfold ReadWriteTransaction
  rcases hb : body (w.emit .beginRW) with ⟨⟨a1, err1⟩, w1⟩
  rw [hb] at h
  simp only [Prod.mk.injEq] at h
  obtain ⟨rfl, rfl⟩ := h
  rfl

theorem noTxnResolveAlbum_trace_from (singerId : Int) (albumTitle : String) (w : World)
    (pre mid : List Event) (h : w.trace = pre ++ mid) :
    ∃ rest, (AddAllNoTxn.resolveAlbum singerId albumTitle w).2.trace = pre ++ rest := by
  obtain ⟨r, hr⟩ := noTxnResolveAlbum_trace singerId albumTitle w
  exact ⟨mid ++ r, by rw [hr, h, List.append_assoc]⟩

theorem txnResolveAlbum_trace_from (singerId : Int) (albumTitle : String) (w : World)
    (pre mid fin : List Event) (h : w.trace = pre ++ mid) :
    ∃ rest, (AddAllTxn.resolveAlbum singerId albumTitle w).2.trace ++ fin = pre ++ rest := by
  obtain ⟨r, hr⟩ := txnResolveAlbum_trace singerId albumTitle w
  exact ⟨mid ++ r ++ fin, by rw [hr, h]; simp only [List.append_assoc]⟩

theorem AddAllTxn_album_lookup_fails (w : World) (firstName lastName albumTitle msg : String)
    (hf : w.faults w.opCount = none)
    (hr : w.store.singers.filter (singerKey firstName lastName) = [])
    (hf1 : w.faults (w.opCount + 1) = none) (hf2 : w.faults (w.opCount + 2) = some msg) :
    (AddAllTxn firstName lastName albumTitle w).1 = (none, some (.errorsNew msg)) ∧
    (AddAllTxn firstName lastName albumTitle w).2.store = w.store ∧
    (AddAllTxn firstName lastName albumTitle w).2.trace = w.trace ++
      [.beginRW, .query (.selectSingerId firstName lastName) .readWrite,
        .update (.insertSingers (w.draw 0) firstName lastName),
        .query (.selectAlbumId (w.draw 0) albumTitle) .readWrite, .rollback] := by
  simp [AddAllTxn, ReadWriteTransaction, AddAllTxn.body, getSingerId_eq, hf, hr, NOT_FOUND,
    txnAddSinger_eq, hf1, AddAllTxn.resolveAlbum, getAlbumId_eq, hf2, SPANNER_ERROR, World.Printf]

theorem AddAllNoTxn_album_lookup_fails (w : World) (firstName lastName albumTitle msg : String)
    (hf : w.faults w.opCount = none)
    (hr : w.store.singers.filter (singerKey firstName lastName) = [])
    (hf1 : w.faults (w.opCount + 1) = none) (hf2 : w.faults (w.opCount + 2) = none)
    (hf3 : w.faults (w.opCount + 3) = some msg) :
    (AddAllNoTxn firstName lastName albumTitle w).1 = (none, some (.errorsNew msg)) ∧
    (AddAllNoTxn firstName lastName albumTitle w).2.store.albums = w.store.albums ∧
    (AddAllNoTxn firstName lastName albumTitle w).2.trace = w.trace ++
      [.query (.selectSingerId firstName lastName) .single, .beginRW,
        .update (.insertSingers (w.draw 0) firstName lastName), .commit,
        .query (.selectAlbumId (w.draw 0) albumTitle) .single] := by
  simp [AddAllNoTxn, getSingerId_eq, hf, hr, NOT_FOUND,
    addSinger_eq, hf1, hf2, AddAllNoTxn.resolveAlbum, getAlbumId_eq, hf3, SPANNER_ERROR, World.Printf]

theorem AddAllNoTxn_album_lookup_fails_found (w : World) (firstName lastName albumTitle msg : String)
    (s : Int) (hfound : (getSingerId false firstName lastName w).1 = (s, none))
    (hf1 : w.faults (w.opCount + 1) = some msg) :
    (AddAllNoTxn firstName lastName albumTitle w).1 = (none, some (.errorsNew msg)) ∧
    (AddAllNoTxn firstName lastName albumTitle w).2.store = w.store ∧
    (AddAllNoTxn firstName lastName albumTitle w).2.trace = w.trace ++
      [.query (.selectSingerId firstName lastName) .single,
        .query (.selectAlbumId s albumTitle) .single] := by
  obtain ⟨hf, r, rest, hr, hrs⟩ := (getSingerId_found_iff false firstName lastName w s).1 hfound
  subst hrs
  simp [AddAllNoTxn, getSingerId_eq, hf, hr, AddAllNoTxn.resolveAlbum, getAlbumId_eq, hf1,
    SPANNER_ERROR, NOT_FOUND, World.Printf]

/-- What each outcome of a lookup leads to, in `AddAllNoTxn` and in `AddAllTxn`:
the result and the trace after a lookup of code SPANNER_ERROR, and the insert
that follows a lookup of code NOT_FOUND. -/
theorem lookup_errors_paths (w : World) (firstName lastName albumTitle : String) (singerId : Int)
    (e : AppError) :
    -- AddAllNoTxn, Singer lookup
    (((getSingerId false firstName lastName w).1.2 = some e → e.Code = SPANNER_ERROR →
        (AddAllNoTxn firstName lastName albumTitle w).1 = (none, some (.errorsNew e.Message)) ∧
        (AddAllNoTxn firstName lastName albumTitle w).2.store = w.store ∧
        (AddAllNoTxn firstName lastName albumTitle w).2.trace =
          w.trace ++ [.query (.selectSingerId firstName lastName) .single]) ∧
      ((getSingerId false firstName lastName w).1.2 = some e → e.Code = NOT_FOUND →
        ∃ rest, (AddAllNoTxn firstName lastName albumTitle w).2.trace =
          w.trace ++ [.query (.selectSingerId firstName lastName) .single, .beginRW,
            .update (.insertSingers (w.draw 0) firstName lastName)] ++ rest)) ∧
    -- AddAllNoTxn, Album lookup
    (((getAlbumId false singerId albumTitle w).1.2 = some e → e.Code = SPANNER_ERROR →
        (AddAllNoTxn.resolveAlbum singerId albumTitle w).1 = (none, some (.errorsNew e.Message)) ∧
        (AddAllNoTxn.resolveAlbum singerId albumTitle w).2.store = w.store ∧
        (AddAllNoTxn.resolveAlbum singerId albumTitle w).2.trace =
          w.trace ++ [.query (.selectAlbumId singerId albumTitle) .single]) ∧
      ((getAlbumId false singerId albumTitle w).1.2 = some e → e.Code = NOT_FOUND →
        ∃ rest, (AddAllNoTxn.resolveAlbum singerId albumTitle w).2.trace =
          w.trace ++ [.query (.selectAlbumId singerId albumTitle) .single, .beginRW,
            .update (.insertAlbums singerId (w.draw 0) albumTitle)] ++ rest)) ∧
    -- AddAllTxn, Singer lookup
    (((getSingerId true firstName lastName w).1.2 = some e → e.Code = SPANNER_ERROR →
        (AddAllTxn firstName lastName albumTitle w).1 = (none, some (.errorsNew e.Message)) ∧
        (AddAllTxn firstName lastName albumTitle w).2.store = w.store ∧
        (AddAllTxn firstName lastName albumTitle w).2.trace =
          w.trace ++ [.beginRW, .query (.selectSingerId firstName lastName) .readWrite,
            .rollback]) ∧
      ((getSingerId true firstName lastName w).1.2 = some e → e.Code = NOT_FOUND →
        ∃ rest, (AddAllTxn firstName lastName albumTitle w).2.trace =
          w.trace ++ [.beginRW, .query (.selectSingerId firstName lastName) .readWrite,
            .update (.insertSingers (w.draw 0) firstName lastName)] ++ rest)) ∧
    -- AddAllTxn, Album lookup
    (((getAlbumId true singerId albumTitle w).1.2 = some e → e.Code = SPANNER_ERROR →
        (AddAllTxn.resolveAlbum singerId albumTitle w).1 = (none, some (.errorsNew e.Message)) ∧
        (AddAllTxn.resolveAlbum singerId albumTitle w).2.store = w.store ∧
        (AddAllTxn.resolveAlbum singerId albumTitle w).2.trace =
          w.trace ++ [.query (.selectAlbumId singerId albumTitle) .readWrite]) ∧
      ((getAlbumId true singerId albumTitle w).1.2 = some e → e.Code = NOT_FOUND →
        ∃ rest, (AddAllTxn.resolveAlbum singerId albumTitle w).2.trace =
          w.trace ++ [.query (.selectAlbumId singerId albumTitle) .readWrite,
            .update (.insertAlbums singerId (w.draw 0) albumTitle)] ++ rest)) ∧
    -- the Album lookup fails, on the whole call
    ((∀ s msg, (getSingerId false firstName lastName w).1 = (s, none) →
        w.faults (w.opCount + 1) = some msg →
        (AddAllNoTxn firstName lastName albumTitle w).1 = (none, some (.errorsNew msg)) ∧
        (AddAllNoTxn firstName lastName albumTitle w).2.store = w.store ∧
        (AddAllNoTxn firstName lastName albumTitle w).2.trace = w.trace ++
          [.query (.selectSingerId firstName lastName) .single,
            .query (.selectAlbumId s albumTitle) .single]) ∧
      (∀ msg, w.faults w.opCount = none →
        w.store.singers.filter (singerKey firstName lastName) = [] →
        w.faults (w.opCount + 1) = none → w.faults (w.opCount + 2) = none →
        w.faults (w.opCount + 3) = some msg →
        (AddAllNoTxn firstName lastName albumTitle w).1 = (none, some (.errorsNew msg)) ∧
        (AddAllNoTxn firstName lastName albumTitle w).2.store.albums = w.store.albums ∧
        (AddAllNoTxn firstName lastName albumTitle w).2.trace = w.trace ++
          [.query (.selectSingerId firstName lastName) .single, .beginRW,
            .update (.insertSingers (w.draw 0) firstName lastName), .commit,
            .query (.selectAlbumId (w.draw 0) albumTitle) .single]) ∧
      (∀ msg, w.faults w.opCount = none →
        w.store.singers.filter (singerKey firstName lastName) = [] →
        w.faults (w.opCount + 1) = none → w.faults (w.opCount + 2) = some msg →
        (AddAllTxn firstName lastName albumTitle w).1 = (none, some (.errorsNew msg)) ∧
        (AddAllTxn firstName lastName albumTitle w).2.store = w.store ∧
        (AddAllTxn firstName lastName albumTitle w).2.trace = w.trace ++
          [.beginRW, .query (.selectSingerId firstName lastName) .readWrite,
            .update (.insertSingers (w.draw 0) firstName lastName),
            .query (.selectAlbumId (w.draw 0) albumTitle) .readWrite, .rollback])) ∧
    -- the transaction returns the error of its body
    (∀ a err, (AddAllTxn.body firstName lastName albumTitle none (w.emit .beginRW)).1 =
        (a, some err) → (AddAllTxn firstName lastName albumTitle w).1 = (a, some err)) := by
  have hne : SPANNER_ERROR ≠ NOT_FOUND := by decide
  refine ⟨⟨?_, ?_⟩, ⟨?_, ?_⟩, ⟨?_, ?_⟩, ⟨?_, ?_⟩,
    ⟨fun s msg h1 h2 => AddAllNoTxn_album_lookup_fails_found w firstName lastName albumTitle msg s
        h1 h2,
      fun msg h0 hr h1 h2 h3 => AddAllNoTxn_album_lookup_fails w firstName lastName albumTitle msg
        h0 hr h1 h2 h3,
      fun msg h0 hr h1 h2 => AddAllTxn_album_lookup_fails w firstName lastName albumTitle msg
        h0 hr h1 h2⟩, ?_⟩
  · intro h hc
    have hm := ((getSingerId_storeError_iff false firstName lastName w e).1 ⟨h, hc⟩).1
    simp [AddAllNoTxn, getSingerId_eq, hm, SPANNER_ERROR, NOT_FOUND]
  · intro h hc
    obtain ⟨hf, hr, -⟩ := (getSingerId_notFound_iff false firstName lastName w e).1 ⟨h, hc⟩
    simp only [AddAllNoTxn, getSingerId_eq, hf, hr, ne_eq, not_true_eq_false, if_false,
      addSinger_eq, World.afterQuery_faults, World.afterQuery_opCount, World.afterQuery_draw,
      World.afterQuery_trace]
    cases hf1 : w.faults (w.opCount + 1) with
    | some msg => exact ⟨[.rollback], by simp [World.Printf]⟩
    | none =>
      cases hf2 : w.faults (w.opCount + 1 + 1) with
      | some msg => exact ⟨[.rollback], by simp [World.Printf]⟩
      | none =>
        exact noTxnResolveAlbum_trace_from _ _ _ _ [.commit] (by simp)
  · intro h hc
    have hm := ((getAlbumId_storeError_iff false singerId albumTitle w e).1 ⟨h, hc⟩).1
    simp [AddAllNoTxn.resolveAlbum, getAlbumId_eq, hm, SPANNER_ERROR, NOT_FOUND, World.Printf]
  · intro h hc
    obtain ⟨hf, hr, -⟩ := (getAlbumId_notFound_iff false singerId albumTitle w e).1 ⟨h, hc⟩
    simp only [AddAllNoTxn.resolveAlbum, getAlbumId_eq, hf, hr, albumNotFound, ne_eq,
      not_true_eq_false, if_false, addAlbum_eq, World.afterQuery_faults,
      World.afterQuery_opCount, World.afterQuery_draw, World.afterQuery_trace]
    cases hf1 : w.faults (w.opCount + 1) with
    | some msg => exact ⟨[.rollback], by simp [World.Printf]⟩
    | none =>
      cases hf2 : w.faults (w.opCount + 1 + 1) with
      | some msg => exact ⟨[.rollback], by simp [World.Printf]⟩
      | none => exact ⟨[.commit], by simp⟩
  · intro h hc
    have hm := ((getSingerId_storeError_iff true firstName lastName w e).1 ⟨h, hc⟩).1
    simp [AddAllTxn, ReadWriteTransaction, AddAllTxn.body, getSingerId_eq, hm, SPANNER_ERROR,
      NOT_FOUND]
  · intro h hc
    obtain ⟨hf, hr, -⟩ := (getSingerId_notFound_iff true firstName lastName w e).1 ⟨h, hc⟩
    rcases ReadWriteTransaction_trace (AddAllTxn.body firstName lastName albumTitle none) w with
      ht | ht
    all_goals
      simp only [AddAllTxn, ht]
      simp only [AddAllTxn.body, getSingerId_eq, World.emit_faults, World.emit_opCount,
        World.emit_store, hf, hr, ne_eq, not_true_eq_false, if_false, txnAddSinger_eq,
        World.afterQuery_faults, World.afterQuery_opCount, World.afterQuery_draw,
        World.afterQuery_trace, World.emit_draw, World.emit_trace]
      cases hf1 : w.faults (w.opCount + 1) with
      | some msg => exact ⟨_, by simp; rfl⟩
      | none =>
        exact txnResolveAlbum_trace_from _ _ _ _ [] _ (by simp [World.Printf])
  · intro h hc
    have hm := ((getAlbumId_storeError_iff true singerId albumTitle w e).1 ⟨h, hc⟩).1
    simp [AddAllTxn.resolveAlbum, getAlbumId_eq, hm, SPANNER_ERROR, NOT_FOUND, World.Printf]
  · intro h hc
    obtain ⟨hf, hr, -⟩ := (getAlbumId_notFound_iff true singerId albumTitle w e).1 ⟨h, hc⟩
    simp only [AddAllTxn.resolveAlbum, getAlbumId_eq, hf, hr, albumNotFound, ne_eq,
      not_true_eq_false, if_false, txnAddAlbum_eq, World.afterQuery_faults,
      World.afterQuery_opCount, World.afterQuery_draw, World.afterQuery_trace]
    cases hf1 : w.faults (w.opCount + 1) with
    | some msg => exact ⟨[], by simp [World.Printf]⟩
    | none => exact ⟨[], by simp⟩
  · intro a err h
    exact ReadWriteTransaction_error _ w a err h

theorem World.firstFailure_mono (w : World) (a b : Nat) (err : GoError) (hab : a ≤ b)
    (hnone : ∀ j, a ≤ j → j < b → w.faults j = none) (h : w.firstFailure b err) :
    w.firstFailure a err := by
  obtain ⟨k, msg, hk, hf, hfirst, herr⟩ := h
  refine ⟨k, msg, by omega, hf, ?_, herr⟩
  intro j h1 h2
  by_cases hj : j < b
  · exact hnone j h1 hj
  · exact hfirst j (by omega) h2

theorem noTxnResolveAlbum_first_failure (singerId : Int) (albumTitle : String) (w : World) :
    (AddAllNoTxn.resolveAlbum singerId albumTitle w).1.2 = none ∨
      ∃ err, (AddAllNoTxn.resolveAlbum singerId albumTitle w).1.2 = some err ∧
        w.firstFailure w.opCount err := by
  simp only [AddAllNoTxn.resolveAlbum, getAlbumId_eq, addAlbum_eq]
  cases hf : w.faults w.opCount with
  | some msg =>
    refine Or.inr ⟨.errorsNew msg, by simp [SPANNER_ERROR, NOT_FOUND], w.opCount, msg,
      Nat.le_refl _, hf, ?_, Or.inr rfl⟩
    intro j h1 h2
    omega
  | none =>
    cases ha : w.store.albums.filter (albumKey singerId albumTitle) with
    | cons a arest => exact Or.inl (by simp)
    | nil =>
      cases hf1 : w.faults (w.opCount + 1) with
      | some msg =>
        refine Or.inr ⟨.store msg, by simp [albumNotFound, hf1], w.opCount + 1, msg,
          by omega, hf1, ?_, Or.inl rfl⟩
        intro j h1 h2
        have hj : j = w.opCount := by omega
        rw [hj]
        exact hf
      | none =>
        cases hf2 : w.faults (w.opCount + 1 + 1) with
        | some msg =>
          refine Or.inr ⟨.store msg, by simp [albumNotFound, hf1, hf2], w.opCount + 1 + 1, msg,
            by omega, hf2, ?_, Or.inl rfl⟩
          intro j h1 h2
          have hj : j = w.opCount ∨ j = w.opCount + 1 := by omega
          rcases hj with hj | hj <;> rw [hj] <;> assumption
        | none => exact Or.inl (by simp [albumNotFound, hf1, hf2])

theorem AddAllNoTxn_first_failure (firstName lastName albumTitle : String) (w : World) :
    (AddAllNoTxn firstName lastName albumTitle w).1.2 = none ∨
      ∃ err, (AddAllNoTxn firstName lastName albumTitle w).1.2 = some err ∧
        w.firstFailure w.opCount err := by
  simp only [AddAllNoTxn, getSingerId_eq, addSinger_eq]
  cases hf : w.faults w.opCount with
  | some msg =>
    refine Or.inr ⟨.errorsNew msg, by simp [SPANNER_ERROR, NOT_FOUND], w.opCount, msg,
      Nat.le_refl _, hf, ?_, Or.inr rfl⟩
    intro j h1 h2
    omega
  | none =>
    cases hr : w.store.singers.filter (singerKey firstName lastName) with
    | cons r rest =>
      simp only []
      rcases noTxnResolveAlbum_first_failure r.SingerId albumTitle
        (w.afterQuery (.selectSingerId firstName lastName)
          (if false = true then .readWrite else .single)) with h | ⟨err, h, hff⟩
      · exact Or.inl h
      · refine Or.inr ⟨err, h, World.firstFailure_mono w w.opCount (w.opCount + 1) err
          (by omega) ?_ hff⟩
        intro j h1 h2
        have hj : j = w.opCount := by omega
        rw [hj]
        exact hf
    | nil =>
      simp only [ne_eq, not_true_eq_false, if_false, World.afterQuery_faults,
        World.afterQuery_opCount]
      cases hf1 : w.faults (w.opCount + 1) with
      | some msg =>
        refine Or.inr ⟨.store msg, by simp, w.opCount + 1, msg, by omega, hf1, ?_, Or.inl rfl⟩
        intro j h1 h2
        have hj : j = w.opCount := by omega
        rw [hj]
        exact hf
      | none =>
        cases hf2 : w.faults (w.opCount + 1 + 1) with
        | some msg =>
          refine Or.inr ⟨.store msg, by simp, w.opCount + 1 + 1, msg, by omega, hf2, ?_,
            Or.inl rfl⟩
          intro j h1 h2
          have hj : j = w.opCount ∨ j = w.opCount + 1 := by omega
          rcases hj with hj | hj <;> rw [hj] <;> assumption
        | none =>
          simp only []
          rcases noTxnResolveAlbum_first_failure (w.draw 0) albumTitle
            { w.afterQuery (.selectSingerId firstName lastName)
                (if false = true then .readWrite else .single) with
              store := { w.store with
                singers := w.store.singers ++ [⟨w.draw 0, firstName, lastName⟩] },
              randPos := w.randPos + 1, opCount := w.opCount + 1 + 2,
              trace := w.trace ++ [.query (.selectSingerId firstName lastName) .single] ++
                [.beginRW, .update (.insertSingers (w.draw 0) firstName lastName), .commit],
              logs := w.logs ++ [(Severity.info, toString (1 : Int) ++ " record(s) inserted.\n")] }
            with h | ⟨err, h, hff⟩
          · exact Or.inl h
          · refine Or.inr ⟨err, h, World.firstFailure_mono w w.opCount (w.opCount + 1 + 2) err
              (by omega) ?_ hff⟩
            intro j h1 h2
            have hj : j = w.opCount ∨ j = w.opCount + 1 ∨ j = w.opCount + 1 + 1 := by omega
            rcases hj with hj | hj | hj <;> rw [hj] <;> assumption

theorem txnResolveAlbum_first_failure (singerId : Int) (albumTitle : String) (w : World) :
    ((AddAllTxn.resolveAlbum singerId albumTitle w).1.2 = none ∧
        (AddAllTxn.resolveAlbum singerId albumTitle w).2.faults = w.faults ∧
        w.opCount ≤ (AddAllTxn.resolveAlbum singerId albumTitle w).2.opCount ∧
        ∀ j, w.opCount ≤ j → j < (AddAllTxn.resolveAlbum singerId albumTitle w).2.opCount →
          w.faults j = none) ∨
      ∃ err, (AddAllTxn.resolveAlbum singerId albumTitle w).1.2 = some err ∧
        w.firstFailure w.opCount err := by
  simp only [AddAllTxn.resolveAlbum, getAlbumId_eq, txnAddAlbum_eq]
  cases hf : w.faults w.opCount with
  | some msg =>
    refine Or.inr ⟨.errorsNew msg, by simp [SPANNER_ERROR, NOT_FOUND], w.opCount, msg,
      Nat.le_refl _, hf, ?_, Or.inr rfl⟩
    intro j h1 h2
    omega
  | none =>
    cases ha : w.store.albums.filter (albumKey singerId albumTitle) with
    | cons a arest =>
      refine Or.inl ⟨by simp, by simp [World.Printf], by simp [World.Printf], ?_⟩
      intro j h1 h2
      simp only [World.Printf_opCount, World.afterQuery_opCount] at h2
      have hj : j = w.opCount := by omega
      rw [hj]
      exact hf
    | nil =>
      cases hf1 : w.faults (w.opCount + 1) with
      | some msg =>
        refine Or.inr ⟨.store msg, by simp [albumNotFound, hf1], w.opCount + 1, msg,
          by omega, hf1, ?_, Or.inl rfl⟩
        intro j h1 h2
        have hj : j = w.opCount := by omega
        rw [hj]
        exact hf
      | none =>
        refine Or.inl ⟨by simp [albumNotFound, hf1], by simp [albumNotFound, hf1],
          by simp [albumNotFound, hf1]; omega, ?_⟩
        intro j h1 h2
        simp [albumNotFound, hf1] at h2
        have hj : j = w.opCount ∨ j = w.opCount + 1 := by omega
        rcases hj with hj | hj <;> rw [hj] <;> assumption

theorem txnBody_first_failure (firstName lastName albumTitle : String) (a : Option Int)
    (w : World) :
    ((AddAllTxn.body firstName lastName albumTitle a w).1.2 = none ∧
        (AddAllTxn.body firstName lastName albumTitle a w).2.faults = w.faults ∧
        w.opCount ≤ (AddAllTxn.body firstName lastName albumTitle a w).2.opCount ∧
        ∀ j, w.opCount ≤ j → j < (AddAllTxn.body firstName lastName albumTitle a w).2.opCount →
          w.faults j = none) ∨
      ∃ err, (AddAllTxn.body firstName lastName albumTitle a w).1.2 = some err ∧
        w.firstFailure w.opCount err := by
  simp only [AddAllTxn.body, getSingerId_eq, txnAddSinger_eq]
  cases hf : w.faults w.opCount with
  | some msg =>
    refine Or.inr ⟨.errorsNew msg, by simp [SPANNER_ERROR, NOT_FOUND], w.opCount, msg,
      Nat.le_refl _, hf, ?_, Or.inr rfl⟩
    intro j h1 h2
    omega
  | none =>
    cases hr : w.store.singers.filter (singerKey firstName lastName) with
    | cons r rest =>
      refine Or.inl ⟨by simp, by simp, by simp, ?_⟩
      intro j h1 h2
      simp only [World.afterQuery_opCount] at h2
      have hj : j = w.opCount := by omega
      rw [hj]
      exact hf
    | nil =>
      simp only [ne_eq, not_true_eq_false, if_false, World.afterQuery_faults,
        World.afterQuery_opCount]
      cases hf1 : w.faults (w.opCount + 1) with
      | some msg =>
        refine Or.inr ⟨.store msg, by simp, w.opCount + 1, msg, by omega, hf1, ?_, Or.inl rfl⟩
        intro j h1 h2
        have hj : j = w.opCount := by omega
        rw [hj]
        exact hf
      | none =>
        simp only []
        have hpre : ∀ j, w.opCount ≤ j → j < w.opCount + 1 + 1 → w.faults j = none := by
          intro j h1 h2
          have hj : j = w.opCount ∨ j = w.opCount + 1 := by omega
          rcases hj with hj | hj <;> rw [hj] <;> assumption
        rcases txnResolveAlbum_first_failure (w.draw 0) albumTitle
          (World.Printf
            { w.afterQuery (.selectSingerId firstName lastName)
                (if true = true then .readWrite else .single) with
              store := { w.store with
                singers := w.store.singers ++ [⟨w.draw 0, firstName, lastName⟩] },
              randPos := w.randPos + 1, opCount := w.opCount + 1 + 1,
              trace := w.trace ++ [.query (.selectSingerId firstName lastName) .readWrite] ++
                [.update (.insertSingers (w.draw 0) firstName lastName)] }
            ("Added singer " ++ firstName ++ " " ++ lastName ++ " in transaction"))
          with ⟨h1, h2, h3, h4⟩ | ⟨err, h, hff⟩
        · refine Or.inl ⟨h1, h2, ?_, ?_⟩
          · exact Nat.le_trans (by show w.opCount ≤ w.opCount + 1 + 1; omega) h3
          · intro j hj1 hj2
            by_cases hlt : j < w.opCount + 1 + 1
            · exact hpre j hj1 hlt
            · exact h4 j (by show w.opCount + 1 + 1 ≤ j; omega) hj2
        · exact Or.inr ⟨err, h, World.firstFailure_mono w w.opCount (w.opCount + 1 + 1) err
            (by omega) hpre hff⟩

theorem AddAllTxn_first_failure (firstName lastName albumTitle : String) (w : World) :
    (AddAllTxn firstName lastName albumTitle w).1.2 = none ∨
      ∃ err, (AddAllTxn firstName lastName albumTitle w).1.2 = some err ∧
        w.firstFailure w.opCount err := by
  have hb := txnBody_first_failure firstName lastName albumTitle none (w.emit .beginRW)
  simp only [AddAllTxn, ReadWriteTransaction]
  rcases hq : AddAllTxn.body firstName lastName albumTitle none (w.emit .beginRW) with
    ⟨⟨a, e⟩, w1⟩
  rw [hq] at hb
  simp only [World.emit_faults, World.emit_opCount] at hb
  rcases hb with ⟨h1, h2, h3, h4⟩ | ⟨err, h, hff⟩
  · subst h1
    simp only [World.nextFault]
    cases hc : w1.faults w1.opCount with
    | none => exact Or.inl rfl
    | some msg =>
      refine Or.inr ⟨.store msg, rfl, w1.opCount, msg, h3, ?_, h4, Or.inl rfl⟩
      rw [← h2]
      exact hc
  · subst h
    exact Or.inr ⟨err, rfl, hff⟩

theorem World.firstFailure_succ (w : World) (start : Nat) (err : GoError)
    (hnone : w.faults start = none) (h : w.firstFailure start err) :
    w.firstFailure (start + 1) err := by
  obtain ⟨k, msg, hk, hf, hfirst, herr⟩ := h
  have hne : k ≠ start := by
    intro he
    rw [he, hnone] at hf
    exact absurd hf (by simp)
  exact ⟨k, msg, by omega, hf, fun j h1 h2 => hfirst j (by omega) h2, herr⟩

theorem notFound_insert_fails (w : World) (firstName lastName albumTitle msg : String)
    (singerId : Int) (hf1 : w.faults (w.opCount + 1) = some msg) :
    (w.faults w.opCount = none → w.store.singers.filter (singerKey firstName lastName) = [] →
      (AddAllNoTxn firstName lastName albumTitle w).1 = (none, some (.store msg)) ∧
      (AddAllTxn firstName lastName albumTitle w).1 = (none, some (.store msg))) ∧
    (w.faults w.opCount = none → w.store.albums.filter (albumKey singerId albumTitle) = [] →
      (AddAllNoTxn.resolveAlbum singerId albumTitle w).1 = (none, some (.store msg)) ∧
      (AddAllTxn.resolveAlbum singerId albumTitle w).1 = (some (w.draw 0), some (.store msg))) := by
  refine ⟨fun hf hr => ⟨?_, ?_⟩, fun hf ha => ⟨?_, ?_⟩⟩
  · simp [AddAllNoTxn, getSingerId_eq, hf, hr, NOT_FOUND, addSinger_eq, hf1]
  · simp [AddAllTxn, ReadWriteTransaction, AddAllTxn.body, getSingerId_eq, hf, hr, NOT_FOUND,
      txnAddSinger_eq, hf1]
  · simp [AddAllNoTxn.resolveAlbum, getAlbumId_eq, hf, ha, albumNotFound, NOT_FOUND, addAlbum_eq,
      hf1]
  · simp [AddAllTxn.resolveAlbum, getAlbumId_eq, hf, ha, albumNotFound, NOT_FOUND,
      txnAddAlbum_eq, hf1]

/-- C5: in `AddAllNoTxn` and in `AddAllTxn`, a Singer or Album lookup that
yields an error of code SPANNER_ERROR makes the coordinator return a non-nil
error carrying that error's message, with no store operation after the failed
lookup other than the rollback of the enclosing transaction; a lookup that
yields an error of code NOT_FOUND is followed at once by the matching insert
and its error is never returned: the call then returns a nil error, or the
error of the first store operation that fails after the lookup, and when the
insert itself is rejected, the store's error for that insert.  The album
lookups are stated on the album part of each function, which runs on the world
reached after the singer part, and then on the whole call for each way of
reaching the album lookup (the store fails the operation that is the album
lookup); `AddAllTxn` returns the error of its transaction body; and for every
world an error returned by either function is that of the first store
operation to fail. -/
theorem lookup_errors (w : World) (firstName lastName albumTitle : String) (singerId : Int)
    (e : AppError) :
    -- AddAllNoTxn, Singer lookup
    (((getSingerId false firstName lastName w).1.2 = some e → e.Code = SPANNER_ERROR →
        (AddAllNoTxn firstName lastName albumTitle w).1 = (none, some (.errorsNew e.Message)) ∧
        (AddAllNoTxn firstName lastName albumTitle w).2.store = w.store ∧
        (AddAllNoTxn firstName lastName albumTitle w).2.trace =
          w.trace ++ [.query (.selectSingerId firstName lastName) .single]) ∧
      ((getSingerId false firstName lastName w).1.2 = some e → e.Code = NOT_FOUND →
        ∃ rest, (AddAllNoTxn firstName lastName albumTitle w).2.trace =
          w.trace ++ [.query (.selectSingerId firstName lastName) .single, .beginRW,
            .update (.insertSingers (w.draw 0) firstName lastName)] ++ rest)) ∧
    -- AddAllNoTxn, Album lookup
    (((getAlbumId false singerId albumTitle w).1.2 = some e → e.Code = SPANNER_ERROR →
        (AddAllNoTxn.resolveAlbum singerId albumTitle w).1 = (none, some (.errorsNew e.Message)) ∧
        (AddAllNoTxn.resolveAlbum singerId albumTitle w).2.store = w.store ∧
        (AddAllNoTxn.resolveAlbum singerId albumTitle w).2.trace =
          w.trace ++ [.query (.selectAlbumId singerId albumTitle) .single]) ∧
      ((getAlbumId false singerId albumTitle w).1.2 = some e → e.Code = NOT_FOUND →
        ∃ rest, (AddAllNoTxn.resolveAlbum singerId albumTitle w).2.trace =
          w.trace ++ [.query (.selectAlbumId singerId albumTitle) .single, .beginRW,
            .update (.insertAlbums singerId (w.draw 0) albumTitle)] ++ rest)) ∧
    -- AddAllTxn, Singer lookup
    (((getSingerId true firstName lastName w).1.2 = some e → e.Code = SPANNER_ERROR →
        (AddAllTxn firstName lastName albumTitle w).1 = (none, some (.errorsNew e.Message)) ∧
        (AddAllTxn firstName lastName albumTitle w).2.store = w.store ∧
        (AddAllTxn firstName lastName albumTitle w).2.trace =
          w.trace ++ [.beginRW, .query (.selectSingerId firstName lastName) .readWrite,
            .rollback]) ∧
      ((getSingerId true firstName lastName w).1.2 = some e → e.Code = NOT_FOUND →
        ∃ rest, (AddAllTxn firstName lastName albumTitle w).2.trace =
          w.trace ++ [.beginRW, .query (.selectSingerId firstName lastName) .readWrite,
            .update (.insertSingers (w.draw 0) firstName lastName)] ++ rest)) ∧
    -- AddAllTxn, Album lookup
    (((getAlbumId true singerId albumTitle w).1.2 = some e → e.Code = SPANNER_ERROR →
        (AddAllTxn.resolveAlbum singerId albumTitle w).1 = (none, some (.errorsNew e.Message)) ∧
        (AddAllTxn.resolveAlbum singerId albumTitle w).2.store = w.store ∧
        (AddAllTxn.resolveAlbum singerId albumTitle w).2.trace =
          w.trace ++ [.query (.selectAlbumId singerId albumTitle) .readWrite]) ∧
      ((getAlbumId true singerId albumTitle w).1.2 = some e → e.Code = NOT_FOUND →
        ∃ rest, (AddAllTxn.resolveAlbum singerId albumTitle w).2.trace =
          w.trace ++ [.query (.selectAlbumId singerId albumTitle) .readWrite,
            .update (.insertAlbums singerId (w.draw 0) albumTitle)] ++ rest)) ∧
    -- the Album lookup fails, on the whole call
    ((∀ s msg, (getSingerId false firstName lastName w).1 = (s, none) →
        w.faults (w.opCount + 1) = some msg →
        (AddAllNoTxn firstName lastName albumTitle w).1 = (none, some (.errorsNew msg)) ∧
        (AddAllNoTxn firstName lastName albumTitle w).2.store = w.store ∧
        (AddAllNoTxn firstName lastName albumTitle w).2.trace = w.trace ++
          [.query (.selectSingerId firstName lastName) .single,
            .query (.selectAlbumId s albumTitle) .single]) ∧
      (∀ msg, w.faults w.opCount = none →
        w.store.singers.filter (singerKey firstName lastName) = [] →
        w.faults (w.opCount + 1) = none → w.faults (w.opCount + 2) = none →
        w.faults (w.opCount + 3) = some msg →
        (AddAllNoTxn firstName lastName albumTitle w).1 = (none, some (.errorsNew msg)) ∧
        (AddAllNoTxn firstName lastName albumTitle w).2.store.albums = w.store.albums ∧
        (AddAllNoTxn firstName lastName albumTitle w).2.trace = w.trace ++
          [.query (.selectSingerId firstName lastName) .single, .beginRW,
            .update (.insertSingers (w.draw 0) firstName lastName), .commit,
            .query (.selectAlbumId (w.draw 0) albumTitle) .single]) ∧
      (∀ msg, w.faults w.opCount = none →
        w.store.singers.filter (singerKey firstName lastName) = [] →
        w.faults (w.opCount + 1) = none → w.faults (w.opCount + 2) = some msg →
        (AddAllTxn firstName lastName albumTitle w).1 = (none, some (.errorsNew msg)) ∧
        (AddAllTxn firstName lastName albumTitle w).2.store = w.store ∧
        (AddAllTxn firstName lastName albumTitle w).2.trace = w.trace ++
          [.beginRW, .query (.selectSingerId firstName lastName) .readWrite,
            .update (.insertSingers (w.draw 0) firstName lastName),
            .query (.selectAlbumId (w.draw 0) albumTitle) .readWrite, .rollback])) ∧
    -- the transaction returns the error of its body
    (∀ a err, (AddAllTxn.body firstName lastName albumTitle none (w.emit .beginRW)).1 =
        (a, some err) → (AddAllTxn firstName lastName albumTitle w).1 = (a, some err)) ∧
    -- a NOT_FOUND error is not returned: the error returned, if any, is that of the
    -- first store operation to fail after the lookup; a failing insert gives its own error
    ((((getSingerId false firstName lastName w).1.2 = some e → e.Code = NOT_FOUND →
          ((AddAllNoTxn firstName lastName albumTitle w).1.2 = none ∨
            ∃ err, (AddAllNoTxn firstName lastName albumTitle w).1.2 = some err ∧
              w.firstFailure (w.opCount + 1) err) ∧
          (∀ msg, w.faults (w.opCount + 1) = some msg →
            (AddAllNoTxn firstName lastName albumTitle w).1 = (none, some (.store msg)))) ∧
        ((getAlbumId false singerId albumTitle w).1.2 = some e → e.Code = NOT_FOUND →
          ((AddAllNoTxn.resolveAlbum singerId albumTitle w).1.2 = none ∨
            ∃ err, (AddAllNoTxn.resolveAlbum singerId albumTitle w).1.2 = some err ∧
              w.firstFailure (w.opCount + 1) err) ∧
          (∀ msg, w.faults (w.opCount + 1) = some msg →
            (AddAllNoTxn.resolveAlbum singerId albumTitle w).1 = (none, some (.store msg)))) ∧
        ((getSingerId true firstName lastName w).1.2 = some e → e.Code = NOT_FOUND →
          ((AddAllTxn firstName lastName albumTitle w).1.2 = none ∨
            ∃ err, (AddAllTxn firstName lastName albumTitle w).1.2 = some err ∧
              w.firstFailure (w.opCount + 1) err) ∧
          (∀ msg, w.faults (w.opCount + 1) = some msg →
            (AddAllTxn firstName lastName albumTitle w).1 = (none, some (.store msg)))) ∧
        ((getAlbumId true singerId albumTitle w).1.2 = some e → e.Code = NOT_FOUND →
          ((AddAllTxn.resolveAlbum singerId albumTitle w).1.2 = none ∨
            ∃ err, (AddAllTxn.resolveAlbum singerId albumTitle w).1.2 = some err ∧
              w.firstFailure (w.opCount + 1) err) ∧
          (∀ msg, w.faults (w.opCount + 1) = some msg →
            (AddAllTxn.resolveAlbum singerId albumTitle w).1 =
              (some (w.draw 0), some (.store msg))))) ∧
      -- whatever the lookups yield, an error returned is that of the first operation to fail
      ((AddAllNoTxn firstName lastName albumTitle w).1.2 = none ∨
        ∃ err, (AddAllNoTxn firstName lastName albumTitle w).1.2 = some err ∧
          w.firstFailure w.opCount err) ∧
      ((AddAllTxn firstName lastName albumTitle w).1.2 = none ∨
        ∃ err, (AddAllTxn firstName lastName albumTitle w).1.2 = some err ∧
          w.firstFailure w.opCount err)) := by
  have h := lookup_errors_paths w firstName lastName albumTitle singerId e
  refine ⟨h.1, h.2.1, h.2.2.1, h.2.2.2.1, h.2.2.2.2.1, h.2.2.2.2.2, ⟨?_, ?_, ?_, ?_⟩,
    AddAllNoTxn_first_failure firstName lastName albumTitle w,
    AddAllTxn_first_failure firstName lastName albumTitle w⟩
  · intro hl hc
    obtain ⟨hf, hr, -⟩ := (getSingerId_notFound_iff false firstName lastName w e).1 ⟨hl, hc⟩
    refine ⟨?_, fun msg hm =>
      ((notFound_insert_fails w firstName lastName albumTitle msg singerId hm).1 hf hr).1⟩
    rcases AddAllNoTxn_first_failure firstName lastName albumTitle w with h0 | ⟨err, he, hff⟩
    · exact Or.inl h0
    · exact Or.inr ⟨err, he, World.firstFailure_succ w _ err hf hff⟩
  · intro hl hc
    obtain ⟨hf, hr, -⟩ := (getAlbumId_notFound_iff false singerId albumTitle w e).1 ⟨hl, hc⟩
    refine ⟨?_, fun msg hm =>
      ((notFound_insert_fails w firstName lastName albumTitle msg singerId hm).2 hf hr).1⟩
    rcases noTxnResolveAlbum_first_failure singerId albumTitle w with h0 | ⟨err, he, hff⟩
    · exact Or.inl h0
    · exact Or.inr ⟨err, he, World.firstFailure_succ w _ err hf hff⟩
  · intro hl hc
    obtain ⟨hf, hr, -⟩ := (getSingerId_notFound_iff true firstName lastName w e).1 ⟨hl, hc⟩
    refine ⟨?_, fun msg hm =>
      ((notFound_insert_fails w firstName lastName albumTitle msg singerId hm).1 hf hr).2⟩
    rcases AddAllTxn_first_failure firstName lastName albumTitle w with h0 | ⟨err, he, hff⟩
    · exact Or.inl h0
    · exact Or.inr ⟨err, he, World.firstFailure_succ w _ err hf hff⟩
  · intro hl hc
    obtain ⟨hf, hr, -⟩ := (getAlbumId_notFound_iff true singerId albumTitle w e).1 ⟨hl, hc⟩
    refine ⟨?_, fun msg hm =>
      ((notFound_insert_fails w firstName lastName albumTitle msg singerId hm).2 hf hr).2⟩
    rcases txnResolveAlbum_first_failure singerId albumTitle w with h0 | ⟨err, he, hff⟩
    · exact Or.inl h0.1
    · exact Or.inr ⟨err, he, World.firstFailure_succ w _ err hf hff⟩

/-- Witness of C5: a store that fails the lookup with "deadline exceeded", and
lookups of an absent singer and an absent album on `sampleWorld`. -/
theorem lookup_errors_witness :
    ((getSingerId false "Captain A" "Ryan II" (failingWorld 0 "deadline exceeded")).1.2 =
        some ⟨"deadline exceeded", SPANNER_ERROR⟩ ∧
      (AddAllNoTxn "Captain A" "Ryan II" "Smoke on the Water"
        (failingWorld 0 "deadline exceeded")).1 = (none, some (.errorsNew "deadline exceeded"))) ∧
    ((getAlbumId false 10 "Smoke on the Water" (failingWorld 0 "deadline exceeded")).1.2 =
        some ⟨"deadline exceeded", SPANNER_ERROR⟩ ∧
      (AddAllNoTxn.resolveAlbum 10 "Smoke on the Water"
        (failingWorld 0 "deadline exceeded")).1 = (none, some (.errorsNew "deadline exceeded"))) ∧
    ((getSingerId true "Captain A" "Ryan II" (failingWorld 0 "deadline exceeded")).1.2 =
        some ⟨"deadline exceeded", SPANNER_ERROR⟩ ∧
      (AddAllTxn "Captain A" "Ryan II" "Smoke on the Water"
        (failingWorld 0 "deadline exceeded")).1 = (none, some (.errorsNew "deadline exceeded"))) ∧
    ((getAlbumId true 10 "Smoke on the Water" (failingWorld 0 "deadline exceeded")).1.2 =
        some ⟨"deadline exceeded", SPANNER_ERROR⟩ ∧
      (AddAllTxn.resolveAlbum 10 "Smoke on the Water"
        (failingWorld 0 "deadline exceeded")).1 = (none, some (.errorsNew "deadline exceeded"))) ∧
    ((getSingerId false "Captain A" "Ryan II" sampleWorld).1.2 =
        some ⟨"Singer not found%!(EXTRA string=Captain A, string=Ryan II)", NOT_FOUND⟩ ∧
      ∃ rest, (AddAllNoTxn "Captain A" "Ryan II" "Smoke on the Water" sampleWorld).2.trace =
        sampleWorld.trace ++ [.query (.selectSingerId "Captain A" "Ryan II") .single, .beginRW,
          .update (.insertSingers (sampleWorld.draw 0) "Captain A" "Ryan II")] ++ rest) ∧
    ((getAlbumId true 10 "Smoke on the Water" sampleWorld).1.2 =
        some (albumNotFound 10 "Smoke on the Water") ∧
      ∃ rest, (AddAllTxn.resolveAlbum 10 "Smoke on the Water" sampleWorld).2.trace =
        sampleWorld.trace ++ [.query (.selectAlbumId 10 "Smoke on the Water") .readWrite,
          .update (.insertAlbums 10 (sampleWorld.draw 0) "Smoke on the Water")] ++ rest) ∧
    (AddAllTxn "Captain A" "Ryan II" "Smoke on the Water"
      (failingWorld 2 "deadline exceeded")).1 = (none, some (.errorsNew "deadline exceeded")) ∧
    ((getSingerId false "Captain A" "Ryan II" (failingWorld 1 "deadline exceeded")).1.2 =
        some ⟨"Singer not found%!(EXTRA string=Captain A, string=Ryan II)", NOT_FOUND⟩ ∧
      (AddAllNoTxn "Captain A" "Ryan II" "Smoke on the Water"
        (failingWorld 1 "deadline exceeded")).1 = (none, some (.store "deadline exceeded")) ∧
      (AddAllTxn "Captain A" "Ryan II" "Smoke on the Water"
        (failingWorld 1 "deadline exceeded")).1 = (none, some (.store "deadline exceeded"))) := by
  have a7 : (getSingerId false "Captain A" "Ryan II" (failingWorld 1 "deadline exceeded")).1.2 =
      some ⟨"Singer not found%!(EXTRA string=Captain A, string=Ryan II)", NOT_FOUND⟩ := by decide
  have a8 : (getSingerId true "Captain A" "Ryan II" (failingWorld 1 "deadline exceeded")).1.2 =
      some ⟨"Singer not found%!(EXTRA string=Captain A, string=Ryan II)", NOT_FOUND⟩ := by decide
  have a1 : (getSingerId false "Captain A" "Ryan II" (failingWorld 0 "deadline exceeded")).1.2 =
      some ⟨"deadline exceeded", SPANNER_ERROR⟩ := by decide
  have a2 : (getAlbumId false 10 "Smoke on the Water" (failingWorld 0 "deadline exceeded")).1.2 =
      some ⟨"deadline exceeded", SPANNER_ERROR⟩ := by decide
  have a3 : (getSingerId true "Captain A" "Ryan II" (failingWorld 0 "deadline exceeded")).1.2 =
      some ⟨"deadline exceeded", SPANNER_ERROR⟩ := by decide
  have a4 : (getAlbumId true 10 "Smoke on the Water" (failingWorld 0 "deadline exceeded")).1.2 =
      some ⟨"deadline exceeded", SPANNER_ERROR⟩ := by decide
  have a5 : (getSingerId false "Captain A" "Ryan II" sampleWorld).1.2 =
      some ⟨"Singer not found%!(EXTRA string=Captain A, string=Ryan II)", NOT_FOUND⟩ := by decide
  have a6 : (getAlbumId true 10 "Smoke on the Water" sampleWorld).1.2 =
      some (albumNotFound 10 "Smoke on the Water") := by decide
  exact ⟨⟨a1, ((lookup_errors (failingWorld 0 "deadline exceeded") "Captain A" "Ryan II"
      "Smoke on the Water" 10 ⟨"deadline exceeded", SPANNER_ERROR⟩).1.1 a1 rfl).1⟩,
    ⟨a2, ((lookup_errors (failingWorld 0 "deadline exceeded") "Captain A" "Ryan II"
      "Smoke on the Water" 10 ⟨"deadline exceeded", SPANNER_ERROR⟩).2.1.1 a2 rfl).1⟩,
    ⟨a3, ((lookup_errors (failingWorld 0 "deadline exceeded") "Captain A" "Ryan II"
      "Smoke on the Water" 10 ⟨"deadline exceeded", SPANNER_ERROR⟩).2.2.1.1 a3 rfl).1⟩,
    ⟨a4, ((lookup_errors (failingWorld 0 "deadline exceeded") "Captain A" "Ryan II"
      "Smoke on the Water" 10 ⟨"deadline exceeded", SPANNER_ERROR⟩).2.2.2.1.1 a4 rfl).1⟩,
    ⟨a5, (lookup_errors sampleWorld "Captain A" "Ryan II" "Smoke on the Water" 10
      ⟨"Singer not found%!(EXTRA string=Captain A, string=Ryan II)", NOT_FOUND⟩).1.2 a5 rfl⟩,
    ⟨a6, (lookup_errors sampleWorld "Captain A" "Ryan II" "Smoke on the Water" 10
      (albumNotFound 10 "Smoke on the Water")).2.2.2.1.2 a6 rfl⟩,
    ((lookup_errors (failingWorld 2 "deadline exceeded") "Captain A" "Ryan II"
      "Smoke on the Water" 10 ⟨"deadline exceeded", SPANNER_ERROR⟩).2.2.2.2.1.2.2
      "deadline exceeded" rfl (by decide) rfl rfl).1,
    a7, ((lookup_errors (failingWorld 1 "deadline exceeded") "Captain A" "Ryan II"
      "Smoke on the Water" 10
      ⟨"Singer not found%!(EXTRA string=Captain A, string=Ryan II)", NOT_FOUND⟩).2.2.2.2.2.2.1.1
      a7 rfl).2 "deadline exceeded" rfl,
    ((lookup_errors (failingWorld 1 "deadline exceeded") "Captain A" "Ryan II"
      "Smoke on the Water" 10
      ⟨"Singer not found%!(EXTRA string=Captain A, string=Ryan II)", NOT_FOUND⟩).2.2.2.2.2.2.1.2.2.1
      a8 rfl).2 "deadline exceeded" rfl⟩

/-- C6: on every row stream, `getSingerId` and `getAlbumId` report code
NOT_FOUND exactly when the first `Next` reports done, report code
SPANNER_ERROR with the message of the failure exactly when the first `Next`
reports that failure, and otherwise return a nil error having consumed the
first row only; the two codes differ. -/
theorem resolver_outcomes (firstName lastName albumTitle : String) (singerId : Int)
    (iter : RowIterator) (w : World) :
    (((getSingerId.loop firstName lastName iter w).1.1.2.map AppError.Code = some NOT_FOUND ↔
        iter.Next.1 = .done) ∧
      (∀ msg, (getSingerId.loop firstName lastName iter w).1.1.2 = some ⟨msg, SPANNER_ERROR⟩ ↔
        ∃ err, iter.Next.1 = .failure err ∧ err.Error = msg) ∧
      ((getSingerId.loop firstName lastName iter w).1.1.2 = none ↔
        ∃ row, iter.Next.1 = .row row) ∧
      (∀ row rest, (getSingerId.loop firstName lastName ⟨.row row :: rest⟩ w).1.2 = ⟨rest⟩)) ∧
    (((getAlbumId.loop singerId albumTitle iter w).1.1.2.map AppError.Code = some NOT_FOUND ↔
        iter.Next.1 = .done) ∧
      (∀ msg, (getAlbumId.loop singerId albumTitle iter w).1.1.2 = some ⟨msg, SPANNER_ERROR⟩ ↔
        ∃ err, iter.Next.1 = .failure err ∧ err.Error = msg) ∧
      ((getAlbumId.loop singerId albumTitle iter w).1.1.2 = none ↔
        ∃ row, iter.Next.1 = .row row) ∧
      (∀ row rest, (getAlbumId.loop singerId albumTitle ⟨.row row :: rest⟩ w).1.2 = ⟨rest⟩)) ∧
    NOT_FOUND ≠ SPANNER_ERROR := by
  have hne : SPANNER_ERROR ≠ NOT_FOUND := by decide
  have hne2 : NOT_FOUND ≠ SPANNER_ERROR := by decide
  rcases iter with ⟨pending⟩
  refine ⟨⟨?_, ?_, ?_, ?_⟩, ⟨?_, ?_, ?_, ?_⟩, hne2⟩
  all_goals
    first
    | (intro row rest; simp [getSingerId.loop, getAlbumId.loop, RowIterator.Next])
    | (rcases pending with _ | ⟨item, rest⟩
       · simp [getSingerId.loop, getAlbumId.loop, RowIterator.Next, albumNotFound, hne, hne2]
       · cases item <;>
           simp [getSingerId.loop, getAlbumId.loop, RowIterator.Next, albumNotFound, hne, hne2])

/-- C7, at the rows that break it: on a stream whose first row is
`(SingerId = s, AlbumId = a)` the function `getAlbumId` returns a nil error and
the id 0, whatever `a` is: each of its two `row.Columns` calls passes one
destination for a row of two columns, fails, and leaves `albumId` at its zero
value.  For the row (5, 7) the id returned is 0, not 7. -/
theorem getAlbumId_returns_zero (singerId s a : Int) (albumTitle : String)
    (rest : List StreamItem) (w : World) :
    (getAlbumId.loop singerId albumTitle ⟨.row [.int64 s, .int64 a] :: rest⟩ w).1.1 =
      (some 0, none) ∧
    (getAlbumId.loop 5 "Smoke on the Water" ⟨[.row [.int64 5, .int64 7]]⟩ emptyWorld).1.1 ≠
      (some 7, none) ∧
    (getAlbumId false 10 "Rain on the Road" sampleWorld).1 = (some 0, none) := by
  refine ⟨?_, by decide, by decide⟩
  simp [getAlbumId.loop, RowIterator.Next, Row.ColumnsInt64]

/-- C8: `NextUserAction` returns `ACTIONS[r]` for the index `r` drawn, `r` is
within the bounds of `ACTIONS`, the result depends on the world through `r`
only, and only the random source advances.  `ACTIONS` lists the seven Action
constants, each once: for every position `i`, the indices of `{0,...,6}` that
give `ACTIONS[i]` are `i` alone, so that one index out of seven gives each
action. -/
theorem NextUserAction_uniform (w : World) (i : Fin 7) :
    (Intn ACTIONS.length w).1 < ACTIONS.length ∧
    (NextUserAction w).1 = ACTIONS[w.randSrc w.randPos % 7]? ∧
    (NextUserAction w).1 = some ⟨((w.randSrc w.randPos % 7 : Nat) : Int) + 1⟩ ∧
    (NextUserAction w).2 = { w with randPos := w.randPos + 1 } ∧
    ACTIONS = [ACTION_QUERY_ALBUMS, ACTION_QUERY_LIMIT, ACTION_QUERY_SINGERS_FIRST,
      ACTION_QUERY_SINGERS_LAST, ACTION_JOIN_SINGER_ALBUM, ACTION_ADD_ALL_TXN,
      ACTION_ADD_SINGLE_TXNS] ∧
    ACTIONS.length = 7 ∧ ACTIONS.Nodup ∧
    (List.range 7).filter (fun r => decide (ACTIONS[r]? = ACTIONS[i.val]?)) = [i.val] ∧
    (((List.range 7).filter (fun r => decide (ACTIONS[r]? = ACTIONS[i.val]?))).length : ℚ) /
      ACTIONS.length = 1 / 7 := by
  have hlen : ACTIONS.length = 7 := rfl
  have hlt : w.randSrc w.randPos % 7 < 7 := Nat.mod_lt _ (by decide)
  have hall : ∀ r : Fin 7, ACTIONS[r.val]? = some ⟨((r.val : Nat) : Int) + 1⟩ := by decide
  have hfil : ∀ j : Fin 7,
      (List.range 7).filter (fun r => decide (ACTIONS[r]? = ACTIONS[j.val]?)) = [j.val] := by
    decide
  refine ⟨?_, rfl, ?_, rfl, rfl, hlen, by decide, hfil i, ?_⟩
  · simp only [Intn, hlen]
    exact hlt
  · simp only [NextUserAction, Intn, hlen]
    exact hall ⟨_, hlt⟩
  · rw [hfil i, hlen]
    norm_num

theorem String.join3_ne_empty (a sep b : String) (h : 0 < sep.length) : a ++ sep ++ b ≠ "" := by
  intro he
  have hl := congrArg String.length he
  simp only [String.length_append] at hl
  have h0 : ("" : String).length = 0 := rfl
  omega

/-- C9 as stated fails: with the draws 0, 1, 2, 3, 4, 5 the album title is
"Thunder on the Hills", which is no descriptor and location joined by a
single space. -/
theorem RandomData_albumTitle_not_space_joined :
    (RandomData emptyWorld).1 = some ⟨"Private B", "Major IV", "Thunder on the Hills"⟩ ∧
    ¬ ∃ d ∈ RandomData.part1, ∃ l ∈ RandomData.part2, "Thunder on the Hills" = d ++ " " ++ l := by
  refine ⟨by decide, by decide⟩

/-- C9 amended: for every outcome of the six draws, each index drawn is within
the bounds of its vocabulary and `RandomData` returns a record whose
FirstName is a rank and an initial joined by one space, whose LastName is a
surname and a generation joined by one space, and whose AlbumTitle is a
descriptor and a location joined by " on the "; the three fields are
non-empty. -/
theorem RandomData_fields (w : World) :
    ∃ m n p q r s rk ini sur gen p1 p2,
      (RandomData.draws w).1 = (m, n, p, q, r, s) ∧
      (m < RandomData.rank.length ∧ n < RandomData.initial.length ∧
        p < RandomData.surname.length ∧ q < RandomData.generation.length ∧
        r < RandomData.part1.length ∧ s < RandomData.part2.length) ∧
      (RandomData.rank[m]? = some rk ∧ RandomData.initial[n]? = some ini ∧
        RandomData.surname[p]? = some sur ∧ RandomData.generation[q]? = some gen ∧
        RandomData.part1[r]? = some p1 ∧ RandomData.part2[s]? = some p2) ∧
      (rk ∈ RandomData.rank ∧ ini ∈ RandomData.initial ∧ sur ∈ RandomData.surname ∧
        gen ∈ RandomData.generation ∧ p1 ∈ RandomData.part1 ∧ p2 ∈ RandomData.part2) ∧
      (RandomData w).1 = some ⟨rk ++ " " ++ ini, sur ++ " " ++ gen, p1 ++ " on the " ++ p2⟩ ∧
      rk ++ " " ++ ini ≠ "" ∧ sur ++ " " ++ gen ≠ "" ∧ p1 ++ " on the " ++ p2 ≠ "" := by
  have hm : w.randSrc w.randPos % RandomData.rank.length < RandomData.rank.length :=
    Nat.mod_lt _ (by decide)
  have hn : w.randSrc (w.randPos + 1) % RandomData.initial.length < RandomData.initial.length :=
    Nat.mod_lt _ (by decide)
  have hp : w.randSrc (w.randPos + 1 + 1) % RandomData.surname.length <
      RandomData.surname.length := Nat.mod_lt _ (by decide)
  have hq : w.randSrc (w.randPos + 1 + 1 + 1) % RandomData.generation.length <
      RandomData.generation.length := Nat.mod_lt _ (by decide)
  have hr : w.randSrc (w.randPos + 1 + 1 + 1 + 1) % RandomData.part1.length <
      RandomData.part1.length := Nat.mod_lt _ (by decide)
  have hs : w.randSrc (w.randPos + 1 + 1 + 1 + 1 + 1) % RandomData.part2.length <
      RandomData.part2.length := Nat.mod_lt _ (by decide)
  refine ⟨_, _, _, _, _, _, _, _, _, _, _, _, rfl, ⟨hm, hn, hp, hq, hr, hs⟩,
    ⟨List.getElem?_eq_getElem hm, List.getElem?_eq_getElem hn, List.getElem?_eq_getElem hp,
      List.getElem?_eq_getElem hq, List.getElem?_eq_getElem hr, List.getElem?_eq_getElem hs⟩,
    ⟨List.getElem_mem _, List.getElem_mem _, List.getElem_mem _, List.getElem_mem _,
      List.getElem_mem _, List.getElem_mem _⟩, ?_,
    String.join3_ne_empty _ _ _ (by decide), String.join3_ne_empty _ _ _ (by decide),
    String.join3_ne_empty _ _ _ (by decide)⟩
  simp only [RandomData, RandomData.draws, Int63n, RandomData.compose,
    List.getElem?_eq_getElem hm, List.getElem?_eq_getElem hn, List.getElem?_eq_getElem hp,
    List.getElem?_eq_getElem hq, List.getElem?_eq_getElem hr, List.getElem?_eq_getElem hs]

/-- C10, at the inputs that break it: the action named
"AddAllInBigTransaction" (ACTION_ADD_ALL_TXN) runs `AddAllNoTxn` under the span
"add-album-single-txns", two transactions of one insert each on an empty
database, and the action named "AddEachInSingleTransactions"
(ACTION_ADD_SINGLE_TXNS) runs `AddAllTxn` under the span
"add-album-all-one-txn", one transaction with both inserts.  The five query
actions run the query of their name. -/
theorem dispatch_add_actions_swapped (w : World) :
    (Action.String ACTION_ADD_ALL_TXN = "AddAllInBigTransaction" ∧
      runSimulation.dispatch ACTION_ADD_ALL_TXN w =
        (match RandomData w with
          | (none, _) => none
          | (some data, w1) =>
            match AddAllNoTxn data.FirstName data.LastName data.AlbumTitle
                (w1.emit (.startSpan "add-album-single-txns")) with
            | ((_, some err), w2) =>
              some ((w2.Printf ("Error adding singer " ++ err.Error)).emit .endSpan)
            | ((_, none), w2) => some (w2.emit .endSpan)) ∧
      (runSimulation.dispatch ACTION_ADD_ALL_TXN emptyWorld).map World.trace =
        some [.startSpan "add-album-single-txns",
          .query (.selectSingerId "Private B" "Major IV") .single,
          .beginRW, .update (.insertSingers 6 "Private B" "Major IV"), .commit,
          .query (.selectAlbumId 6 "Thunder on the Hills") .single,
          .beginRW, .update (.insertAlbums 6 7 "Thunder on the Hills"), .commit,
          .endSpan]) ∧
    (Action.String ACTION_ADD_SINGLE_TXNS = "AddEachInSingleTransactions" ∧
      runSimulation.dispatch ACTION_ADD_SINGLE_TXNS w =
        (match RandomData w with
          | (none, _) => none
          | (some data, w1) =>
            match AddAllTxn data.FirstName data.LastName data.AlbumTitle
                (w1.emit (.startSpan "add-album-all-one-txn")) with
            | ((_, some err), w2) =>
              some ((w2.Printf ("Error adding singer in transaction " ++ err.Error)).emit .endSpan)
            | ((_, none), w2) => some (w2.emit .endSpan)) ∧
      (runSimulation.dispatch ACTION_ADD_SINGLE_TXNS emptyWorld).map World.trace =
        some [.startSpan "add-album-all-one-txn",
          .beginRW, .query (.selectSingerId "Private B" "Major IV") .readWrite,
          .update (.insertSingers 6 "Private B" "Major IV"),
          .query (.selectAlbumId 6 "Thunder on the Hills") .readWrite,
          .update (.insertAlbums 6 7 "Thunder on the Hills"), .commit,
          .endSpan]) ∧
    (runSimulation.dispatch ACTION_QUERY_ALBUMS w = some (QueryAlbums w).2 ∧
      runSimulation.dispatch ACTION_QUERY_LIMIT w = some (QueryAlbumsLimit w).2 ∧
      runSimulation.dispatch ACTION_QUERY_SINGERS_FIRST w = some (QuerySingersFirstName w).2 ∧
      runSimulation.dispatch ACTION_QUERY_SINGERS_LAST w = some (QuerySingersLastName w).2 ∧
      runSimulation.dispatch ACTION_JOIN_SINGER_ALBUM w = some (JoinSingerAlbum w).2) := by
  refine ⟨⟨by decide, rfl, by decide⟩, ⟨by decide, rfl, by decide⟩, rfl, rfl, rfl, rfl, rfl⟩

theorem beginsWith_append (p x : List Char) : beginsWith p (p ++ x) = true := by
  induction p with
  | nil => rfl
  | cons c cs ih => simp [beginsWith, ih]

theorem isActionLog_action (sev : Severity) (x : String) :
    isActionLog (sev, "Next user action is " ++ x) = true := by
  simp only [isActionLog, String.data_append]
  exact beginsWith_append _ _

theorem isActionLog_other (sev : Severity) (a x : String) (c : Char) (cs : List Char)
    (h : a.data = c :: cs) (hc : c ≠ 'N') : isActionLog (sev, a ++ x) = false := by
  have hp : "Next user action is ".data = 'N' :: "ext user action is ".data := by decide
  simp only [isActionLog, String.data_append, h, hp, List.cons_append, beginsWith,
    Bool.and_eq_false_imp, beq_iff_eq]
  intro h1
  exact absurd h1.symm hc

theorem World.counts_emit (w : World) (e : Event) (h1 : e.isStartSpan = false)
    (h2 : e.isEndSpan = false) : (w.emit e).counts = w.counts := by
  simp [World.counts, World.emit, List.countP_append, List.countP_cons, h1, h2]

theorem World.counts_startSpan (w : World) (name : String) :
    (w.emit (.startSpan name)).counts = (w.counts.1 + 1, w.counts.2.1, w.counts.2.2) := by
  simp [World.counts, World.emit, List.countP_append, List.countP_cons, Event.isStartSpan,
    Event.isEndSpan]

theorem World.counts_endSpan (w : World) :
    (w.emit .endSpan).counts = (w.counts.1, w.counts.2.1 + 1, w.counts.2.2) := by
  simp [World.counts, World.emit, List.countP_append, List.countP_cons, Event.isStartSpan,
    Event.isEndSpan]

theorem World.counts_Printf (w : World) (m : String) (h : isActionLog (Severity.info, m) = false) :
    (w.Printf m).counts = w.counts := by
  simp [World.counts, World.Printf, List.countP_append, List.countP_cons, h]

theorem World.counts_Errorf (w : World) (m : String)
    (h : isActionLog (Severity.error, m) = false) : (w.Errorf m).counts = w.counts := by
  simp [World.counts, World.Errorf, List.countP_append, List.countP_cons, h]

theorem World.counts_print (w : World) (m : String) : (w.print m).counts = w.counts := rfl

theorem World.counts_afterQuery (w : World) (s : Statement) (k : TxnKind) :
    (w.afterQuery s k).counts = w.counts := by
  simp [World.counts, World.afterQuery, List.countP_append, List.countP_cons, Event.isStartSpan,
    Event.isEndSpan]

theorem isActionLog_inserted :
    isActionLog (Severity.info, toString (1 : Int) ++ " record(s) inserted.\n") = false := by
  decide

theorem isActionLog_failed : isActionLog (Severity.info, "Failed to parse row") = false := by
  decide

theorem Query_counts (stmt : Statement) (kind : TxnKind) (w : World) :
    (Query stmt kind w).2.counts = w.counts := by
  unfold Query
  simp only [World.nextFault, World.emit]
  cases w.faults w.opCount with
  | some msg =>
    simp [World.counts, List.countP_append, List.countP_cons, Event.isStartSpan,
      Event.isEndSpan]
  | none =>
    simp only []
    cases execQuery w.store stmt <;>
      simp [World.counts, List.countP_append, List.countP_cons, Event.isStartSpan,
        Event.isEndSpan]

theorem getSingerId_counts (txn : Bool) (firstName lastName : String) (w : World) :
    (getSingerId txn firstName lastName w).2.counts = w.counts := by
  rw [getSingerId_eq]
  exact World.counts_afterQuery _ _ _

theorem getAlbumId_counts (txn : Bool) (singerId : Int) (albumTitle : String) (w : World) :
    (getAlbumId txn singerId albumTitle w).2.counts = w.counts := by
  rw [getAlbumId_eq]
  cases w.faults w.opCount with
  | some msg => exact World.counts_afterQuery _ _ _
  | none =>
    cases w.store.albums.filter (albumKey singerId albumTitle) with
    | nil => exact World.counts_afterQuery _ _ _
    | cons a rest =>
      simp only [World.counts_Printf _ _ isActionLog_failed]
      exact World.counts_afterQuery _ _ _

theorem addSinger_counts (firstName lastName : String) (w : World) :
    (addSinger firstName lastName w).2.counts = w.counts := by
  rw [addSinger_eq]
  cases w.faults w.opCount with
  | some msg =>
    simp [World.counts, List.countP_append, List.countP_cons, Event.isStartSpan,
      Event.isEndSpan]
  | none =>
    cases w.faults (w.opCount + 1) <;>
      simp [World.counts, List.countP_append, List.countP_cons, Event.isStartSpan,
        Event.isEndSpan, isActionLog_inserted]

theorem addAlbum_counts (singerId : Int) (albumTitle : String) (w : World) :
    (addAlbum singerId albumTitle w).2.counts = w.counts := by
  rw [addAlbum_eq]
  cases w.faults w.opCount with
  | some msg =>
    simp [World.counts, List.countP_append, List.countP_cons, Event.isStartSpan,
      Event.isEndSpan]
  | none =>
    cases w.faults (w.opCount + 1) <;>
      simp [World.counts, List.countP_append, List.countP_cons, Event.isStartSpan,
        Event.isEndSpan, isActionLog_inserted]

theorem txnAddSinger_counts (firstName lastName : String) (w : World) :
    (AddAllTxn.addSinger firstName lastName w).2.counts = w.counts := by
  rw [txnAddSinger_eq]
  cases w.faults w.opCount <;>
    simp [World.counts, List.countP_append, List.countP_cons, Event.isStartSpan,
      Event.isEndSpan]

theorem txnAddAlbum_counts (singerId : Int) (albumTitle : String) (w : World) :
    (AddAllTxn.addAlbum singerId albumTitle w).2.counts = w.counts := by
  rw [txnAddAlbum_eq]
  cases w.faults w.opCount <;>
    simp [World.counts, List.countP_append, List.countP_cons, Event.isStartSpan,
      Event.isEndSpan]

theorem noTxnResolveAlbum_counts (singerId : Int) (albumTitle : String) (w : World) :
    (AddAllNoTxn.resolveAlbum singerId albumTitle w).2.counts = w.counts := by
  unfold AddAllNoTxn.resolveAlbum
  have hg := getAlbumId_counts false singerId albumTitle w
  rcases hqhg : getAlbumId false singerId albumTitle w with ⟨⟨a, e⟩, w1⟩
  rw [hqhg] at hg
  simp only at hg
  cases e with
  | none => exact hg
  | some e =>
    simp only []
    split
    · rw [World.counts_Printf _ _ (by decide)]
      exact hg
    · have ha := addAlbum_counts singerId albumTitle w1
      rcases hqha : addAlbum singerId albumTitle w1 with ⟨⟨a2, e2⟩, w2⟩
      rw [hqha] at ha
      simp only at ha
      cases e2 with
      | none => exact ha.trans hg
      | some err =>
        simp only []
        rw [World.counts_Printf _ _ (by decide)]
        exact ha.trans hg

theorem AddAllNoTxn_counts (firstName lastName albumTitle : String) (w : World) :
    (AddAllNoTxn firstName lastName albumTitle w).2.counts = w.counts := by
  unfold AddAllNoTxn
  have hg := getSingerId_counts false firstName lastName w
  rcases hqhg : getSingerId false firstName lastName w with ⟨⟨s, e⟩, w1⟩
  rw [hqhg] at hg
  simp only at hg
  cases e with
  | none => exact (noTxnResolveAlbum_counts _ _ _).trans hg
  | some e =>
    simp only []
    split
    · rw [World.counts_Printf _ _ (by decide)]
      exact hg
    · have ha := addSinger_counts firstName lastName w1
      rcases hqha : addSinger firstName lastName w1 with ⟨⟨s2, e2⟩, w2⟩
      rw [hqha] at ha
      simp only at ha
      cases e2 with
      | none => exact (noTxnResolveAlbum_counts _ _ _).trans (ha.trans hg)
      | some err =>
        simp only []
        rw [World.counts_Printf _ _ (by decide)]
        exact ha.trans hg

theorem txnResolveAlbum_counts (singerId : Int) (albumTitle : String) (w : World) :
    (AddAllTxn.resolveAlbum singerId albumTitle w).2.counts = w.counts := by
  unfold AddAllTxn.resolveAlbum
  have hg := getAlbumId_counts true singerId albumTitle w
  rcases hqhg : getAlbumId true singerId albumTitle w with ⟨⟨a, e⟩, w1⟩
  rw [hqhg] at hg
  simp only at hg
  cases e with
  | none => exact hg
  | some e =>
    simp only []
    split
    · rw [World.counts_Printf _ _ (by decide)]
      exact hg
    · have ha := txnAddAlbum_counts singerId albumTitle w1
      rcases hqha : AddAllTxn.addAlbum singerId albumTitle w1 with ⟨⟨a2, e2⟩, w2⟩
      rw [hqha] at ha
      simp only at ha
      cases e2 with
      | none => exact ha.trans hg
      | some err =>
        simp only []
        rw [World.counts_Printf _ _ (by decide)]
        exact ha.trans hg

theorem txnBody_counts (firstName lastName albumTitle : String) (a : Option Int) (w : World) :
    (AddAllTxn.body firstName lastName albumTitle a w).2.counts = w.counts := by
  unfold AddAllTxn.body
  have hg := getSingerId_counts true firstName lastName w
  rcases hqhg : getSingerId true firstName lastName w with ⟨⟨s, e⟩, w1⟩
  rw [hqhg] at hg
  simp only at hg
  cases e with
  | none => exact hg
  | some e =>
    simp only []
    split
    · exact hg
    · have ha := txnAddSinger_counts firstName lastName w1
      rcases hqha : AddAllTxn.addSinger firstName lastName w1 with ⟨⟨s2, e2⟩, w2⟩
      rw [hqha] at ha
      simp only at ha
      cases e2 with
      | some err => exact ha.trans hg
      | none =>
        simp only []
        refine (txnResolveAlbum_counts _ _ _).trans ?_
        rw [World.counts_Printf]
        · exact ha.trans hg
        · simp only [String.append_assoc]
          exact isActionLog_other _ _ _ 'A' _ rfl (by decide)

theorem ReadWriteTransaction_counts {α : Type} (body : World → (α × Option GoError) × World)
    (hbody : ∀ w, (body w).2.counts = w.counts) (w : World) :
    (ReadWriteTransaction body w).2.counts = w.counts := by
  unfold ReadWriteTransaction
  have hb := hbody (w.emit .beginRW)
  rw [World.counts_emit _ .beginRW rfl rfl] at hb
  rcases hqhb : body (w.emit .beginRW) with ⟨⟨a, e⟩, w1⟩
  rw [hqhb] at hb
  simp only at hb
  have hstore : ∀ (v : World) (st : Store), ({ v with store := st } : World).counts = v.counts :=
    fun _ _ => rfl
  cases e with
  | some err =>
    simp only []
    rw [hstore, World.counts_emit _ .rollback rfl rfl]
    exact hb
  | none =>
    simp only [World.nextFault]
    cases w1.faults w1.opCount with
    | some msg =>
      simp only []
      rw [hstore, World.counts_emit _ .rollback rfl rfl]
      exact hb
    | none =>
      simp only []
      rw [World.counts_emit _ .commit rfl rfl]
      exact hb

theorem AddAllTxn_counts (firstName lastName albumTitle : String) (w : World) :
    (AddAllTxn firstName lastName albumTitle w).2.counts = w.counts :=
  ReadWriteTransaction_counts _ (txnBody_counts firstName lastName albumTitle none) w

theorem RandomData_total (w : World) :
    ∃ data, RandomData w = (some data, { w with randPos := w.randPos + 1 + 1 + 1 + 1 + 1 + 1 }) := by
  have hm : w.randSrc w.randPos % RandomData.rank.length < RandomData.rank.length :=
    Nat.mod_lt _ (by decide)
  have hn : w.randSrc (w.randPos + 1) % RandomData.initial.length < RandomData.initial.length :=
    Nat.mod_lt _ (by decide)
  have hp : w.randSrc (w.randPos + 1 + 1) % RandomData.surname.length <
      RandomData.surname.length := Nat.mod_lt _ (by decide)
  have hq : w.randSrc (w.randPos + 1 + 1 + 1) % RandomData.generation.length <
      RandomData.generation.length := Nat.mod_lt _ (by decide)
  have hr : w.randSrc (w.randPos + 1 + 1 + 1 + 1) % RandomData.part1.length <
      RandomData.part1.length := Nat.mod_lt _ (by decide)
  have hs : w.randSrc (w.randPos + 1 + 1 + 1 + 1 + 1) % RandomData.part2.length <
      RandomData.part2.length := Nat.mod_lt _ (by decide)
  simp only [RandomData, RandomData.draws, Int63n, RandomData.compose,
    List.getElem?_eq_getElem hm, List.getElem?_eq_getElem hn, List.getElem?_eq_getElem hp,
    List.getElem?_eq_getElem hq, List.getElem?_eq_getElem hr, List.getElem?_eq_getElem hs]
  exact ⟨_, rfl⟩

theorem queryAlbums_counts (q : String) (w : World) :
    (queryAlbums q w).2.counts = w.counts := by
  unfold queryAlbums
  have hg := Query_counts (.sql q) .readOnly w
  rcases hqhg : Query (.sql q) .readOnly w with ⟨iter, w1⟩
  rw [hqhg] at hg
  simp only at hg
  simp only []
  split
  · exact hg
  · rw [World.counts_Printf]
    · exact hg
    · simp only [String.append_assoc]
      exact isActionLog_other _ _ _ 'q' _ rfl (by decide)

theorem querySingers_counts (q : String) (w : World) :
    (querySingers q w).2.counts = w.counts := by
  unfold querySingers
  have hg := Query_counts (.sql q) .readOnly w
  rcases hqhg : Query (.sql q) .readOnly w with ⟨iter, w1⟩
  rw [hqhg] at hg
  simp only at hg
  simp only []
  split
  · exact hg
  · rw [World.counts_Printf]
    · exact hg
    · simp only [String.append_assoc]
      exact isActionLog_other _ _ _ 'q' _ rfl (by decide)

theorem QueryAlbums_counts (w : World) :
    (QueryAlbums w).2.counts = (w.counts.1 + 1, w.counts.2.1 + 1, w.counts.2.2) := by
  unfold QueryAlbums
  have hq := queryAlbums_counts sqlQueryAlbums (w.emit (.startSpan "query-albums"))
  rw [World.counts_startSpan] at hq
  rcases h : queryAlbums sqlQueryAlbums (w.emit (.startSpan "query-albums")) with
    ⟨⟨e, out⟩, w1⟩
  rw [h] at hq
  simp only at hq
  cases e with
  | none => simp only [World.counts_endSpan, hq]
  | some err =>
    simp only []
    rw [World.counts_endSpan, World.counts_Errorf, hq]
    simp only [String.append_assoc]
    exact isActionLog_other _ _ _ 'E' _ rfl (by decide)

theorem QueryAlbumsLimit_counts (w : World) :
    (QueryAlbumsLimit w).2.counts = (w.counts.1 + 1, w.counts.2.1 + 1, w.counts.2.2) := by
  unfold QueryAlbumsLimit
  have hq := queryAlbums_counts sqlQueryAlbumsLimit (w.emit (.startSpan "query-limit"))
  rw [World.counts_startSpan] at hq
  rcases h : queryAlbums sqlQueryAlbumsLimit (w.emit (.startSpan "query-limit")) with
    ⟨⟨e, out⟩, w1⟩
  rw [h] at hq
  simp only at hq
  cases e with
  | none => simp only [World.counts_endSpan, hq]
  | some err =>
    simp only []
    rw [World.counts_endSpan, World.counts_Printf, hq]
    exact isActionLog_other _ _ _ 'Q' _ rfl (by decide)

theorem QuerySingersFirstName_counts (w : World) :
    (QuerySingersFirstName w).2.counts = (w.counts.1 + 1, w.counts.2.1 + 1, w.counts.2.2) := by
  unfold QuerySingersFirstName
  have hq := querySingers_counts sqlQuerySingersFirstName
    (w.emit (.startSpan "query-singers-first"))
  rw [World.counts_startSpan] at hq
  rcases h : querySingers sqlQuerySingersFirstName (w.emit (.startSpan "query-singers-first"))
    with ⟨⟨e, out⟩, w1⟩
  rw [h] at hq
  simp only at hq
  cases e with
  | none => simp only [World.counts_endSpan, hq]
  | some err =>
    simp only []
    rw [World.counts_endSpan, World.counts_Printf, hq]
    exact isActionLog_other _ _ _ 'Q' _ rfl (by decide)

theorem QuerySingersLastName_counts (w : World) :
    (QuerySingersLastName w).2.counts = (w.counts.1 + 1, w.counts.2.1 + 1, w.counts.2.2) := by
  unfold QuerySingersLastName
  have hq := querySingers_counts sqlQuerySingersLastName
    (w.emit (.startSpan "query-singers-last"))
  rw [World.counts_startSpan] at hq
  rcases h : querySingers sqlQuerySingersLastName (w.emit (.startSpan "query-singers-last"))
    with ⟨⟨e, out⟩, w1⟩
  rw [h] at hq
  simp only at hq
  cases e with
  | none => simp only [World.counts_endSpan, hq]
  | some err =>
    simp only []
    rw [World.counts_endSpan, World.counts_Printf, hq]
    exact isActionLog_other _ _ _ 'Q' _ rfl (by decide)

theorem JoinSingerAlbum_counts (w : World) :
    (JoinSingerAlbum w).2.counts = (w.counts.1 + 1, w.counts.2.1 + 1, w.counts.2.2) := by
  unfold JoinSingerAlbum
  have hq := querySingers_counts sqlJoinSingerAlbum (w.emit (.startSpan "join-singer-album"))
  rw [World.counts_startSpan] at hq
  rcases h : querySingers sqlJoinSingerAlbum (w.emit (.startSpan "join-singer-album")) with
    ⟨⟨e, out⟩, w1⟩
  rw [h] at hq
  simp only at hq
  cases e with
  | none => simp only [World.counts_endSpan, hq]
  | some err =>
    simp only []
    rw [World.counts_endSpan, World.counts_Errorf, hq]
    exact isActionLog_other _ _ _ 'J' _ rfl (by decide)

theorem dispatch_AddAllNoTxn_counts (w : World) :
    ∃ w1, runSimulation.dispatch ACTION_ADD_ALL_TXN w = some w1 ∧
      w1.counts = (w.counts.1 + 1, w.counts.2.1 + 1, w.counts.2.2) := by
  obtain ⟨data, hd⟩ := RandomData_total w
  have he : runSimulation.dispatch ACTION_ADD_ALL_TXN w =
      (match RandomData w with
        | (none, _) => none
        | (some data, w1) =>
          match AddAllNoTxn data.FirstName data.LastName data.AlbumTitle
              (w1.emit (.startSpan "add-album-single-txns")) with
          | ((_, some err), w2) =>
            some ((w2.Printf ("Error adding singer " ++ err.Error)).emit .endSpan)
          | ((_, none), w2) => some (w2.emit .endSpan)) := rfl
  rw [he, hd]
  simp only []
  have ha := AddAllNoTxn_counts data.FirstName data.LastName data.AlbumTitle
    (World.emit { w with randPos := w.randPos + 1 + 1 + 1 + 1 + 1 + 1 }
      (.startSpan "add-album-single-txns"))
  rw [World.counts_startSpan] at ha
  rcases h : AddAllNoTxn data.FirstName data.LastName data.AlbumTitle
    (World.emit { w with randPos := w.randPos + 1 + 1 + 1 + 1 + 1 + 1 }
      (.startSpan "add-album-single-txns")) with ⟨⟨a, e⟩, w2⟩
  rw [h] at ha
  simp only at ha
  cases e with
  | none => exact ⟨_, rfl, by rw [World.counts_endSpan, ha]; rfl⟩
  | some err =>
    refine ⟨_, rfl, ?_⟩
    rw [World.counts_endSpan, World.counts_Printf, ha]
    · rfl
    · exact isActionLog_other _ _ _ 'E' _ rfl (by decide)

theorem dispatch_AddAllTxn_counts (w : World) :
    ∃ w1, runSimulation.dispatch ACTION_ADD_SINGLE_TXNS w = some w1 ∧
      w1.counts = (w.counts.1 + 1, w.counts.2.1 + 1, w.counts.2.2) := by
  obtain ⟨data, hd⟩ := RandomData_total w
  have he : runSimulation.dispatch ACTION_ADD_SINGLE_TXNS w =
      (match RandomData w with
        | (none, _) => none
        | (some data, w1) =>
          match AddAllTxn data.FirstName data.LastName data.AlbumTitle
              (w1.emit (.startSpan "add-album-all-one-txn")) with
          | ((_, some err), w2) =>
            some ((w2.Printf ("Error adding singer in transaction " ++ err.Error)).emit .endSpan)
          | ((_, none), w2) => some (w2.emit .endSpan)) := rfl
  rw [he, hd]
  simp only []
  have ha := AddAllTxn_counts data.FirstName data.LastName data.AlbumTitle
    (World.emit { w with randPos := w.randPos + 1 + 1 + 1 + 1 + 1 + 1 }
      (.startSpan "add-album-all-one-txn"))
  rw [World.counts_startSpan] at ha
  rcases h : AddAllTxn data.FirstName data.LastName data.AlbumTitle
    (World.emit { w with randPos := w.randPos + 1 + 1 + 1 + 1 + 1 + 1 }
      (.startSpan "add-album-all-one-txn")) with ⟨⟨a, e⟩, w2⟩
  rw [h] at ha
  simp only at ha
  cases e with
  | none => exact ⟨_, rfl, by rw [World.counts_endSpan, ha]; rfl⟩
  | some err =>
    refine ⟨_, rfl, ?_⟩
    rw [World.counts_endSpan, World.counts_Printf, ha]
    · rfl
    · exact isActionLog_other _ _ _ 'E' _ rfl (by decide)

theorem dispatch_counts (action : Action) (ha : action ∈ ACTIONS) (w : World) :
    ∃ w1, runSimulation.dispatch action w = some w1 ∧
      w1.counts = (w.counts.1 + 1, w.counts.2.1 + 1, w.counts.2.2) := by
  simp only [ACTIONS, List.mem_cons, List.mem_singleton, List.not_mem_nil, or_false] at ha
  rcases ha with rfl | rfl | rfl | rfl | rfl | rfl | rfl
  · exact ⟨_, rfl, QueryAlbums_counts w⟩
  · exact ⟨_, rfl, QueryAlbumsLimit_counts w⟩
  · exact ⟨_, rfl, QuerySingersFirstName_counts w⟩
  · exact ⟨_, rfl, QuerySingersLastName_counts w⟩
  · exact ⟨_, rfl, JoinSingerAlbum_counts w⟩
  · exact dispatch_AddAllNoTxn_counts w
  · exact dispatch_AddAllTxn_counts w

theorem NextUserAction_total (w : World) :
    ∃ action, action ∈ ACTIONS ∧
      NextUserAction w = (some action, { w with randPos := w.randPos + 1 }) := by
  have hlt : w.randSrc w.randPos % ACTIONS.length < ACTIONS.length := Nat.mod_lt _ (by decide)
  refine ⟨ACTIONS[w.randSrc w.randPos % ACTIONS.length], List.getElem_mem _, ?_⟩
  simp only [NextUserAction, Intn, List.getElem?_eq_getElem hlt]

theorem iteration_counts (i : Nat) (w : World) :
    ∃ w1, runSimulation.iteration i w = some w1 ∧
      w1.counts = (w.counts.1 + 1, w.counts.2.1 + 1, w.counts.2.2 + 1) := by
  have h0 : (if i % 10 = 0 then w.print ("Iteration " ++ toString i ++ "\n") else w).counts =
      w.counts := by
    split <;> rfl
  obtain ⟨action, hmem, hn⟩ := NextUserAction_total
    (if i % 10 = 0 then w.print ("Iteration " ++ toString i ++ "\n") else w)
  obtain ⟨w1, hd, hc⟩ := dispatch_counts action hmem
    (World.Printf { (if i % 10 = 0 then w.print ("Iteration " ++ toString i ++ "\n") else w) with
        randPos := (if i % 10 = 0 then w.print ("Iteration " ++ toString i ++ "\n")
          else w).randPos + 1 }
      ("Next user action is " ++ toString action.val ++ ".\n"))
  refine ⟨w1, ?_, ?_⟩
  · simp only [runSimulation.iteration, hn, hd]
  · rw [hc]
    have hp : ∀ v : World, (v.Printf ("Next user action is " ++ toString action.val ++ ".\n")).counts
        = (v.counts.1, v.counts.2.1, v.counts.2.2 + 1) := by
      intro v
      have ht := isActionLog_action Severity.info (toString action.val ++ ".\n")
      simp only [← String.append_assoc] at ht
      simp [World.counts, World.Printf, List.countP_append, List.countP_cons, ht]
    rw [hp]
    have hr : ∀ (v : World) (k : Nat), ({ v with randPos := k } : World).counts = v.counts :=
      fun _ _ => rfl
    rw [hr, h0]

theorem loop_counts (k i : Nat) (w : World) :
    ∃ w1, runSimulation.loop k i w = some w1 ∧
      w1.counts = (w.counts.1 + k, w.counts.2.1 + k, w.counts.2.2 + k) := by
  induction k generalizing i w with
  | zero => exact ⟨w, rfl, rfl⟩
  | succ k ih =>
    obtain ⟨w1, h1, c1⟩ := iteration_counts i w
    obtain ⟨w2, h2, c2⟩ := ih (i + 1) w1
    refine ⟨w2, ?_, ?_⟩
    · simp only [runSimulation.loop, h1, h2]
    · rw [c2, c1]
      simp only [Prod.mk.injEq]
      omega

/-- Every run of `runSimulation` ends, having logged n more actions obtained
and started and ended n more spans than there were before it. -/
theorem runSimulation_counts (n : Nat) (w : World) :
    ∃ w1, runSimulation n w = some w1 ∧
      w1.logs.countP isActionLog = w.logs.countP isActionLog + n ∧
      w1.trace.countP Event.isStartSpan = w.trace.countP Event.isStartSpan + n ∧
      w1.trace.countP Event.isEndSpan = w.trace.countP Event.isEndSpan + n := by
  obtain ⟨w1, h1, c1⟩ := loop_counts n 0
    (w.print ("Running simulation with " ++ toString n ++ " iterations\n"))
  refine ⟨w1, h1, ?_⟩
  simp only [World.counts, World.print, Prod.mk.injEq] at c1
  exact ⟨c1.2.2, c1.1, c1.2.1⟩

theorem Query_opCount (stmt : Statement) (kind : TxnKind) (w : World) :
    (Query stmt kind w).2.opCount = w.opCount + 1 := by
  unfold Query
  simp only [World.nextFault, World.emit]
  cases w.faults w.opCount with
  | some msg => rfl
  | none =>
    simp only []
    cases execQuery w.store stmt <;> rfl

theorem getSingerId_opCount (txn : Bool) (firstName lastName : String) (w : World) :
    (getSingerId txn firstName lastName w).2.opCount = w.opCount + 1 := by
  rw [getSingerId_eq]
  rfl

theorem getAlbumId_opCount (txn : Bool) (singerId : Int) (albumTitle : String) (w : World) :
    (getAlbumId txn singerId albumTitle w).2.opCount = w.opCount + 1 := by
  rw [getAlbumId_eq]
  cases w.faults w.opCount with
  | some msg => rfl
  | none => cases w.store.albums.filter (albumKey singerId albumTitle) <;> rfl

theorem addSinger_opCount (firstName lastName : String) (w : World) :
    w.opCount ≤ (addSinger firstName lastName w).2.opCount := by
  rw [addSinger_eq]
  cases w.faults w.opCount with
  | some msg => exact Nat.le_succ _
  | none => cases w.faults (w.opCount + 1) <;> exact Nat.le_add_right _ _

theorem addAlbum_opCount (singerId : Int) (albumTitle : String) (w : World) :
    w.opCount ≤ (addAlbum singerId albumTitle w).2.opCount := by
  rw [addAlbum_eq]
  cases w.faults w.opCount with
  | some msg => exact Nat.le_succ _
  | none => cases w.faults (w.opCount + 1) <;> exact Nat.le_add_right _ _

theorem txnAddSinger_opCount (firstName lastName : String) (w : World) :
    w.opCount ≤ (AddAllTxn.addSinger firstName lastName w).2.opCount := by
  rw [txnAddSinger_eq]
  cases w.faults w.opCount <;> exact Nat.le_succ _

theorem txnAddAlbum_opCount (singerId : Int) (albumTitle : String) (w : World) :
    w.opCount ≤ (AddAllTxn.addAlbum singerId albumTitle w).2.opCount := by
  rw [txnAddAlbum_eq]
  cases w.faults w.opCount <;> exact Nat.le_succ _

theorem noTxnResolveAlbum_opCount (singerId : Int) (albumTitle : String) (w : World) :
    w.opCount + 1 ≤ (AddAllNoTxn.resolveAlbum singerId albumTitle w).2.opCount := by
  unfold AddAllNoTxn.resolveAlbum
  have hg := getAlbumId_opCount false singerId albumTitle w
  rcases hq : getAlbumId false singerId albumTitle w with ⟨⟨a, e⟩, w1⟩
  rw [hq] at hg
  simp only at hg
  cases e with
  | none => exact Nat.le_of_eq hg.symm
  | some e =>
    simp only []
    split
    · exact Nat.le_of_eq hg.symm
    · have ha := addAlbum_opCount singerId albumTitle w1
      rcases hq2 : addAlbum singerId albumTitle w1 with ⟨⟨a2, e2⟩, w2⟩
      rw [hq2] at ha
      simp only at ha
      cases e2 with
      | none => exact Nat.le_trans (Nat.le_of_eq hg.symm) ha
      | some err => exact Nat.le_trans (Nat.le_of_eq hg.symm) ha

theorem AddAllNoTxn_opCount (firstName lastName albumTitle : String) (w : World) :
    w.opCount + 1 ≤ (AddAllNoTxn firstName lastName albumTitle w).2.opCount := by
  unfold AddAllNoTxn
  have hg := getSingerId_opCount false firstName lastName w
  rcases hq : getSingerId false firstName lastName w with ⟨⟨s, e⟩, w1⟩
  rw [hq] at hg
  simp only at hg
  cases e with
  | none =>
    have := noTxnResolveAlbum_opCount s albumTitle w1
    simp only []
    omega
  | some e =>
    simp only []
    split
    · exact Nat.le_of_eq hg.symm
    · have ha := addSinger_opCount firstName lastName w1
      rcases hq2 : addSinger firstName lastName w1 with ⟨⟨s2, e2⟩, w2⟩
      rw [hq2] at ha
      simp only at ha
      cases e2 with
      | none =>
        have := noTxnResolveAlbum_opCount s2 albumTitle w2
        simp only []
        omega
      | some err => exact Nat.le_trans (Nat.le_of_eq hg.symm) ha

theorem txnResolveAlbum_opCount (singerId : Int) (albumTitle : String) (w : World) :
    w.opCount ≤ (AddAllTxn.resolveAlbum singerId albumTitle w).2.opCount := by
  unfold AddAllTxn.resolveAlbum
  have hg := getAlbumId_opCount true singerId albumTitle w
  rcases hq : getAlbumId true singerId albumTitle w with ⟨⟨a, e⟩, w1⟩
  rw [hq] at hg
  simp only at hg
  cases e with
  | none =>
    simp only []
    omega
  | some e =>
    simp only []
    split
    · show w.opCount ≤ w1.opCount
      omega
    · have ha := txnAddAlbum_opCount singerId albumTitle w1
      rcases hq2 : AddAllTxn.addAlbum singerId albumTitle w1 with ⟨⟨a2, e2⟩, w2⟩
      rw [hq2] at ha
      simp only at ha
      cases e2 with
      | none =>
        simp only []
        omega
      | some err =>
        show w.opCount ≤ w2.opCount
        omega

theorem txnBody_opCount (firstName lastName albumTitle : String) (a : Option Int) (w : World) :
    w.opCount + 1 ≤ (AddAllTxn.body firstName lastName albumTitle a w).2.opCount := by
  unfold AddAllTxn.body
  have hg := getSingerId_opCount true firstName lastName w
  rcases hq : getSingerId true firstName lastName w with ⟨⟨s, e⟩, w1⟩
  rw [hq] at hg
  simp only at hg
  cases e with
  | none => exact Nat.le_of_eq hg.symm
  | some e =>
    simp only []
    split
    · exact Nat.le_of_eq hg.symm
    · have ha := txnAddSinger_opCount firstName lastName w1
      rcases hq2 : AddAllTxn.addSinger firstName lastName w1 with ⟨⟨s2, e2⟩, w2⟩
      rw [hq2] at ha
      simp only at ha
      cases e2 with
      | some err => exact Nat.le_trans (Nat.le_of_eq hg.symm) ha
      | none =>
        have := txnResolveAlbum_opCount s2 albumTitle
          (w2.Printf ("Added singer " ++ firstName ++ " " ++ lastName ++ " in transaction"))
        simp only [World.Printf_opCount] at this
        simp only []
        omega

theorem AddAllTxn_opCount (firstName lastName albumTitle : String) (w : World) :
    w.opCount + 1 ≤ (AddAllTxn firstName lastName albumTitle w).2.opCount := by
  have hb := txnBody_opCount firstName lastName albumTitle none (w.emit .beginRW)
  simp only [AddAllTxn, ReadWriteTransaction]
  rcases hq : AddAllTxn.body firstName lastName albumTitle none (w.emit .beginRW) with
    ⟨⟨a, e⟩, w1⟩
  rw [hq] at hb
  simp only [World.emit_opCount] at hb
  cases e with
  | some err => exact hb
  | none =>
    simp only [World.nextFault]
    cases w1.faults w1.opCount with
    | some msg => exact Nat.le_succ_of_le hb
    | none => exact Nat.le_succ_of_le hb

theorem queryAlbums_opCount (q : String) (w : World) :
    (queryAlbums q w).2.opCount = w.opCount + 1 := by
  unfold queryAlbums
  have hg := Query_opCount (.sql q) .readOnly w
  rcases hq : Query (.sql q) .readOnly w with ⟨iter, w1⟩
  rw [hq] at hg
  simp only at hg
  simp only []
  split
  · exact hg
  · exact hg

theorem querySingers_opCount (q : String) (w : World) :
    (querySingers q w).2.opCount = w.opCount + 1 := by
  unfold querySingers
  have hg := Query_opCount (.sql q) .readOnly w
  rcases hq : Query (.sql q) .readOnly w with ⟨iter, w1⟩
  rw [hq] at hg
  simp only at hg
  simp only []
  split
  · exact hg
  · exact hg

theorem dispatch_opCount (action : Action) (ha : action ∈ ACTIONS) (w w1 : World)
    (h : runSimulation.dispatch action w = some w1) : w.opCount + 1 ≤ w1.opCount := by
  simp only [ACTIONS, List.mem_cons, List.mem_singleton, List.not_mem_nil, or_false] at ha
  have hqa : ∀ (q name : String) (f : String → String) (v : World),
      (match queryAlbums q (v.emit (.startSpan name)) with
        | ((some err, out), w2) => (out, (w2.Errorf (f err.Error)).emit .endSpan)
        | ((none, out), w2) => (out, w2.emit .endSpan)).2.opCount = v.opCount + 1 ∧
      (match queryAlbums q (v.emit (.startSpan name)) with
        | ((some err, out), w2) => (out, (w2.Printf (f err.Error)).emit .endSpan)
        | ((none, out), w2) => (out, w2.emit .endSpan)).2.opCount = v.opCount + 1 := by
    intro q name f v
    have hg := queryAlbums_opCount q (v.emit (.startSpan name))
    rcases hq : queryAlbums q (v.emit (.startSpan name)) with ⟨⟨e, out⟩, w2⟩
    rw [hq] at hg
    cases e <;> exact ⟨hg, hg⟩
  have hqs : ∀ (q name : String) (f : String → String) (v : World),
      (match querySingers q (v.emit (.startSpan name)) with
        | ((some err, out), w2) => (out, (w2.Errorf (f err.Error)).emit .endSpan)
        | ((none, out), w2) => (out, w2.emit .endSpan)).2.opCount = v.opCount + 1 ∧
      (match querySingers q (v.emit (.startSpan name)) with
        | ((some err, out), w2) => (out, (w2.Printf (f err.Error)).emit .endSpan)
        | ((none, out), w2) => (out, w2.emit .endSpan)).2.opCount = v.opCount + 1 := by
    intro q name f v
    have hg := querySingers_opCount q (v.emit (.startSpan name))
    rcases hq : querySingers q (v.emit (.startSpan name)) with ⟨⟨e, out⟩, w2⟩
    rw [hq] at hg
    cases e <;> exact ⟨hg, hg⟩
  rcases ha with rfl | rfl | rfl | rfl | rfl | rfl | rfl
  · have h1 : some (QueryAlbums w).2 = some w1 := h
    simp only [Option.some.injEq] at h1
    rw [← h1]
    exact Nat.le_of_eq ((hqa sqlQueryAlbums "query-albums"
      (fun e => "Error querying albums " ++ e ++ " for query " ++ sqlQueryAlbums) w).1).symm
  · have h1 : some (QueryAlbumsLimit w).2 = some w1 := h
    simp only [Option.some.injEq] at h1
    rw [← h1]
    exact Nat.le_of_eq ((hqa sqlQueryAlbumsLimit "query-limit"
      (fun e => "QueryLimit Error " ++ e) w).2).symm
  · have h1 : some (QuerySingersFirstName w).2 = some w1 := h
    simp only [Option.some.injEq] at h1
    rw [← h1]
    exact Nat.le_of_eq ((hqs sqlQuerySingersFirstName "query-singers-first"
      (fun e => "QuerySingersFirstName Error " ++ e) w).2).symm
  · have h1 : some (QuerySingersLastName w).2 = some w1 := h
    simp only [Option.some.injEq] at h1
    rw [← h1]
    exact Nat.le_of_eq ((hqs sqlQuerySingersLastName "query-singers-last"
      (fun e => "QuerySingersLastName Error " ++ e) w).2).symm
  · have h1 : some (JoinSingerAlbum w).2 = some w1 := h
    simp only [Option.some.injEq] at h1
    rw [← h1]
    exact Nat.le_of_eq ((hqs sqlJoinSingerAlbum "join-singer-album"
      (fun e => "JoinSingerAlbum Error " ++ e) w).1).symm
  · obtain ⟨data, hd⟩ := RandomData_total w
    have he : runSimulation.dispatch ACTION_ADD_ALL_TXN w =
        (match RandomData w with
          | (none, _) => none
          | (some data, w1) =>
            match AddAllNoTxn data.FirstName data.LastName data.AlbumTitle
                (w1.emit (.startSpan "add-album-single-txns")) with
            | ((_, some err), w2) =>
              some ((w2.Printf ("Error adding singer " ++ err.Error)).emit .endSpan)
            | ((_, none), w2) => some (w2.emit .endSpan)) := rfl
    rw [he, hd] at h
    simp only [] at h
    have ha := AddAllNoTxn_opCount data.FirstName data.LastName data.AlbumTitle
      (World.emit { w with randPos := w.randPos + 1 + 1 + 1 + 1 + 1 + 1 }
        (.startSpan "add-album-single-txns"))
    rcases hq : AddAllNoTxn data.FirstName data.LastName data.AlbumTitle
      (World.emit { w with randPos := w.randPos + 1 + 1 + 1 + 1 + 1 + 1 }
        (.startSpan "add-album-single-txns")) with ⟨⟨a, e⟩, w2⟩
    rw [hq] at ha h
    cases e with
    | none =>
      simp only [Option.some.injEq] at h
      rw [← h]
      exact ha
    | some err =>
      simp only [Option.some.injEq] at h
      rw [← h]
      exact ha
  · obtain ⟨data, hd⟩ := RandomData_total w
    have he : runSimulation.dispatch ACTION_ADD_SINGLE_TXNS w =
        (match RandomData w with
          | (none, _) => none
          | (some data, w1) =>
            match AddAllTxn data.FirstName data.LastName data.AlbumTitle
                (w1.emit (.startSpan "add-album-all-one-txn")) with
            | ((_, some err), w2) =>
              some ((w2.Printf ("Error adding singer in transaction " ++ err.Error)).emit
                .endSpan)
            | ((_, none), w2) => some (w2.emit .endSpan)) := rfl
    rw [he, hd] at h
    simp only [] at h
    have ha := AddAllTxn_opCount data.FirstName data.LastName data.AlbumTitle
      (World.emit { w with randPos := w.randPos + 1 + 1 + 1 + 1 + 1 + 1 }
        (.startSpan "add-album-all-one-txn"))
    rcases hq : AddAllTxn data.FirstName data.LastName data.AlbumTitle
      (World.emit { w with randPos := w.randPos + 1 + 1 + 1 + 1 + 1 + 1 }
        (.startSpan "add-album-all-one-txn")) with ⟨⟨a, e⟩, w2⟩
    rw [hq] at ha h
    cases e with
    | none =>
      simp only [Option.some.injEq] at h
      rw [← h]
      exact ha
    | some err =>
      simp only [Option.some.injEq] at h
      rw [← h]
      exact ha

theorem iteration_opCount (i : Nat) (w w1 : World)
    (h : runSimulation.iteration i w = some w1) : w.opCount + 1 ≤ w1.opCount := by
  obtain ⟨action, hmem, hn⟩ := NextUserAction_total
    (if i % 10 = 0 then w.print ("Iteration " ++ toString i ++ "\n") else w)
  simp only [runSimulation.iteration, hn] at h
  have hd := dispatch_opCount action hmem _ w1 h
  have h0 : (if i % 10 = 0 then w.print ("Iteration " ++ toString i ++ "\n") else w).opCount =
      w.opCount := by
    split <;> rfl
  simp only [World.Printf_opCount, h0] at hd
  exact hd

theorem loop_opCount (k i : Nat) (w w1 : World) (h : runSimulation.loop k i w = some w1) :
    w.opCount + k ≤ w1.opCount := by
  induction k generalizing i w with
  | zero =>
    simp only [runSimulation.loop, Option.some.injEq] at h
    rw [h]
    exact Nat.le_refl _
  | succ k ih =>
    simp only [runSimulation.loop] at h
    cases hi : runSimulation.iteration i w with
    | none =>
      rw [hi] at h
      exact absurd h (by simp)
    | some w2 =>
      rw [hi] at h
      have h1 := iteration_opCount i w w2 hi
      have h2 := ih (i + 1) w2 h
      omega

/-- Seven iterations on `unavailableWorld`: every operation dispatched fails,
each failure is logged, and the next iteration runs. -/
theorem runSimulation_unavailable :
    (runSimulation 7 unavailableWorld).map (fun w => w.logs) =
      some [(Severity.info, "Next user action is 1.\n"),
        (Severity.error, "Error querying albums unavailable for query " ++ sqlQueryAlbums),
        (Severity.info, "Next user action is 2.\n"),
        (Severity.info, "QueryLimit Error unavailable"),
        (Severity.info, "Next user action is 3.\n"),
        (Severity.info, "QuerySingersFirstName Error unavailable"),
        (Severity.info, "Next user action is 4.\n"),
        (Severity.info, "QuerySingersLastName Error unavailable"),
        (Severity.info, "Next user action is 5.\n"),
        (Severity.error, "JoinSingerAlbum Error unavailable"),
        (Severity.info, "Next user action is 6.\n"),
        (Severity.info, "Error looking up singer"),
        (Severity.info, "Error adding singer unavailable"),
        (Severity.info, "Next user action is 7.\n"),
        (Severity.info, "Error adding singer in transaction unavailable")] ∧
    (runSimulation 7 unavailableWorld).map (fun w => w.trace) =
      some [.startSpan "query-albums", .query (.sql sqlQueryAlbums) .readOnly, .endSpan,
        .startSpan "query-limit", .query (.sql sqlQueryAlbumsLimit) .readOnly, .endSpan,
        .startSpan "query-singers-first", .query (.sql sqlQuerySingersFirstName) .readOnly,
        .endSpan,
        .startSpan "query-singers-last", .query (.sql sqlQuerySingersLastName) .readOnly,
        .endSpan,
        .startSpan "join-singer-album", .query (.sql sqlJoinSingerAlbum) .readOnly, .endSpan,
        .startSpan "add-album-single-txns",
        .query (.selectSingerId "Lieutenant H" "Blunder X") .single, .endSpan,
        .startSpan "add-album-all-one-txn", .beginRW,
        .query (.selectSingerId "Rear Admiral O" "Petty officer XVII") .readWrite, .rollback,
        .endSpan] := by
  constructor
  · decide
  · decide

set_option maxRecDepth 100000 in
/-- Seven iterations on `availableWorld`: the two add operations dispatched
insert their singers and albums, and sixteen store operations are made. -/
theorem runSimulation_available :
    (runSimulation 7 availableWorld).map (fun w => (w.store, w.opCount)) =
      some (⟨[⟨10, "Major B", "Zero X"⟩, ⟨12, "Lieutenant H", "Blunder X"⟩,
          ⟨21, "Private Q", "In Charge XIX"⟩],
        [⟨10, 11, "Rain on the Road"⟩, ⟨12, 13, "Water on the Blackboard"⟩,
          ⟨21, 22, "Smoke on the Forest"⟩]⟩, 16) ∧
    (runSimulation 7 availableWorld).map (fun w => w.logs.filter isActionLog) =
      some [(Severity.info, "Next user action is 1.\n"),
        (Severity.info, "Next user action is 2.\n"),
        (Severity.info, "Next user action is 3.\n"),
        (Severity.info, "Next user action is 4.\n"),
        (Severity.info, "Next user action is 5.\n"),
        (Severity.info, "Next user action is 6.\n"),
        (Severity.info, "Next user action is 7.\n")] := by
  constructor
  · decide
  · decide

/-- C11: for every iteration count n and every world, whatever the store
answers to each operation, `runSimulation` runs to the end of its loop, having
logged exactly n actions obtained, started and ended exactly n spans and made
at least n store operations.  Every iteration obtains one of the seven actions
and its result is the world left by the one operation the `switch` runs for
that action, with the error of that operation, if any, logged; the remaining
iterations then run from that world.  On a store that fails every operation,
seven iterations dispatch seven operations and log seven errors; on a store
that answers, the two add operations insert their rows. -/
theorem runSimulation_runs_every_iteration (n : Nat) (w : World) (i k : Nat) (v : World) :
    (∃ w1, runSimulation n w = some w1 ∧
      w1.logs.countP isActionLog = w.logs.countP isActionLog + n ∧
      w1.trace.countP Event.isStartSpan = w.trace.countP Event.isStartSpan + n ∧
      w1.trace.countP Event.isEndSpan = w.trace.countP Event.isEndSpan + n ∧
      w.opCount + n ≤ w1.opCount) ∧
    (∃ v1 v2, runSimulation.iteration i v = some v1 ∧
      runSimulation.loop (k + 1) i v = runSimulation.loop k (i + 1) v1 ∧
      runSimulation.loop k (i + 1) v1 = some v2 ∧
      v.opCount + 1 ≤ v1.opCount ∧ v1.opCount + k ≤ v2.opCount) ∧
    (∃ action, action ∈ ACTIONS ∧
      (NextUserAction
        (if i % 10 = 0 then v.print ("Iteration " ++ toString i ++ "\n") else v)).1 =
          some action ∧
      ((action = ACTION_QUERY_ALBUMS ∧ runSimulation.iteration i v =
            some (QueryAlbums (runSimulation.beforeSwitch i v action)).2) ∨
        (action = ACTION_QUERY_LIMIT ∧ runSimulation.iteration i v =
            some (QueryAlbumsLimit (runSimulation.beforeSwitch i v action)).2) ∨
        (action = ACTION_QUERY_SINGERS_FIRST ∧ runSimulation.iteration i v =
            some (QuerySingersFirstName (runSimulation.beforeSwitch i v action)).2) ∨
        (action = ACTION_QUERY_SINGERS_LAST ∧ runSimulation.iteration i v =
            some (QuerySingersLastName (runSimulation.beforeSwitch i v action)).2) ∨
        (action = ACTION_JOIN_SINGER_ALBUM ∧ runSimulation.iteration i v =
            some (JoinSingerAlbum (runSimulation.beforeSwitch i v action)).2) ∨
        (action = ACTION_ADD_ALL_TXN ∧
          ∃ data, (RandomData (runSimulation.beforeSwitch i v action)).1 = some data ∧
            (((AddAllNoTxn data.FirstName data.LastName data.AlbumTitle
                  ((RandomData (runSimulation.beforeSwitch i v action)).2.emit
                    (.startSpan "add-album-single-txns"))).1.2 = none ∧
                runSimulation.iteration i v =
                  some ((AddAllNoTxn data.FirstName data.LastName data.AlbumTitle
                    ((RandomData (runSimulation.beforeSwitch i v action)).2.emit
                      (.startSpan "add-album-single-txns"))).2.emit .endSpan)) ∨
              ∃ err, (AddAllNoTxn data.FirstName data.LastName data.AlbumTitle
                  ((RandomData (runSimulation.beforeSwitch i v action)).2.emit
                    (.startSpan "add-album-single-txns"))).1.2 = some err ∧
                runSimulation.iteration i v =
                  some (((AddAllNoTxn data.FirstName data.LastName data.AlbumTitle
                    ((RandomData (runSimulation.beforeSwitch i v action)).2.emit
                      (.startSpan "add-album-single-txns"))).2.Printf
                        ("Error adding singer " ++ err.Error)).emit .endSpan))) ∨
        (action = ACTION_ADD_SINGLE_TXNS ∧
          ∃ data, (RandomData (runSimulation.beforeSwitch i v action)).1 = some data ∧
            (((AddAllTxn data.FirstName data.LastName data.AlbumTitle
                  ((RandomData (runSimulation.beforeSwitch i v action)).2.emit
                    (.startSpan "add-album-all-one-txn"))).1.2 = none ∧
                runSimulation.iteration i v =
                  some ((AddAllTxn data.FirstName data.LastName data.AlbumTitle
                    ((RandomData (runSimulation.beforeSwitch i v action)).2.emit
                      (.startSpan "add-album-all-one-txn"))).2.emit .endSpan)) ∨
              ∃ err, (AddAllTxn data.FirstName data.LastName data.AlbumTitle
                  ((RandomData (runSimulation.beforeSwitch i v action)).2.emit
                    (.startSpan "add-album-all-one-txn"))).1.2 = some err ∧
                runSimulation.iteration i v =
                  some (((AddAllTxn data.FirstName data.LastName data.AlbumTitle
                    ((RandomData (runSimulation.beforeSwitch i v action)).2.emit
                      (.startSpan "add-album-all-one-txn"))).2.Printf
                        ("Error adding singer in transaction " ++ err.Error)).emit
                          .endSpan))))) ∧
    ((runSimulation 7 unavailableWorld).map (fun w => w.logs) =
      some [(Severity.info, "Next user action is 1.\n"),
        (Severity.error, "Error querying albums unavailable for query " ++ sqlQueryAlbums),
        (Severity.info, "Next user action is 2.\n"),
        (Severity.info, "QueryLimit Error unavailable"),
        (Severity.info, "Next user action is 3.\n"),
        (Severity.info, "QuerySingersFirstName Error unavailable"),
        (Severity.info, "Next user action is 4.\n"),
        (Severity.info, "QuerySingersLastName Error unavailable"),
        (Severity.info, "Next user action is 5.\n"),
        (Severity.error, "JoinSingerAlbum Error unavailable"),
        (Severity.info, "Next user action is 6.\n"),
        (Severity.info, "Error looking up singer"),
        (Severity.info, "Error adding singer unavailable"),
        (Severity.info, "Next user action is 7.\n"),
        (Severity.info, "Error adding singer in transaction unavailable")] ∧
    (runSimulation 7 unavailableWorld).map (fun w => w.trace) =
      some [.startSpan "query-albums", .query (.sql sqlQueryAlbums) .readOnly, .endSpan,
        .startSpan "query-limit", .query (.sql sqlQueryAlbumsLimit) .readOnly, .endSpan,
        .startSpan "query-singers-first", .query (.sql sqlQuerySingersFirstName) .readOnly,
        .endSpan,
        .startSpan "query-singers-last", .query (.sql sqlQuerySingersLastName) .readOnly,
        .endSpan,
        .startSpan "join-singer-album", .query (.sql sqlJoinSingerAlbum) .readOnly, .endSpan,
        .startSpan "add-album-single-txns",
        .query (.selectSingerId "Lieutenant H" "Blunder X") .single, .endSpan,
        .startSpan "add-album-all-one-txn", .beginRW,
        .query (.selectSingerId "Rear Admiral O" "Petty officer XVII") .readWrite, .rollback,
        .endSpan]) ∧
    ((runSimulation 7 availableWorld).map (fun w => (w.store, w.opCount)) =
      some (⟨[⟨10, "Major B", "Zero X"⟩, ⟨12, "Lieutenant H", "Blunder X"⟩,
          ⟨21, "Private Q", "In Charge XIX"⟩],
        [⟨10, 11, "Rain on the Road"⟩, ⟨12, 13, "Water on the Blackboard"⟩,
          ⟨21, 22, "Smoke on the Forest"⟩]⟩, 16) ∧
    (runSimulation 7 availableWorld).map (fun w => w.logs.filter isActionLog) =
      some [(Severity.info, "Next user action is 1.\n"),
        (Severity.info, "Next user action is 2.\n"),
        (Severity.info, "Next user action is 3.\n"),
        (Severity.info, "Next user action is 4.\n"),
        (Severity.info, "Next user action is 5.\n"),
        (Severity.info, "Next user action is 6.\n"),
        (Severity.info, "Next user action is 7.\n")]) := by
  refine ⟨?_, ?_, ?_, runSimulation_unavailable, runSimulation_available⟩
  · obtain ⟨w1, h1, c1, c2, c3⟩ := runSimulation_counts n w
    exact ⟨w1, h1, c1, c2, c3, loop_opCount n 0
      (w.print ("Running simulation with " ++ toString n ++ " iterations\n")) w1 h1⟩
  · obtain ⟨v1, h1, _⟩ := iteration_counts i v
    obtain ⟨v2, h2, _⟩ := loop_counts k (i + 1) v1
    refine ⟨v1, v2, h1, ?_, h2, iteration_opCount i v v1 h1, loop_opCount k (i + 1) v1 v2 h2⟩
    simp only [runSimulation.loop, h1]
  · obtain ⟨action, hmem, hn⟩ := NextUserAction_total
      (if i % 10 = 0 then v.print ("Iteration " ++ toString i ++ "\n") else v)
    have hit : runSimulation.iteration i v =
        runSimulation.dispatch action (runSimulation.beforeSwitch i v action) := by
      simp only [runSimulation.iteration, runSimulation.beforeSwitch, hn]
    refine ⟨action, hmem, by rw [hn], ?_⟩
    rw [hit]
    generalize runSimulation.beforeSwitch i v action = bs
    simp only [ACTIONS, List.mem_cons, List.mem_singleton, List.not_mem_nil, or_false] at hmem
    rcases hmem with rfl | rfl | rfl | rfl | rfl | rfl | rfl
    · exact Or.inl ⟨rfl, rfl⟩
    · exact Or.inr (Or.inl ⟨rfl, rfl⟩)
    · exact Or.inr (Or.inr (Or.inl ⟨rfl, rfl⟩))
    · exact Or.inr (Or.inr (Or.inr (Or.inl ⟨rfl, rfl⟩)))
    · exact Or.inr (Or.inr (Or.inr (Or.inr (Or.inl ⟨rfl, rfl⟩))))
    · refine Or.inr (Or.inr (Or.inr (Or.inr (Or.inr (Or.inl ⟨rfl, ?_⟩)))))
      obtain ⟨data, hd⟩ := RandomData_total bs
      have he : runSimulation.dispatch ACTION_ADD_ALL_TXN bs =
          (match RandomData bs with
            | (none, _) => none
            | (some data, w1) =>
              match AddAllNoTxn data.FirstName data.LastName data.AlbumTitle
                  (w1.emit (.startSpan "add-album-single-txns")) with
              | ((_, some err), w2) =>
                some ((w2.Printf ("Error adding singer " ++ err.Error)).emit .endSpan)
              | ((_, none), w2) => some (w2.emit .endSpan)) := rfl
      rw [he, hd]
      refine ⟨data, rfl, ?_⟩
      simp only []
      rcases AddAllNoTxn data.FirstName data.LastName data.AlbumTitle
        (World.emit { bs with randPos := bs.randPos + 1 + 1 + 1 + 1 + 1 + 1 }
          (.startSpan "add-album-single-txns")) with ⟨⟨a, e⟩, w2⟩
      cases e with
      | none => exact Or.inl ⟨rfl, rfl⟩
      | some err => exact Or.inr ⟨err, rfl, rfl⟩
    · refine Or.inr (Or.inr (Or.inr (Or.inr (Or.inr (Or.inr ⟨rfl, ?_⟩)))))
      obtain ⟨data, hd⟩ := RandomData_total bs
      have he : runSimulation.dispatch ACTION_ADD_SINGLE_TXNS bs =
          (match RandomData bs with
            | (none, _) => none
            | (some data, w1) =>
              match AddAllTxn data.FirstName data.LastName data.AlbumTitle
                  (w1.emit (.startSpan "add-album-all-one-txn")) with
              | ((_, some err), w2) =>
                some ((w2.Printf ("Error adding singer in transaction " ++ err.Error)).emit
                  .endSpan)
              | ((_, none), w2) => some (w2.emit .endSpan)) := rfl
      rw [he, hd]
      refine ⟨data, rfl, ?_⟩
      simp only []
      rcases AddAllTxn data.FirstName data.LastName data.AlbumTitle
        (World.emit { bs with randPos := bs.randPos + 1 + 1 + 1 + 1 + 1 + 1 }
          (.startSpan "add-album-all-one-txn")) with ⟨⟨a, e⟩, w2⟩
      cases e with
      | none => exact Or.inl ⟨rfl, rfl⟩
      | some err => exact Or.inr ⟨err, rfl, rfl⟩

theorem queryAlbums_loop_rows (rows : List (Int × Int × String)) (tail : List StreamItem)
    (out : List String) (counter : Nat) :
    queryAlbums.loop out counter (rows.map albumItem ++ tail) =
      queryAlbums.loop (out ++ rows.map albumLine) (counter + rows.length) tail := by
  induction rows generalizing out counter with
  | nil => simp
  | cons r rows ih =>
    obtain ⟨a, b, c⟩ := r
    have h : albumItem (a, b, c) = .row [.int64 a, .int64 b, .string c] := rfl
    simp only [List.map_cons, List.cons_append, h, queryAlbums.loop,
      Row.ColumnsInt64Int64String, List.length_cons]
    refine (ih _ _).trans ?_
    simp [albumLine, Nat.add_comm, Nat.add_left_comm]

theorem querySingers_loop_rows (rows : List (Int × String × String)) (tail : List StreamItem)
    (out : List String) (counter : Nat) :
    querySingers.loop out counter (rows.map singerItem ++ tail) =
      querySingers.loop (out ++ rows.map singerLine) (counter + rows.length) tail := by
  induction rows generalizing out counter with
  | nil => simp
  | cons r rows ih =>
    obtain ⟨a, b, c⟩ := r
    have h : singerItem (a, b, c) = .row [.int64 a, .string b, .string c] := rfl
    simp only [List.map_cons, List.cons_append, h, querySingers.loop,
      Row.ColumnsInt64StringString, List.length_cons]
    refine (ih _ _).trans ?_
    simp [singerLine, Nat.add_comm, Nat.add_left_comm]

theorem Query_logs (stmt : Statement) (kind : TxnKind) (w : World) :
    (Query stmt kind w).2.logs = w.logs := by
  unfold Query
  simp only [World.nextFault, World.emit]
  cases w.faults w.opCount with
  | some msg => rfl
  | none =>
    simp only []
    cases execQuery w.store stmt <;> rfl

/-- C12: on a stream of n decodable rows followed by done, `queryAlbums` and
`querySingers` return a nil error, write the n records in stream order and
log the count n (nothing written and count 0 on the empty stream); on a stream
whose item at position k is a failure or a row that does not decode, they
return that error having written the k records before it. -/
theorem query_loops_count (q : String) (w : World) :
    (∀ rows : List (Int × Int × String),
      queryAlbums.loop [] 0 (rows.map albumItem) = (none, rows.map albumLine, rows.length) ∧
      ((Query (.sql q) .readOnly w).1.pending = rows.map albumItem →
        (queryAlbums q w).1 = (none, rows.map albumLine) ∧
        (queryAlbums q w).2.logs = w.logs ++ [(Severity.info,
          "queryAlbums: " ++ toString rows.length ++ " results for query: " ++ q)])) ∧
    (∀ (rows : List (Int × Int × String)) (err : GoError) (rest : List StreamItem),
      queryAlbums.loop [] 0 (rows.map albumItem ++ .failure err :: rest) =
        (some err, rows.map albumLine, rows.length) ∧
      ((Query (.sql q) .readOnly w).1.pending = rows.map albumItem ++ .failure err :: rest →
        (queryAlbums q w).1 = (some err, rows.map albumLine))) ∧
    (∀ (rows : List (Int × Int × String)) (bad : Row) (err : GoError) (rest : List StreamItem),
      bad.ColumnsInt64Int64String = .error err →
      queryAlbums.loop [] 0 (rows.map albumItem ++ .row bad :: rest) =
        (some err, rows.map albumLine, rows.length) ∧
      ((Query (.sql q) .readOnly w).1.pending = rows.map albumItem ++ .row bad :: rest →
        (queryAlbums q w).1 = (some err, rows.map albumLine))) ∧
    (∀ rows : List (Int × String × String),
      querySingers.loop [] 0 (rows.map singerItem) = (none, rows.map singerLine, rows.length) ∧
      ((Query (.sql q) .readOnly w).1.pending = rows.map singerItem →
        (querySingers q w).1 = (none, rows.map singerLine) ∧
        (querySingers q w).2.logs = w.logs ++ [(Severity.info,
          "querySingers # results: " ++ toString rows.length ++ " for query: " ++ q)])) ∧
    (∀ (rows : List (Int × String × String)) (err : GoError) (rest : List StreamItem),
      querySingers.loop [] 0 (rows.map singerItem ++ .failure err :: rest) =
        (some err, rows.map singerLine, rows.length) ∧
      ((Query (.sql q) .readOnly w).1.pending = rows.map singerItem ++ .failure err :: rest →
        (querySingers q w).1 = (some err, rows.map singerLine))) ∧
    (∀ (rows : List (Int × String × String)) (bad : Row) (err : GoError) (rest : List StreamItem),
      bad.ColumnsInt64StringString = .error err →
      querySingers.loop [] 0 (rows.map singerItem ++ .row bad :: rest) =
        (some err, rows.map singerLine, rows.length) ∧
      ((Query (.sql q) .readOnly w).1.pending = rows.map singerItem ++ .row bad :: rest →
        (querySingers q w).1 = (some err, rows.map singerLine))) := by
  refine ⟨?_, ?_, ?_, ?_, ?_, ?_⟩
  · intro rows
    have h := queryAlbums_loop_rows rows [] [] 0
    simp only [List.append_nil, List.nil_append, Nat.zero_add, queryAlbums.loop] at h
    refine ⟨h, fun hp => ?_⟩
    simp only [queryAlbums, hp, h, World.Printf, Query_logs, and_self]
  · intro rows err rest
    have h := queryAlbums_loop_rows rows (.failure err :: rest) [] 0
    simp only [List.nil_append, Nat.zero_add, queryAlbums.loop] at h
    refine ⟨h, fun hp => ?_⟩
    simp only [queryAlbums, hp, h]
  · intro rows bad err rest hbad
    have h := queryAlbums_loop_rows rows (.row bad :: rest) [] 0
    simp only [List.nil_append, Nat.zero_add, queryAlbums.loop, hbad] at h
    refine ⟨h, fun hp => ?_⟩
    simp only [queryAlbums, hp, h]
  · intro rows
    have h := querySingers_loop_rows rows [] [] 0
    simp only [List.append_nil, List.nil_append, Nat.zero_add, querySingers.loop] at h
    refine ⟨h, fun hp => ?_⟩
    simp only [querySingers, hp, h, World.Printf, Query_logs, and_self]
  · intro rows err rest
    have h := querySingers_loop_rows rows (.failure err :: rest) [] 0
    simp only [List.nil_append, Nat.zero_add, querySingers.loop] at h
    refine ⟨h, fun hp => ?_⟩
    simp only [querySingers, hp, h]
  · intro rows bad err rest hbad
    have h := querySingers_loop_rows rows (.row bad :: rest) [] 0
    simp only [List.nil_append, Nat.zero_add, querySingers.loop, hbad] at h
    refine ⟨h, fun hp => ?_⟩
    simp only [querySingers, hp, h]

/-- Witness of C12: the album query on `sampleWorld` yields one row, on a
database without albums none, on a failing store a failure at position 0; a
row of two columns does not decode. -/
theorem query_loops_count_witness :
    ((Query (.sql sqlQueryAlbums) .readOnly sampleWorld).1.pending =
        [(10, 11, "Rain on the Road")].map albumItem ∧
      (queryAlbums sqlQueryAlbums sampleWorld).1 = (none, ["10 11 Rain on the Road"])) ∧
    ((Query (.sql sqlQueryAlbums) .readOnly emptyWorld).1.pending = [].map albumItem ∧
      (queryAlbums sqlQueryAlbums emptyWorld).1 = (none, [])) ∧
    ((Query (.sql sqlQueryAlbums) .readOnly (failingWorld 0 "deadline exceeded")).1.pending =
        [].map albumItem ++ [.failure (.store "deadline exceeded")] ∧
      (queryAlbums sqlQueryAlbums (failingWorld 0 "deadline exceeded")).1 =
        (some (.store "deadline exceeded"), [])) ∧
    (Row.ColumnsInt64Int64String [.int64 5, .int64 7] =
        .error (.store "number of columns does not match number of destinations") ∧
      queryAlbums.loop [] 0 ([(10, 11, "Rain on the Road")].map albumItem ++
          [.row [.int64 5, .int64 7]]) =
        (some (.store "number of columns does not match number of destinations"),
          ["10 11 Rain on the Road"], 1)) ∧
    ((Query (.sql sqlQuerySingersFirstName) .readOnly emptyWorld).1.pending =
        [].map singerItem ∧
      (querySingers sqlQuerySingersFirstName emptyWorld).1 = (none, [])) := by
  have h1 : (Query (.sql sqlQueryAlbums) .readOnly sampleWorld).1.pending =
      [(10, 11, "Rain on the Road")].map albumItem := by decide
  have h2 : (Query (.sql sqlQueryAlbums) .readOnly emptyWorld).1.pending = [].map albumItem := by
    decide
  have h3 : (Query (.sql sqlQueryAlbums) .readOnly (failingWorld 0 "deadline exceeded")).1.pending =
      [].map albumItem ++ [.failure (.store "deadline exceeded")] := by decide
  have h4 : Row.ColumnsInt64Int64String [.int64 5, .int64 7] =
      .error (.store "number of columns does not match number of destinations") := rfl
  have h5 : (Query (.sql sqlQuerySingersFirstName) .readOnly emptyWorld).1.pending =
      [].map singerItem := by decide
  exact ⟨⟨h1, (((query_loops_count sqlQueryAlbums sampleWorld).1
        [(10, 11, "Rain on the Road")]).2 h1).1⟩,
    ⟨h2, (((query_loops_count sqlQueryAlbums emptyWorld).1 []).2 h2).1⟩,
    ⟨h3, ((query_loops_count sqlQueryAlbums (failingWorld 0 "deadline exceeded")).2.1 []
        (.store "deadline exceeded") []).2 h3⟩,
    ⟨h4, ((query_loops_count sqlQueryAlbums emptyWorld).2.2.1 [(10, 11, "Rain on the Road")]
        [.int64 5, .int64 7] _ [] h4).1⟩,
    ⟨h5, (((query_loops_count sqlQuerySingersFirstName emptyWorld).2.2.2.1 []).2 h5).1⟩⟩

theorem AddAllTxn_absent_ok (w : World) (firstName lastName albumTitle : String)
    (hr : w.store.singers.filter (singerKey firstName lastName) = [])
    (hok : ∀ n, w.faults n = none) :
    (AddAllTxn firstName lastName albumTitle w).2.store.singers =
        w.store.singers ++ [⟨w.draw 0, firstName, lastName⟩] ∧
      (AddAllTxn firstName lastName albumTitle w).2.faults = w.faults := by
  cases ha : w.store.albums.filter (albumKey (w.draw 0) albumTitle) with
  | nil =>
    simp [AddAllTxn, ReadWriteTransaction, AddAllTxn.body, getSingerId_eq, hok, hr, NOT_FOUND,
      txnAddSinger_eq, AddAllTxn.resolveAlbum, getAlbumId_eq, ha, albumNotFound, txnAddAlbum_eq,
      World.nextFault]
  | cons a arest =>
    simp [AddAllTxn, ReadWriteTransaction, AddAllTxn.body, getSingerId_eq, hok, hr, NOT_FOUND,
      txnAddSinger_eq, AddAllTxn.resolveAlbum, getAlbumId_eq, ha, World.nextFault]

theorem AddAllTxn_each_length (calls : List (String × String × String)) (w : World)
    (hdistinct : (calls.map (fun c => (c.1, c.2.1))).Nodup)
    (habsent : ∀ c ∈ calls, ∀ s ∈ w.store.singers, ¬ (s.FirstName = c.1 ∧ s.LastName = c.2.1))
    (hok : ∀ n, w.faults n = none) :
    (AddAllTxn.each calls w).store.singers.length = w.store.singers.length + calls.length ∧
      (AddAllTxn.each calls w).faults = w.faults := by
  induction calls generalizing w with
  | nil => exact ⟨rfl, rfl⟩
  | cons c rest ih =>
    obtain ⟨firstName, lastName, albumTitle⟩ := c
    simp only [List.map_cons, List.nodup_cons] at hdistinct
    have hr := filter_singerKey_nil firstName lastName _
      (habsent (firstName, lastName, albumTitle) (List.mem_cons_self _ _))
    obtain ⟨hs, hf⟩ := AddAllTxn_absent_ok w firstName lastName albumTitle hr hok
    have hok2 : ∀ n, (AddAllTxn firstName lastName albumTitle w).2.faults n = none := by
      intro n
      rw [hf]
      exact hok n
    have habs2 : ∀ c ∈ rest, ∀ s ∈ (AddAllTxn firstName lastName albumTitle w).2.store.singers,
        ¬ (s.FirstName = c.1 ∧ s.LastName = c.2.1) := by
      intro c hc s hsm
      rw [hs, List.mem_append, List.mem_singleton] at hsm
      rcases hsm with hsm | hsm
      · exact habsent c (List.mem_cons_of_mem _ hc) s hsm
      · subst hsm
        rintro ⟨h1, h2⟩
        apply hdistinct.1
        rw [List.mem_map]
        exact ⟨c, hc, by simp only [← h1, ← h2]⟩
    obtain ⟨hlen, hfl⟩ := ih _ hdistinct.2 habs2 hok2
    refine ⟨?_, ?_⟩
    · show (AddAllTxn.each rest (AddAllTxn firstName lastName albumTitle w).2).store.singers.length
        = w.store.singers.length + (rest.length + 1)
      rw [hlen, hs, List.length_append, List.length_singleton]
      omega
    · show (AddAllTxn.each rest (AddAllTxn firstName lastName albumTitle w).2).faults = w.faults
      rw [hfl, hf]

theorem CountRows_singers (w : World) (hf : w.faults w.opCount = none) :
    CountRows "SingerId" "Singers" w =
      ((((w.store.singers.length : Nat) : Int), none),
        w.afterQuery (.sql (sqlCount "SingerId" "Singers")) .single) := by
  have h1 : sqlCount "SingerId" "Singers" ≠ sqlQueryAlbums := by decide
  have h2 : sqlCount "SingerId" "Singers" ≠ sqlQueryAlbumsLimit := by decide
  have h3 : sqlCount "SingerId" "Singers" ≠ sqlQuerySingersFirstName := by decide
  have h4 : sqlCount "SingerId" "Singers" ≠ sqlQuerySingersLastName := by decide
  have h5 : sqlCount "SingerId" "Singers" ≠ sqlJoinSingerAlbum := by decide
  simp only [CountRows, Query, World.nextFault, World.emit, hf, execQuery, h1, h2, h3, h4, h5,
    if_false, if_true, List.map_cons, List.map_nil, RowIterator.Next, Row.ColumnsInt64,
    World.afterQuery]

/-- C13 as stated fails: ("Major B", "Zero X") is a list of one key, every
store operation succeeds, and the count of Singer rows of `sampleWorld` is 1
before the call of `AddAllTxn` and 1 after it, because the key is in the
store. -/
theorem AddAllTxn_each_present_key_no_growth :
    ([("Major B", "Zero X", "Smoke on the Water")].map (fun c => (c.1, c.2.1))).Nodup ∧
    (∀ n, sampleWorld.faults n = none) ∧
    (CountRows "SingerId" "Singers" sampleWorld).1 = (1, none) ∧
    (CountRows "SingerId" "Singers"
      (AddAllTxn.each [("Major B", "Zero X", "Smoke on the Water")]
        (CountRows "SingerId" "Singers" sampleWorld).2)).1 = (1, none) ∧
    (AddAllTxn.each [("Major B", "Zero X", "Smoke on the Water")]
        sampleWorld).store.singers.length ≠ sampleWorld.store.singers.length + 1 := by
  refine ⟨by decide, fun _ => rfl, by decide, by decide, by decide⟩

/-- C13 amended: for every list of N calls of `AddAllTxn` whose natural keys
are pairwise distinct and match no Singer row of the starting store, when every
store operation succeeds, the number of Singer rows after the calls is the
number before plus N, as table length and as `CountRows` reports it before and
after the calls. -/
theorem AddAllTxn_each_count (calls : List (String × String × String)) (w : World)
    (hdistinct : (calls.map (fun c => (c.1, c.2.1))).Nodup)
    (habsent : ∀ c ∈ calls, ∀ s ∈ w.store.singers, ¬ (s.FirstName = c.1 ∧ s.LastName = c.2.1))
    (hok : ∀ n, w.faults n = none) :
    (AddAllTxn.each calls w).store.singers.length = w.store.singers.length + calls.length ∧
    (CountRows "SingerId" "Singers" w).1 = (((w.store.singers.length : Nat) : Int), none) ∧
    (CountRows "SingerId" "Singers"
      (AddAllTxn.each calls (CountRows "SingerId" "Singers" w).2)).1 =
        (((w.store.singers.length + calls.length : Nat) : Int), none) := by
  have h0 := CountRows_singers w (hok _)
  obtain ⟨hlen, hfl⟩ := AddAllTxn_each_length calls
    (w.afterQuery (.sql (sqlCount "SingerId" "Singers")) .single) hdistinct habsent hok
  refine ⟨(AddAllTxn_each_length calls w hdistinct habsent hok).1, by rw [h0], ?_⟩
  rw [h0, CountRows_singers _ (by rw [hfl]; exact hok _), hlen]
  rfl

/-- Witness of C13: two calls with distinct keys absent from `sampleWorld`. -/
theorem AddAllTxn_each_count_witness :
    (([("Captain A", "Ryan II", "Smoke on the Water"),
          ("Captain A", "Zero X", "Smoke on the Water")].map (fun c => (c.1, c.2.1))).Nodup ∧
      (∀ c ∈ [("Captain A", "Ryan II", "Smoke on the Water"),
          ("Captain A", "Zero X", "Smoke on the Water")],
        ∀ s ∈ sampleWorld.store.singers, ¬ (s.FirstName = c.1 ∧ s.LastName = c.2.1)) ∧
      (∀ n, sampleWorld.faults n = none)) ∧
    (AddAllTxn.each [("Captain A", "Ryan II", "Smoke on the Water"),
      ("Captain A", "Zero X", "Smoke on the Water")] sampleWorld).store.singers.length = 1 + 2 := by
  have h1 : ([("Captain A", "Ryan II", "Smoke on the Water"),
      ("Captain A", "Zero X", "Smoke on the Water")].map (fun c => (c.1, c.2.1))).Nodup := by
    decide
  have h2 : ∀ c ∈ [("Captain A", "Ryan II", "Smoke on the Water"),
      ("Captain A", "Zero X", "Smoke on the Water")],
      ∀ s ∈ sampleWorld.store.singers, ¬ (s.FirstName = c.1 ∧ s.LastName = c.2.1) := by
    decide
  have h3 : ∀ n, sampleWorld.faults n = none := fun _ => rfl
  exact ⟨⟨h1, h2, h3⟩, (AddAllTxn_each_count _ sampleWorld h1 h2 h3).1⟩

theorem txnBody_stale (firstName lastName albumTitle : String) (a : Option Int)
    (w : World) :
    (AddAllTxn.body firstName lastName albumTitle a w).2 =
        (AddAllTxn.body firstName lastName albumTitle none w).2 ∧
      (AddAllTxn.body firstName lastName albumTitle a w).1.2 =
        (AddAllTxn.body firstName lastName albumTitle none w).1.2 := by
  simp only [AddAllTxn.body, getSingerId_eq, txnAddSinger_eq]
  cases hf : w.faults w.opCount with
  | some msg => simp [SPANNER_ERROR, NOT_FOUND]
  | none =>
    cases hr : w.store.singers.filter (singerKey firstName lastName) with
    | cons r rest => simp
    | nil =>
      simp only [ne_eq, not_true_eq_false, if_false, World.afterQuery_faults,
        World.afterQuery_opCount]
      cases hf1 : w.faults (w.opCount + 1) with
      | some msg => simp
      | none => simp

/-- C14, at the input that breaks it: on an empty database the first attempt
of `AddAllTxn` for ("Captain A", "Ryan II", "Smoke on the Water") inserts the
singer and the album and leaves the album id 1 in `albumId`; the gateway
aborts it and re-invokes the body on a store where another client has added
that singer.  The second attempt finds the singer and returns at once, so the
call returns the album id 1 of the aborted attempt with a nil error, and no
album is in the store, while a single run of the body on that store returns a
nil album id.  A stale value changes neither the error nor the world the call
leaves. -/
theorem AddAllTxn_retry_keeps_stale_album_id (w : World) (firstName lastName albumTitle : String)
    (a : Option Int) :
    (AddAllTxn.retried "Captain A" "Ryan II" "Smoke on the Water" emptyWorld
        ⟨[⟨50, "Captain A", "Ryan II"⟩], []⟩).1 = (some 1, none) ∧
    (AddAllTxn "Captain A" "Ryan II" "Smoke on the Water"
        (AddAllTxn.abortedAttempt "Captain A" "Ryan II" "Smoke on the Water" emptyWorld
          ⟨[⟨50, "Captain A", "Ryan II"⟩], []⟩).2).1 = (none, none) ∧
    (AddAllTxn.retried "Captain A" "Ryan II" "Smoke on the Water" emptyWorld
        ⟨[⟨50, "Captain A", "Ryan II"⟩], []⟩).2.store = ⟨[⟨50, "Captain A", "Ryan II"⟩], []⟩ ∧
    (ReadWriteTransaction (AddAllTxn.body firstName lastName albumTitle a) w).1.2 =
        (AddAllTxn firstName lastName albumTitle w).1.2 ∧
    (ReadWriteTransaction (AddAllTxn.body firstName lastName albumTitle a) w).2 =
        (AddAllTxn firstName lastName albumTitle w).2 := by
  refine ⟨by decide, by decide, by decide, ?_, ?_⟩
  · have h := txnBody_stale firstName lastName albumTitle a (w.emit .beginRW)
    simp only [AddAllTxn, ReadWriteTransaction]
    rcases hb : AddAllTxn.body firstName lastName albumTitle a (w.emit .beginRW) with
      ⟨⟨a1, e1⟩, w1⟩
    rcases hn : AddAllTxn.body firstName lastName albumTitle none (w.emit .beginRW) with
      ⟨⟨a2, e2⟩, w2⟩
    rw [hb, hn] at h
    simp only at h
    obtain ⟨rfl, rfl⟩ := h
    cases e1 with
    | some e => rfl
    | none =>
      simp only [World.nextFault]
      cases w1.faults w1.opCount <;> rfl
  · have h := txnBody_stale firstName lastName albumTitle a (w.emit .beginRW)
    simp only [AddAllTxn, ReadWriteTransaction]
    rcases hb : AddAllTxn.body firstName lastName albumTitle a (w.emit .beginRW) with
      ⟨⟨a1, e1⟩, w1⟩
    rcases hn : AddAllTxn.body firstName lastName albumTitle none (w.emit .beginRW) with
      ⟨⟨a2, e2⟩, w2⟩
    rw [hb, hn] at h
    simp only at h
    obtain ⟨rfl, rfl⟩ := h
    cases e1 with
    | some e => rfl
    | none =>
      simp only [World.nextFault]
      cases w1.faults w1.opCount <;> rfl

theorem noTxnResolveAlbum_error_nil (singerId : Int) (albumTitle : String) (w : World) :
    (AddAllNoTxn.resolveAlbum singerId albumTitle w).1.2 = none ∨
      (AddAllNoTxn.resolveAlbum singerId albumTitle w).1.1 = none := by
  simp only [AddAllNoTxn.resolveAlbum, getAlbumId_eq, addAlbum_eq]
  cases hf : w.faults w.opCount with
  | some msg => simp [SPANNER_ERROR, NOT_FOUND]
  | none =>
    cases ha : w.store.albums.filter (albumKey singerId albumTitle) with
    | cons a arest => simp
    | nil =>
      cases hf1 : w.faults (w.opCount + 1) with
      | some msg => simp [albumNotFound, hf1]
      | none =>
        cases hf2 : w.faults (w.opCount + 1 + 1) with
        | some msg => simp [albumNotFound, hf1, hf2]
        | none => simp [albumNotFound, hf1, hf2]

theorem AddAllNoTxn_error_nil (firstName lastName albumTitle : String) (w : World) :
    (AddAllNoTxn firstName lastName albumTitle w).1.2 = none ∨
      (AddAllNoTxn firstName lastName albumTitle w).1.1 = none := by
  simp only [AddAllNoTxn, getSingerId_eq, addSinger_eq]
  cases hf : w.faults w.opCount with
  | some msg => simp [SPANNER_ERROR, NOT_FOUND]
  | none =>
    cases hr : w.store.singers.filter (singerKey firstName lastName) with
    | cons r rest => exact noTxnResolveAlbum_error_nil _ _ _
    | nil =>
      simp only [ne_eq, not_true_eq_false, if_false, World.afterQuery_faults,
        World.afterQuery_opCount]
      cases hf1 : w.faults (w.opCount + 1) with
      | some msg => simp
      | none =>
        cases hf2 : w.faults (w.opCount + 1 + 1) with
        | some msg => simp
        | none => exact noTxnResolveAlbum_error_nil _ _ _

/-- C15: an error result of `AddAllNoTxn` never carries an album id (its
error is nil or its album id is nil, whatever the lookups and inserts do), but
one of `AddAllTxn` does: when the store rejects the Album insert inside the
transaction ("Captain A", "Ryan II", "Smoke on the Water" on `sampleWorld` with
the fourth store operation failing), the body has assigned `albumId` before it
returns the error, and `AddAllTxn` returns the id 101 with that error. -/
theorem error_result_album_id (w : World) (firstName lastName albumTitle : String) :
    ((AddAllNoTxn firstName lastName albumTitle w).1.2 = none ∨
      (AddAllNoTxn firstName lastName albumTitle w).1.1 = none) ∧
    (AddAllTxn.body "Captain A" "Ryan II" "Smoke on the Water" none
      ((failingWorld 3 "deadline exceeded").emit .beginRW)).1 =
        (some 101, some (.store "deadline exceeded")) ∧
    (AddAllTxn "Captain A" "Ryan II" "Smoke on the Water" (failingWorld 3 "deadline exceeded")).1 =
      (some 101, some (.store "deadline exceeded")) ∧
    (AddAllNoTxn "Captain A" "Ryan II" "Smoke on the Water"
      (failingWorld 5 "deadline exceeded")).1 = (none, some (.store "deadline exceeded")) := by
  exact ⟨AddAllNoTxn_error_nil firstName lastName albumTitle w, by decide, by decide, by decide⟩

end SpannerLab
